import Mathlib

/-!
rocSOLVER drivers: GELQF, ORG2L/UNG2L, ORMBR/UNMBR.

A shallow embedding of the host-side control flow of

* `roclapack_gelqf.hpp` (`rocsolver_gelqf_getMemorySize`, `rocsolver_gelqf_template`),
* `rocauxiliary_org2l_ung2l.hpp` (`rocsolver_org2l_ung2l_getMemorySize`,
  `rocsolver_org2l_orgql_argCheck`, `rocsolver_org2l_ung2l_template`),
* `rocauxiliary_ormbr_unmbr.hpp` (`rocsolver_ormbr_unmbr_getMemorySize`,
  `rocsolver_ormbr_argCheck`, `rocsolver_ormbr_unmbr_template`),
* `roclapack_getf2_strided_batched.cpp` (`rocsolver_getf2_strided_batched_impl`),
* `roclapack_geblttrf_npvt_interleaved_batched.cpp`
  (`rocsolver_geblttrf_npvt_interleaved_batched_impl`).

Conventions of the embedding.

* `rocblas_int` values are mathematical integers (`Int`); the statements below are about
  dimensions for which the C++ arithmetic does not overflow.  `size_t` values are natural
  numbers reduced modulo `2 ^ 64` wherever the source computes with them.
* A routine that calls sub-routines or launches kernels returns, next to its status, the
  record of what it issued, in program order.  Sub-routines whose source is not part of the
  embedded files (`gelq2`, `larft`, `larfb`, `larf`, `ormqr`, `ormlq` and their sizing
  functions) are parameters.
* The compile-time constants `GExQF_GExQ2_SWITCHSIZE` and `GExQF_GExQ2_BLOCKSIZE` are
  parameters, collected in `IdealSizes`.
* The `while` loop of `rocsolver_gelqf_template` is run with a fuel argument; `none` stands
  for a loop that has not finished within the given number of iterations.
* The effect of GELQ2, LARFT and LARFB on the matrix is modelled from the spec, over
  arbitrary row and scalar types and arbitrary reflector operations (`ReflectorOps`).
* The kernel `org2l_init_ident` is embedded per thread, for one batch instance, over a
  memory indexed by element offset; a launch runs its threads in the order of a schedule,
  and the statements about a launch hold for every schedule.  The thread indices of the
  kernel are 32-bit unsigned integers: its comparisons and its subscript are computed
  modulo `2 ^ 32` (`toUInt32`).
-/

namespace RocSolver

/-! ## rocBLAS types -/

/-- Status codes returned by the routines (`rocblas_status`). -/
inductive rocblas_status
  | rocblas_status_success
  | rocblas_status_invalid_handle
  | rocblas_status_not_implemented
  | rocblas_status_invalid_pointer
  | rocblas_status_invalid_size
  | rocblas_status_memory_error
  | rocblas_status_internal_error
  | rocblas_status_perf_degraded
  | rocblas_status_size_query_mismatch
  | rocblas_status_size_increased
  | rocblas_status_size_unchanged
  | rocblas_status_invalid_value
  | rocblas_status_continue
  deriving DecidableEq, Repr

open rocblas_status

/-- Values of `rocblas_side`; `rocblas_side_both` is a value of the enumeration that the
routines here do not support. -/
inductive rocblas_side
  | rocblas_side_left
  | rocblas_side_right
  | rocblas_side_both
  deriving DecidableEq, Repr

open rocblas_side

/-- Values of `rocblas_operation`; `rocblas_operation_other` stands for any integer outside
the three enumerators. -/
inductive rocblas_operation
  | rocblas_operation_none
  | rocblas_operation_transpose
  | rocblas_operation_conjugate_transpose
  | rocblas_operation_other
  deriving DecidableEq, Repr

open rocblas_operation

/-- Values of `rocblas_storev`; `rocblas_storev_other` stands for any integer outside the
two enumerators. -/
inductive rocblas_storev
  | rocblas_column_wise
  | rocblas_row_wise
  | rocblas_storev_other
  deriving DecidableEq, Repr

open rocblas_storev

/-- Values of `rocblas_direct`. -/
inductive rocblas_direct
  | rocblas_forward_direction
  | rocblas_backward_direction
  deriving DecidableEq, Repr

open rocblas_direct

/-- Values of `rocblas_pointer_mode`. -/
inductive rocblas_pointer_mode
  | rocblas_pointer_mode_host
  | rocblas_pointer_mode_device
  deriving DecidableEq, Repr

open rocblas_pointer_mode

/-- The part of a (non-null) `rocblas_handle` that the routines read: whether the handle is
in device-memory-size-query mode, and its pointer mode. -/
structure rocblas_handle where
  device_memory_size_query : Bool
  pointer_mode : rocblas_pointer_mode
  deriving DecidableEq, Repr

/-- The query `rocblas_is_device_memory_size_query(handle)`. -/
def rocblas_is_device_memory_size_query (handle : rocblas_handle) : Bool :=
  handle.device_memory_size_query

/-- A device pointer argument; `none` is the null pointer. -/
abbrev DevPtr := Option Nat

/-- The C++ test `!p` on a pointer. -/
def isNull (p : DevPtr) : Bool := p.isNone

/-- The C++ truth value of an integer: `x` is true iff it is not zero. -/
def truthy (x : Int) : Bool := decide (x ≠ 0)

/-- Conversion of a `rocblas_int` to `size_t`. -/
def toSizeT (x : Int) : Nat := (x % 2 ^ 64).toNat

/-- Multiplication of two `size_t` values. -/
def mulSizeT (a b : Nat) : Nat := (a * b) % 2 ^ 64

/-- Modelled from the spec: the macro `idx2D(i, j, lda)` of the library, the offset of the
element in row `i` and column `j` of a column-major matrix of leading dimension `lda`. -/
def idx2D (i j lda : Int) : Int := j * lda + i

/-- The compile-time tuning constants used by GELQF. -/
structure IdealSizes where
  GExQF_GExQ2_SWITCHSIZE : Int
  GExQF_GExQ2_BLOCKSIZE : Int
  deriving DecidableEq, Repr

/-! ## GELQF: workspace sizes -/

/-- A query made to the sizing function of a sub-routine. -/
inductive MemQuery
  | gelq2 (m n batch_count : Int)
  | larft (n k batch_count : Int)
  | larfb (side : rocblas_side) (m n k batch_count : Int)
  | larf (side : rocblas_side) (m n batch_count : Int)
  | ormqr (side : rocblas_side) (m n k batch_count : Int)
  | ormlq (side : rocblas_side) (m n k batch_count : Int)
  deriving DecidableEq, Repr

/-- Outputs of `rocsolver_gelq2_getMemorySize`. -/
structure Gelq2Sizes where
  size_scalars : Nat
  size_work_workArr : Nat
  size_Abyx_norms : Nat
  size_diag : Nat
  deriving DecidableEq, Repr

/-- Outputs of `rocsolver_larft_getMemorySize`. -/
structure LarftSizes where
  size_scalars : Nat
  size_work : Nat
  size_workArr : Nat
  deriving DecidableEq, Repr

/-- Outputs of `rocsolver_larfb_getMemorySize`. -/
structure LarfbSizes where
  size_work : Nat
  size_tmptr : Nat
  size_workArr : Nat
  deriving DecidableEq, Repr

/-- Sizing functions of the sub-routines GELQF is built from, and `sizeof(T)`. -/
structure GelqfOracles where
  sizeofT : Nat
  rocsolver_gelq2_getMemorySize : Int → Int → Int → Gelq2Sizes
  rocsolver_larft_getMemorySize : Int → Int → Int → LarftSizes
  rocsolver_larfb_getMemorySize : rocblas_side → Int → Int → Int → Int → LarfbSizes

/-- Outputs of `rocsolver_gelqf_getMemorySize`. -/
structure GelqfSizes where
  size_scalars : Nat
  size_work_workArr : Nat
  size_Abyx_norms_trfact : Nat
  size_diag_tmptr : Nat
  size_workArr : Nat
  deriving DecidableEq, Repr

/-- The function `rocsolver_gelqf_getMemorySize<T, BATCHED>`: the five sizes it stores, and
the queries it makes to the sizing functions of the sub-routines. -/
def rocsolver_gelqf_getMemorySize (cfg : IdealSizes) (o : GelqfOracles) (BATCHED : Bool)
    (m n batch_count : Int) : GelqfSizes × List MemQuery :=
  -- if quick return no workspace needed
  if m = 0 ∨ n = 0 ∨ batch_count = 0 then
    (⟨0, 0, 0, 0, 0⟩, [])
  else if m ≤ cfg.GExQF_GExQ2_SWITCHSIZE ∨ n ≤ cfg.GExQF_GExQ2_SWITCHSIZE then
    -- requirements for a single GELQ2 call
    let g := o.rocsolver_gelq2_getMemorySize m n batch_count
    (⟨g.size_scalars, g.size_work_workArr, g.size_Abyx_norms, g.size_diag, 0⟩,
      [MemQuery.gelq2 m n batch_count])
  else
    let jb := cfg.GExQF_GExQ2_BLOCKSIZE
    -- size to store the temporary triangular factor
    let trfact := mulSizeT (mulSizeT (mulSizeT o.sizeofT (toSizeT jb)) (toSizeT jb))
      (toSizeT batch_count)
    -- requirements for calling GELQ2 with sub blocks
    let g := o.rocsolver_gelq2_getMemorySize jb n batch_count
    let w1 := g.size_work_workArr
    let s1 := g.size_diag
    let trfact := max g.size_Abyx_norms trfact
    -- requirements for calling LARFT
    let t := o.rocsolver_larft_getMemorySize n jb batch_count
    let w2 := t.size_work
    -- requirements for calling LARFB
    let b := o.rocsolver_larfb_getMemorySize rocblas_side_right (m - jb) n jb batch_count
    let w3 := b.size_work
    let s2 := b.size_tmptr
    -- size of workArr is double to accomodate LARFB's TRMM calls in the batched case
    let workArr := if BATCHED then mulSizeT t.size_workArr 2 else t.size_workArr
    (⟨g.size_scalars, max w1 (max w2 w3), trfact, max s1 s2, workArr⟩,
      [MemQuery.gelq2 jb n batch_count, MemQuery.larft n jb batch_count,
       MemQuery.larfb rocblas_side_right (m - jb) n jb batch_count])

/-! ## GELQF: the driver -/

/-- A call of `rocsolver_gelq2_template`: rows, columns, offset of the sub-matrix in `A`,
leading dimension, offset added to `ipiv`, batch count. -/
structure Gelq2Call where
  m : Int
  n : Int
  shiftA : Int
  lda : Int
  ipivOff : Int
  batch_count : Int
  deriving DecidableEq, Repr

/-- A call of `rocsolver_larft_template`: direction, storage, order `n` of the block
reflector, number `k` of reflectors, offset of `V` in `A`, leading dimension, offset added
to `ipiv`, leading dimension and stride of the triangular factor, batch count. -/
structure LarftCall where
  direct : rocblas_direct
  storev : rocblas_storev
  n : Int
  k : Int
  shiftV : Int
  ldv : Int
  ipivOff : Int
  ldf : Int
  strideF : Int
  batch_count : Int
  deriving DecidableEq, Repr

/-- A call of `rocsolver_larfb_template`: side, operation, direction, storage, rows and
columns of the matrix the block reflector is applied to, number of reflectors, offset and
leading dimension of `V`, offset, leading dimension and stride of the triangular factor,
offset and leading dimension of the target matrix, batch count. -/
structure LarfbCall where
  side : rocblas_side
  trans : rocblas_operation
  direct : rocblas_direct
  storev : rocblas_storev
  m : Int
  n : Int
  k : Int
  shiftV : Int
  ldv : Int
  shiftF : Int
  ldf : Int
  strideF : Int
  shiftA : Int
  lda : Int
  batch_count : Int
  deriving DecidableEq, Repr

/-- One iteration of the `while` loop of `rocsolver_gelqf_template`: the value of `j` on
entry, the panel height `jb`, the panel factorization, the block-reflector calls (present
iff `j + jb < m`), and the value of `j` after the increment that ends the iteration. -/
structure GelqfIter where
  j : Int
  jb : Int
  panel : Gelq2Call
  apply : Option (LarftCall × LarfbCall)
  jNext : Int
  deriving DecidableEq, Repr

/-- What one execution of `rocsolver_gelqf_template` issues: nothing (quick return), the
single GELQ2 call of the unblocked variant, or the iterations of the blocked loop, the value
of `j` when the loop is left, and the factorization of the last block (present iff
`j < dim`). -/
inductive GelqfRun
  | quick_return
  | unblocked (call : Gelq2Call)
  | blocked (iters : List GelqfIter) (jExit : Int) (last : Option Gelq2Call)
  deriving DecidableEq, Repr

/-- The body of one iteration of the `while` loop of `rocsolver_gelqf_template`, at `j`. -/
def gelqf_iter (cfg : IdealSizes) (m n shiftA lda batch_count : Int) (j : Int) : GelqfIter :=
  let dim := min m n
  let ldw := cfg.GExQF_GExQ2_BLOCKSIZE
  let strideW := ldw * ldw
  -- Factor diagonal and subdiagonal blocks
  let jb := min (dim - j) cfg.GExQF_GExQ2_BLOCKSIZE
  let panel : Gelq2Call := ⟨jb, n - j, shiftA + idx2D j j lda, lda, j, batch_count⟩
  -- apply transformation to the rest of the matrix
  let apply : Option (LarftCall × LarfbCall) :=
    if j + jb < m then
      some (⟨rocblas_forward_direction, rocblas_row_wise, n - j, jb,
              shiftA + idx2D j j lda, lda, j, ldw, strideW, batch_count⟩,
            ⟨rocblas_side_right, rocblas_operation_none, rocblas_forward_direction,
              rocblas_row_wise, m - j - jb, n - j, jb, shiftA + idx2D j j lda, lda,
              0, ldw, strideW, shiftA + idx2D (j + jb) j lda, lda, batch_count⟩)
    else none
  ⟨j, jb, panel, apply, j + cfg.GExQF_GExQ2_BLOCKSIZE⟩

/-- The `while (j < dim - GExQF_GExQ2_SWITCHSIZE)` loop of `rocsolver_gelqf_template`,
started at `j`: the iterations executed and the value of `j` on exit, or `none` if the loop
is still running after `fuel` iterations. -/
def gelqf_loop (cfg : IdealSizes) (m n shiftA lda batch_count : Int) :
    Nat → Int → Option (List GelqfIter × Int)
  | 0, j =>
    if j < min m n - cfg.GExQF_GExQ2_SWITCHSIZE then none else some ([], j)
  | fuel + 1, j =>
    if j < min m n - cfg.GExQF_GExQ2_SWITCHSIZE then
      let it := gelqf_iter cfg m n shiftA lda batch_count j
      match gelqf_loop cfg m n shiftA lda batch_count fuel it.jNext with
      | none => none
      | some (its, jExit) => some (it :: its, jExit)
    else some ([], j)

/-- The factorization of the last block in `rocsolver_gelqf_template`, issued iff `j < dim`
when the loop is left at `j`. -/
def gelqf_last (m n shiftA lda batch_count : Int) (j : Int) : Option Gelq2Call :=
  if j < min m n then
    some ⟨m - j, n - j, shiftA + idx2D j j lda, lda, j, batch_count⟩
  else none

/-- The blocked variant in `rocsolver_gelqf_template` (the code after the test for small
matrices): the loop started at `j = 0`, then the factorization of the last block. -/
def gelqf_blocked (cfg : IdealSizes) (fuel : Nat) (m n shiftA lda batch_count : Int) :
    Option (rocblas_status × GelqfRun) :=
  match gelqf_loop cfg m n shiftA lda batch_count fuel 0 with
  | none => none
  | some (iters, j) =>
    some (rocblas_status_success,
      GelqfRun.blocked iters j (gelqf_last m n shiftA lda batch_count j))

/-- The function `rocsolver_gelqf_template`: returned status and the calls issued.
`gelq2_status` is the status returned by `rocsolver_gelq2_template` for a given call. -/
def rocsolver_gelqf_template (cfg : IdealSizes) (gelq2_status : Gelq2Call → rocblas_status)
    (fuel : Nat) (m n shiftA lda batch_count : Int) : Option (rocblas_status × GelqfRun) :=
  -- quick return
  if m = 0 ∨ n = 0 ∨ batch_count = 0 then
    some (rocblas_status_success, GelqfRun.quick_return)
  -- if the matrix is small, use the unblocked (BLAS-levelII) variant of the algorithm
  else if m ≤ cfg.GExQF_GExQ2_SWITCHSIZE ∨ n ≤ cfg.GExQF_GExQ2_SWITCHSIZE then
    some (gelq2_status ⟨m, n, shiftA, lda, 0, batch_count⟩,
      GelqfRun.unblocked ⟨m, n, shiftA, lda, 0, batch_count⟩)
  else
    gelqf_blocked cfg fuel m n shiftA lda batch_count

/-- The GELQ2 calls of a run, in program order. -/
def GelqfRun.gelq2Calls : GelqfRun → List Gelq2Call
  | GelqfRun.quick_return => []
  | GelqfRun.unblocked c => [c]
  | GelqfRun.blocked iters _ last => iters.map GelqfIter.panel ++ last.toList

/-- The LARFT and LARFB calls of a run, in program order. -/
def GelqfRun.applyCalls : GelqfRun → List (LarftCall × LarfbCall)
  | GelqfRun.quick_return => []
  | GelqfRun.unblocked _ => []
  | GelqfRun.blocked iters _ _ => iters.filterMap GelqfIter.apply

/-- The range of pivot indices `[ipivOff, ipivOff + min(m, n))` that a GELQ2 call writes. -/
def Gelq2Call.pivotLo (c : Gelq2Call) : Int := c.ipivOff

/-- The end (exclusive) of the range of pivot indices that a GELQ2 call writes. -/
def Gelq2Call.pivotHi (c : Gelq2Call) : Int := c.ipivOff + min c.m c.n

/-- The number of GELQ2 calls in `cs` whose pivot range contains the index `p`. -/
def pivotCover (cs : List Gelq2Call) (p : Int) : Nat :=
  (cs.filter (fun c => decide (c.pivotLo ≤ p ∧ p < c.pivotHi))).length

/-- A sub-routine call issued by `rocsolver_gelqf_template`. -/
inductive GelqfCall
  | gelq2 (c : Gelq2Call)
  | larft (c : LarftCall)
  | larfb (c : LarfbCall)
  deriving DecidableEq, Repr

/-- The sub-routine calls of one iteration of the loop, in program order. -/
def GelqfIter.calls (it : GelqfIter) : List GelqfCall :=
  GelqfCall.gelq2 it.panel ::
    (match it.apply with
     | some (t, b) => [GelqfCall.larft t, GelqfCall.larfb b]
     | none => [])

/-- All sub-routine calls of a run, in program order. -/
def GelqfRun.calls : GelqfRun → List GelqfCall
  | GelqfRun.quick_return => []
  | GelqfRun.unblocked c => [GelqfCall.gelq2 c]
  | GelqfRun.blocked iters _ last =>
    (iters.map GelqfIter.calls).flatten ++ (last.toList.map GelqfCall.gelq2)

/-! ## GELQF: effect on the matrix

The sub-routines GELQ2, LARFT and LARFB are not part of the embedded files.  Their effect on
the matrix and on `ipiv` is modelled from the spec, over arbitrary types of matrix rows and
of scalars and arbitrary reflector operations. -/

/-- Outputs of `rocsolver_larf_getMemorySize` and of `rocsolver_org2l_ung2l_getMemorySize`. -/
structure LarfSizes where
  size_scalars : Nat
  size_Abyx : Nat
  size_workArr : Nat
  deriving DecidableEq, Repr

/-- The function `rocsolver_org2l_ung2l_getMemorySize<BATCHED, T>`: the three sizes it
stores and the queries it makes.  `larf_getMemorySize` is the sizing function of LARF. -/
def rocsolver_org2l_ung2l_getMemorySize
    (larf_getMemorySize : rocblas_side → Int → Int → Int → LarfSizes)
    (m n batch_count : Int) : LarfSizes × List MemQuery :=
  -- if quick return no workspace needed
  if m = 0 ∨ n = 0 ∨ batch_count = 0 then
    (⟨0, 0, 0⟩, [])
  else
    -- memory requirements to call larf
    (larf_getMemorySize rocblas_side_left m n batch_count,
      [MemQuery.larf rocblas_side_left m n batch_count])

/-- The function `rocsolver_org2l_orgql_argCheck`. -/
def rocsolver_org2l_orgql_argCheck (handle : rocblas_handle) (m n k lda : Int)
    (A ipiv : DevPtr) : rocblas_status :=
  -- 1. invalid/non-supported values: N/A
  -- 2. invalid size
  if m < 0 ∨ n < 0 ∨ m < n ∨ k < 0 ∨ k > n ∨ lda < m then
    rocblas_status_invalid_size
  -- skip pointer check if querying memory size
  else if rocblas_is_device_memory_size_query handle then
    rocblas_status_continue
  -- 3. invalid pointers
  else if (truthy k && isNull ipiv) || (truthy m && truthy n && isNull A) then
    rocblas_status_invalid_pointer
  else
    rocblas_status_continue

/-- What `rocsolver_org2l_ung2l_template` issues: changes of the pointer mode of the handle,
kernel launches (with their grid and their arguments), and calls of LARF and SCAL. -/
inductive Org2lEvent
  | set_pointer_mode (mode : rocblas_pointer_mode)
  | launch_org2l_init_ident (blocksx blocksy blocksz : Int) (m n k shiftA lda : Int)
  | larf (side : rocblas_side) (m n shiftX incx ipivOff shiftA lda batch_count : Int)
  | launch_subtract_tau (blocksx : Int) (i j shiftA lda ipivOff : Int)
  | scal (n ipivOff shiftX incx batch_count : Int)
  | launch_restau (blocksx blocksy : Int) (k : Int)
  deriving DecidableEq, Repr

/-- The body of the `for` loop of `rocsolver_org2l_ung2l_template`, at `j`. -/
def org2l_iter (m n k shiftA lda batch_count : Int) (j : Int) : List Org2lEvent :=
  let jj := n - k + j
  [ -- apply H(i) to Q(1:m-k+i,1:n-k+i) from the left
    Org2lEvent.larf rocblas_side_left (m - n + jj + 1) jj (shiftA + idx2D 0 jj lda) 1 j
      shiftA lda batch_count,
    -- set the diagonal element and negative tau
    Org2lEvent.launch_subtract_tau batch_count (m - n + jj) jj shiftA lda j,
    -- update i-th column -corresponding to H(i)-
    Org2lEvent.scal (m - n + jj) j (shiftA + idx2D 0 jj lda) 1 batch_count ]

/-- The function `rocsolver_org2l_ung2l_template`: returned status and what it issued.  The
loop `for (j = 0; j < k; ++j)` runs for `j = 0, ..., k - 1`; integer division is the
truncating division of C++. -/
def rocsolver_org2l_ung2l_template (handle : rocblas_handle)
    (m n k shiftA lda batch_count : Int) : rocblas_status × List Org2lEvent :=
  -- quick return
  if n = 0 ∨ m = 0 ∨ batch_count = 0 then
    (rocblas_status_success, [])
  else
    -- everything must be executed with scalars on the device
    let old_mode := handle.pointer_mode
    -- Initialize identity matrix (non used rows)
    let blocksx := Int.tdiv (m - 1) 32 + 1
    let blocksy := Int.tdiv (n - 1) 32 + 1
    let restau_blocksx := Int.tdiv (k - 1) 128 + 1
    (rocblas_status_success,
      [Org2lEvent.set_pointer_mode rocblas_pointer_mode_device,
       Org2lEvent.launch_org2l_init_ident blocksx blocksy batch_count m n k shiftA lda]
      ++ ((List.range k.toNat).map
            (fun j => org2l_iter m n k shiftA lda batch_count (j : Int))).flatten
      -- restore values of tau
      ++ [Org2lEvent.launch_restau restau_blocksx batch_count k,
          Org2lEvent.set_pointer_mode old_mode])

/-! ## ORMBR / UNMBR -/

/-- Outputs of `rocsolver_ormqr_unmqr_getMemorySize`, `rocsolver_ormlq_unmlq_getMemorySize`
and `rocsolver_ormbr_unmbr_getMemorySize`. -/
structure OrmSizes where
  size_scalars : Nat
  size_AbyxORwork : Nat
  size_diagORtmptr : Nat
  size_trfact : Nat
  size_workArr : Nat
  deriving DecidableEq, Repr

/-- The function `rocsolver_ormbr_unmbr_getMemorySize<BATCHED, T>`: the five sizes it
stores and the queries it makes.  `ormqr_getMemorySize` and `ormlq_getMemorySize` are the
sizing functions of ORMQR/UNMQR and ORMLQ/UNMLQ. -/
def rocsolver_ormbr_unmbr_getMemorySize
    (ormqr_getMemorySize ormlq_getMemorySize : rocblas_side → Int → Int → Int → Int → OrmSizes)
    (storev : rocblas_storev) (side : rocblas_side) (m n k batch_count : Int) :
    OrmSizes × List MemQuery :=
  -- if quick return no workspace needed
  if m = 0 ∨ n = 0 ∨ k = 0 ∨ batch_count = 0 then
    (⟨0, 0, 0, 0, 0⟩, [])
  else
    let nq := if side = rocblas_side_left then m else n
    -- requirements for calling ORMQR/UNMQR or ORMLQ/UNMLQ
    if storev = rocblas_column_wise then
      (ormqr_getMemorySize side m n (min nq k) batch_count,
        [MemQuery.ormqr side m n (min nq k) batch_count])
    else
      (ormlq_getMemorySize side m n (min nq k) batch_count,
        [MemQuery.ormlq side m n (min nq k) batch_count])

/-- The function `rocsolver_ormbr_argCheck<COMPLEX>`. -/
def rocsolver_ormbr_argCheck (COMPLEX : Bool) (handle : rocblas_handle)
    (storev : rocblas_storev) (side : rocblas_side) (trans : rocblas_operation)
    (m n k lda ldc : Int) (A C ipiv : DevPtr) : rocblas_status :=
  -- 1. invalid/non-supported values
  if side ≠ rocblas_side_left ∧ side ≠ rocblas_side_right then
    rocblas_status_invalid_value
  else if trans ≠ rocblas_operation_none ∧ trans ≠ rocblas_operation_transpose
      ∧ trans ≠ rocblas_operation_conjugate_transpose then
    rocblas_status_invalid_value
  else if (COMPLEX = true ∧ trans = rocblas_operation_transpose)
      ∨ (COMPLEX = false ∧ trans = rocblas_operation_conjugate_transpose) then
    rocblas_status_invalid_value
  else if storev ≠ rocblas_column_wise ∧ storev ≠ rocblas_row_wise then
    rocblas_status_invalid_value
  else
    let left : Bool := decide (side = rocblas_side_left)
    let row : Bool := decide (storev = rocblas_row_wise)
    -- 2. invalid size
    let nq := if left then m else n
    if m < 0 ∨ n < 0 ∨ k < 0 ∨ ldc < m then
      rocblas_status_invalid_size
    else if row = false ∧ lda < nq then
      rocblas_status_invalid_size
    else if row = true ∧ lda < min nq k then
      rocblas_status_invalid_size
    -- skip pointer check if querying memory size
    else if rocblas_is_device_memory_size_query handle then
      rocblas_status_continue
    -- 3. invalid pointers
    else if (decide (min nq k > 0) && isNull A) || (decide (min nq k > 0) && isNull ipiv)
        || (truthy m && truthy n && isNull C) then
      rocblas_status_invalid_pointer
    else
      rocblas_status_continue

/-- The arguments of a call of `rocsolver_ormqr_unmqr_template` or
`rocsolver_ormlq_unmlq_template`. -/
structure OrmArgs where
  side : rocblas_side
  trans : rocblas_operation
  m : Int
  n : Int
  k : Int
  shiftA : Int
  lda : Int
  shiftC : Int
  ldc : Int
  batch_count : Int
  deriving DecidableEq, Repr

/-- A sub-routine call issued by `rocsolver_ormbr_unmbr_template`. -/
inductive OrmbrCall
  | ormqr (args : OrmArgs)
  | ormlq (args : OrmArgs)
  deriving DecidableEq, Repr

/-- The function `rocsolver_ormbr_unmbr_template` (the overload in which `A` and `C` have
the same type): returned status and the sub-routine calls issued. -/
def rocsolver_ormbr_unmbr_template (COMPLEX : Bool) (storev : rocblas_storev)
    (side : rocblas_side) (trans : rocblas_operation)
    (m n k shiftA lda shiftC ldc batch_count : Int) : rocblas_status × List OrmbrCall :=
  -- quick return
  if n = 0 ∨ m = 0 ∨ k = 0 ∨ batch_count = 0 then
    (rocblas_status_success, [])
  else
    let nq := if side = rocblas_side_left then m else n
    let rows := if side = rocblas_side_left then m - 1 else m
    let cols := if side = rocblas_side_left then n else n - 1
    let rowC : Int := if side = rocblas_side_left then 1 else 0
    let colC : Int := if side = rocblas_side_left then 0 else 1
    -- if column-wise, apply the orthogonal matrix Q generated in the
    -- bi-diagonalization gebrd to a general matrix C
    if storev = rocblas_column_wise then
      if nq ≥ k then
        (rocblas_status_success,
          [OrmbrCall.ormqr ⟨side, trans, m, n, k, shiftA, lda, shiftC, ldc, batch_count⟩])
      else
        -- shift the householder vectors provided by gebrd as they come below the
        -- first subdiagonal
        (rocblas_status_success,
          [OrmbrCall.ormqr ⟨side, trans, rows, cols, nq - 1, shiftA + idx2D 1 0 lda, lda,
            shiftC + idx2D rowC colC ldc, ldc, batch_count⟩])
    -- if row-wise, apply the orthogonal matrix P generated in the
    -- bi-diagonalization gebrd to a general matrix C
    else
      let transP :=
        if trans = rocblas_operation_none then
          (if COMPLEX then rocblas_operation_conjugate_transpose
           else rocblas_operation_transpose)
        else rocblas_operation_none
      if nq > k then
        (rocblas_status_success,
          [OrmbrCall.ormlq ⟨side, transP, m, n, k, shiftA, lda, shiftC, ldc, batch_count⟩])
      else
        -- shift the householder vectors provided by gebrd as they come above the
        -- first superdiagonal
        (rocblas_status_success,
          [OrmbrCall.ormlq ⟨side, transP, rows, cols, nq - 1, shiftA + idx2D 0 1 lda, lda,
            shiftC + idx2D rowC colC ldc, ldc, batch_count⟩])

/-! ## Top-level drivers: GETF2 (strided batched) and GEBLTTRF_NPVT (interleaved batched) -/

/-- The device-memory services of rocBLAS used by the top-level drivers:
`rocblas_set_optimal_device_memory_size(handle, sizes...)`, and the allocation
`rocblas_device_malloc mem(handle, sizes...)`, which yields the allocated pointers or fails
(`!mem`). -/
structure DeviceMemory where
  rocblas_set_optimal_device_memory_size : rocblas_handle → List Nat → rocblas_status
  rocblas_device_malloc : rocblas_handle → List Nat → Option (List DevPtr)

/-- What a top-level driver does after the test of its handle, in program order; `Args` is
the type of the arguments of its execution template. -/
inductive ImplEvent (Args : Type)
  | argCheck
  | getMemorySize
  | set_optimal_device_memory_size (sizes : List Nat)
  | device_malloc (sizes : List Nat)
  | init_scalars (scalars : DevPtr)
  | exec_template (args : Args)
  deriving DecidableEq, Repr

/-- The arguments of a call of `rocsolver_getf2_template`. -/
structure Getf2Args where
  m : Int
  n : Int
  A : DevPtr
  shiftA : Int
  inca : Int
  lda : Int
  strideA : Int
  ipiv : DevPtr
  shiftP : Int
  strideP : Int
  info : DevPtr
  batch_count : Int
  scalars : DevPtr
  pivotval : DevPtr
  pivotidx : DevPtr
  pivot : Bool
  deriving DecidableEq, Repr

/-- Outputs of `rocsolver_getf2_getMemorySize`. -/
structure Getf2Sizes where
  size_scalars : Nat
  size_pivotval : Nat
  size_pivotidx : Nat
  deriving DecidableEq, Repr

/-- The routines of `roclapack_getf2.hpp` that `rocsolver_getf2_strided_batched_impl`
calls: the argument check `(handle, m, n, lda, A, ipiv, info, pivot, batch_count)`, the
sizing function `(m, n, pivot, batch_count)` and the execution template. -/
structure Getf2Routines where
  rocsolver_getf2_getrf_argCheck :
    rocblas_handle → Int → Int → Int → DevPtr → DevPtr → DevPtr → Bool → Int → rocblas_status
  rocsolver_getf2_getMemorySize : Int → Int → Bool → Int → Getf2Sizes
  rocsolver_getf2_template : rocblas_handle → Getf2Args → rocblas_status

/-- The function `rocsolver_getf2_strided_batched_impl`: returned status and what it did.
A null handle is `none`. -/
def rocsolver_getf2_strided_batched_impl (dm : DeviceMemory) (r : Getf2Routines)
    (handle : Option rocblas_handle) (m n : Int) (A : DevPtr) (lda strideA : Int)
    (ipiv : DevPtr) (strideP : Int) (info : DevPtr) (pivot : Bool) (batch_count : Int) :
    rocblas_status × List (ImplEvent Getf2Args) :=
  match handle with
  | none => (rocblas_status_invalid_handle, [])
  | some h =>
    -- argument checking
    let st := r.rocsolver_getf2_getrf_argCheck h m n lda A ipiv info pivot batch_count
    if st ≠ rocblas_status_continue then
      (st, [ImplEvent.argCheck])
    else
      -- using unshifted arrays
      let shiftA : Int := 0
      let shiftP : Int := 0
      -- strided batched execution
      let inca : Int := 1
      -- memory workspace sizes
      let sz := r.rocsolver_getf2_getMemorySize m n pivot batch_count
      let sizes := [sz.size_scalars, sz.size_pivotval, sz.size_pivotidx]
      if rocblas_is_device_memory_size_query h then
        (dm.rocblas_set_optimal_device_memory_size h sizes,
          [ImplEvent.argCheck, ImplEvent.getMemorySize,
           ImplEvent.set_optimal_device_memory_size sizes])
      else
        -- memory workspace allocation
        match dm.rocblas_device_malloc h sizes with
        | none =>
          (rocblas_status_memory_error,
            [ImplEvent.argCheck, ImplEvent.getMemorySize, ImplEvent.device_malloc sizes])
        | some mem =>
          let scalars := mem.getD 0 none
          let pivotval := mem.getD 1 none
          let pivotidx := mem.getD 2 none
          let args : Getf2Args :=
            ⟨m, n, A, shiftA, inca, lda, strideA, ipiv, shiftP, strideP, info, batch_count,
              scalars, pivotval, pivotidx, pivot⟩
          -- execution
          (r.rocsolver_getf2_template h args,
            [ImplEvent.argCheck, ImplEvent.getMemorySize, ImplEvent.device_malloc sizes]
            ++ (if sz.size_scalars > 0 then [ImplEvent.init_scalars scalars] else [])
            ++ [ImplEvent.exec_template args])

/-- The arguments of a call of `rocsolver_geblttrf_npvt_template`. -/
structure GeblttrfArgs where
  nb : Int
  nblocks : Int
  A : DevPtr
  shiftA : Int
  inca : Int
  lda : Int
  strideA : Int
  B : DevPtr
  shiftB : Int
  incb : Int
  ldb : Int
  strideB : Int
  C : DevPtr
  shiftC : Int
  incc : Int
  ldc : Int
  strideC : Int
  info : DevPtr
  batch_count : Int
  scalars : DevPtr
  work1 : DevPtr
  work2 : DevPtr
  work3 : DevPtr
  work4 : DevPtr
  pivotval : DevPtr
  pivotidx : DevPtr
  iipiv : DevPtr
  iinfo1 : DevPtr
  iinfo2 : DevPtr
  optim_mem : Bool
  deriving DecidableEq, Repr

/-- Outputs of `rocsolver_geblttrf_npvt_getMemorySize`. -/
structure GeblttrfSizes where
  size_scalars : Nat
  size_work1 : Nat
  size_work2 : Nat
  size_work3 : Nat
  size_work4 : Nat
  size_pivotval : Nat
  size_pivotidx : Nat
  size_iipiv : Nat
  size_iinfo1 : Nat
  size_iinfo2 : Nat
  optim_mem : Bool
  deriving DecidableEq, Repr

/-- The routines of `roclapack_geblttrf_npvt.hpp` that
`rocsolver_geblttrf_npvt_interleaved_batched_impl` calls: the argument check
`(handle, nb, nblocks, lda, ldb, ldc, A, B, C, info, batch_count, inca, incb, incc)`, the
sizing function `(nb, nblocks, batch_count, ldb, ldc, incb, incc)` and the execution
template. -/
structure GeblttrfRoutines where
  rocsolver_geblttrf_npvt_argCheck :
    rocblas_handle → Int → Int → Int → Int → Int → DevPtr → DevPtr → DevPtr → DevPtr →
      Int → Int → Int → Int → rocblas_status
  rocsolver_geblttrf_npvt_getMemorySize :
    Int → Int → Int → Int → Int → Int → Int → GeblttrfSizes
  rocsolver_geblttrf_npvt_template : rocblas_handle → GeblttrfArgs → rocblas_status

/-- The function `rocsolver_geblttrf_npvt_interleaved_batched_impl`: returned status and
what it did.  A null handle is `none`. -/
def rocsolver_geblttrf_npvt_interleaved_batched_impl (dm : DeviceMemory)
    (r : GeblttrfRoutines) (handle : Option rocblas_handle) (nb nblocks : Int)
    (A : DevPtr) (inca lda strideA : Int) (B : DevPtr) (incb ldb strideB : Int)
    (C : DevPtr) (incc ldc strideC : Int) (info : DevPtr) (batch_count : Int) :
    rocblas_status × List (ImplEvent GeblttrfArgs) :=
  match handle with
  | none => (rocblas_status_invalid_handle, [])
  | some h =>
    -- argument checking
    let st := r.rocsolver_geblttrf_npvt_argCheck h nb nblocks lda ldb ldc A B C info
      batch_count inca incb incc
    if st ≠ rocblas_status_continue then
      (st, [ImplEvent.argCheck])
    else
      -- working with unshifted arrays
      let shiftA : Int := 0
      let shiftB : Int := 0
      let shiftC : Int := 0
      -- memory workspace sizes
      let sz := r.rocsolver_geblttrf_npvt_getMemorySize nb nblocks batch_count ldb ldc incb incc
      let sizes := [sz.size_scalars, sz.size_work1, sz.size_work2, sz.size_work3,
        sz.size_work4, sz.size_pivotval, sz.size_pivotidx, sz.size_iipiv, sz.size_iinfo1,
        sz.size_iinfo2]
      if rocblas_is_device_memory_size_query h then
        (dm.rocblas_set_optimal_device_memory_size h sizes,
          [ImplEvent.argCheck, ImplEvent.getMemorySize,
           ImplEvent.set_optimal_device_memory_size sizes])
      else
        -- memory workspace allocation
        match dm.rocblas_device_malloc h sizes with
        | none =>
          (rocblas_status_memory_error,
            [ImplEvent.argCheck, ImplEvent.getMemorySize, ImplEvent.device_malloc sizes])
        | some mem =>
          let scalars := mem.getD 0 none
          let args : GeblttrfArgs :=
            ⟨nb, nblocks, A, shiftA, inca, lda, strideA, B, shiftB, incb, ldb, strideB,
              C, shiftC, incc, ldc, strideC, info, batch_count, scalars,
              mem.getD 1 none, mem.getD 2 none, mem.getD 3 none, mem.getD 4 none,
              mem.getD 5 none, mem.getD 6 none, mem.getD 7 none, mem.getD 8 none,
              mem.getD 9 none, sz.optim_mem⟩
          -- Execution
          (r.rocsolver_geblttrf_npvt_template h args,
            [ImplEvent.argCheck, ImplEvent.getMemorySize, ImplEvent.device_malloc sizes]
            ++ (if sz.size_scalars > 0 then [ImplEvent.init_scalars scalars] else [])
            ++ [ImplEvent.exec_template args])

/-- The operation `transP` that the row-wise branch of `rocsolver_ormbr_unmbr_template`
computes from `trans` and passes to ORMLQ/UNMLQ. -/
def ormbr_transP (COMPLEX : Bool) (trans : rocblas_operation) : rocblas_operation :=
  if trans = rocblas_operation_none then
    (if COMPLEX then rocblas_operation_conjugate_transpose else rocblas_operation_transpose)
  else rocblas_operation_none

/-- The arguments of a sub-routine call issued by `rocsolver_ormbr_unmbr_template`. -/
def OrmbrCall.args : OrmbrCall → OrmArgs
  | OrmbrCall.ormqr a => a
  | OrmbrCall.ormlq a => a

/-! ## ORG2L / UNG2L: the kernel `org2l_init_ident`

The kernel is modelled for one batch instance (one value of `hipBlockIdx_z`): `Ap`, the
pointer returned by `load_ptr_batch`, is the base of a memory `Int → T` indexed by element
offset.  The global indices `i = hipBlockIdx_x * hipBlockDim_x + hipThreadIdx_x` and
`j = hipBlockIdx_y * hipBlockDim_y + hipThreadIdx_y` of a thread are 32-bit unsigned
integers.  In the comparisons `i < m`, `j < n`, `i == m - n + j`, `i > m - n + j` and
`j < n - k`, and in the subscript `i + j * lda`, the `rocblas_int` operand is converted to
32-bit unsigned and the arithmetic is done modulo `2 ^ 32`. -/

/-- When the loop condition fails at `j`, the loop ends at once, whatever the fuel. -/
theorem gelqf_loop_done (cfg : IdealSizes) (m n shiftA lda bc : Int) (fuel : Nat) (j : Int)
    (h : ¬ j < min m n - cfg.GExQF_GExQ2_SWITCHSIZE) :
    gelqf_loop cfg m n shiftA lda bc fuel j = some ([], j) := by
  cases fuel <;> simp [gelqf_loop, h]

/-- With a positive block size the loop started at `j` ends within `dim - SWITCHSIZE - j`
iterations. -/
theorem gelqf_loop_isSome (cfg : IdealSizes) (m n shiftA lda bc : Int)
    (hB : 1 ≤ cfg.GExQF_GExQ2_BLOCKSIZE) :
    ∀ (fuel : Nat) (j : Int),
      (min m n - cfg.GExQF_GExQ2_SWITCHSIZE - j).toNat ≤ fuel →
      ∃ its jExit, gelqf_loop cfg m n shiftA lda bc fuel j = some (its, jExit) := by
  intro fuel
  induction fuel with
  | zero =>
    intro j hf
    refine ⟨[], j, ?_⟩
    apply gelqf_loop_done
    omega
  | succ fuel ih =>
    intro j hf
    by_cases hj : j < min m n - cfg.GExQF_GExQ2_SWITCHSIZE
    · obtain ⟨its, jExit, hrec⟩ := ih (j + cfg.GExQF_GExQ2_BLOCKSIZE) (by omega)
      refine ⟨gelqf_iter cfg m n shiftA lda bc j :: its, jExit, ?_⟩
      have hnext : (gelqf_iter cfg m n shiftA lda bc j).jNext
          = j + cfg.GExQF_GExQ2_BLOCKSIZE := rfl
      simp [gelqf_loop, hj, hnext, hrec]
    · exact ⟨[], j, gelqf_loop_done cfg m n shiftA lda bc _ j hj⟩

/-- Shape of the result of the loop started at `j`: iteration `i` is the loop body at
`j + i * BLOCKSIZE`, the loop condition holds there, and it fails at the exit value
`j + (number of iterations) * BLOCKSIZE`. -/
theorem gelqf_loop_shape (cfg : IdealSizes) (m n shiftA lda bc : Int) :
    ∀ (fuel : Nat) (j : Int) (its : List GelqfIter) (jExit : Int),
      gelqf_loop cfg m n shiftA lda bc fuel j = some (its, jExit) →
      its = (List.range its.length).map
              (fun (i : Nat) => gelqf_iter cfg m n shiftA lda bc (j + (i : Int) * cfg.GExQF_GExQ2_BLOCKSIZE))
      ∧ jExit = j + its.length * cfg.GExQF_GExQ2_BLOCKSIZE
      ∧ (∀ i : Nat, i < its.length →
            j + i * cfg.GExQF_GExQ2_BLOCKSIZE < min m n - cfg.GExQF_GExQ2_SWITCHSIZE)
      ∧ ¬ jExit < min m n - cfg.GExQF_GExQ2_SWITCHSIZE := by
  intro fuel
  induction fuel with
  | zero =>
    intro j its jExit h
    by_cases hj : j < min m n - cfg.GExQF_GExQ2_SWITCHSIZE
    · simp [gelqf_loop, hj] at h
    · simp [gelqf_loop, hj] at h
      obtain ⟨rfl, rfl⟩ := h
      simp [hj]
  | succ fuel ih =>
    intro j its jExit h
    by_cases hj : j < min m n - cfg.GExQF_GExQ2_SWITCHSIZE
    · have hnext : (gelqf_iter cfg m n shiftA lda bc j).jNext
          = j + cfg.GExQF_GExQ2_BLOCKSIZE := rfl
      simp only [gelqf_loop, hj, if_true, hnext] at h
      cases hrec : gelqf_loop cfg m n shiftA lda bc fuel (j + cfg.GExQF_GExQ2_BLOCKSIZE) with
      | none => simp [hrec] at h
      | some r =>
        obtain ⟨its', jE⟩ := r
        simp only [hrec, Option.some.injEq, Prod.mk.injEq] at h
        obtain ⟨rfl, rfl⟩ := h
        obtain ⟨h1, h2, h3, h4⟩ := ih _ _ _ hrec
        refine ⟨?_, ?_, ?_, h4⟩
        · rw [List.length_cons, List.range_succ_eq_map, List.map_cons, List.map_map]
          congr 1
          · simp
          · conv_lhs => rw [h1]
            apply List.map_congr_left
            intro i _
            simp only [Function.comp, Nat.succ_eq_add_one]
            congr 1
            push_cast
            ring
        · rw [h2, List.length_cons]
          push_cast
          ring
        · intro i hi
          cases i with
          | zero => simpa using hj
          | succ i =>
            have := h3 i (by simpa using hi)
            push_cast
            linarith
    · simp [gelqf_loop, hj] at h
      obtain ⟨rfl, rfl⟩ := h
      simp [hj]

/-- When the loop condition holds at `j` and the loop ends, its first iteration is the loop
body at `j`. -/
theorem gelqf_loop_enters (cfg : IdealSizes) (m n shiftA lda bc : Int) (fuel : Nat) (j : Int)
    (hj : j < min m n - cfg.GExQF_GExQ2_SWITCHSIZE) (its : List GelqfIter) (jExit : Int)
    (h : gelqf_loop cfg m n shiftA lda bc fuel j = some (its, jExit)) :
    ∃ rest, its = gelqf_iter cfg m n shiftA lda bc j :: rest := by
  cases fuel with
  | zero => simp [gelqf_loop, hj] at h
  | succ fuel =>
    simp only [gelqf_loop, hj, if_true] at h
    cases hrec : gelqf_loop cfg m n shiftA lda bc fuel
        (gelqf_iter cfg m n shiftA lda bc j).jNext with
    | none => simp [hrec] at h
    | some r =>
      obtain ⟨its', jE⟩ := r
      simp only [hrec, Option.some.injEq, Prod.mk.injEq] at h
      exact ⟨its', h.1.symm⟩

/-- With a positive block size and `dim - SWITCHSIZE` units of fuel the blocked variant
returns, with status success. -/
theorem gelqf_blocked_returns (cfg : IdealSizes) (m n shiftA lda bc : Int) (fuel : Nat)
    (hB : 1 ≤ cfg.GExQF_GExQ2_BLOCKSIZE)
    (hfuel : (min m n - cfg.GExQF_GExQ2_SWITCHSIZE).toNat ≤ fuel) :
    ∃ its jExit,
      gelqf_loop cfg m n shiftA lda bc fuel 0 = some (its, jExit)
      ∧ gelqf_blocked cfg fuel m n shiftA lda bc
          = some (rocblas_status_success,
              GelqfRun.blocked its jExit (gelqf_last m n shiftA lda bc jExit)) := by
  obtain ⟨its, jExit, h⟩ := gelqf_loop_isSome cfg m n shiftA lda bc hB fuel 0 (by simpa using hfuel)
  exact ⟨its, jExit, h, by simp [gelqf_blocked, h]⟩

/-- On non-empty input with both dimensions above the switch size the driver runs the
blocked variant. -/
theorem gelqf_template_blocked (cfg : IdealSizes) (gelq2_status : Gelq2Call → rocblas_status)
    (fuel : Nat) (m n shiftA lda bc : Int) (hm : m ≠ 0) (hn : n ≠ 0) (hb : bc ≠ 0)
    (hbig : cfg.GExQF_GExQ2_SWITCHSIZE < min m n) :
    rocsolver_gelqf_template cfg gelq2_status fuel m n shiftA lda bc
      = gelqf_blocked cfg fuel m n shiftA lda bc := by
  have h1 : ¬ (m = 0 ∨ n = 0 ∨ bc = 0) := by tauto
  have h2 : ¬ (m ≤ cfg.GExQF_GExQ2_SWITCHSIZE ∨ n ≤ cfg.GExQF_GExQ2_SWITCHSIZE) := by omega
  simp [rocsolver_gelqf_template, h1, h2]

/-- On non-empty input with a dimension at most the switch size the driver issues the single
GELQ2 call of the unblocked variant and returns its status. -/
theorem gelqf_template_unblocked (cfg : IdealSizes)
    (gelq2_status : Gelq2Call → rocblas_status)
    (fuel : Nat) (m n shiftA lda bc : Int) (hm : m ≠ 0) (hn : n ≠ 0) (hb : bc ≠ 0)
    (hsmall : min m n ≤ cfg.GExQF_GExQ2_SWITCHSIZE) :
    rocsolver_gelqf_template cfg gelq2_status fuel m n shiftA lda bc
      = some (gelq2_status ⟨m, n, shiftA, lda, 0, bc⟩,
          GelqfRun.unblocked ⟨m, n, shiftA, lda, 0, bc⟩) := by
  have h1 : ¬ (m = 0 ∨ n = 0 ∨ bc = 0) := by tauto
  have h2 : m ≤ cfg.GExQF_GExQ2_SWITCHSIZE ∨ n ≤ cfg.GExQF_GExQ2_SWITCHSIZE := by omega
  simp [rocsolver_gelqf_template, h1, h2]

/-- A result of the blocked variant is never the run of the unblocked variant. -/
theorem gelqf_blocked_ne_unblocked (cfg : IdealSizes) (fuel : Nat)
    (m n shiftA lda bc : Int) (st : rocblas_status) (c : Gelq2Call) :
    gelqf_blocked cfg fuel m n shiftA lda bc ≠ some (st, GelqfRun.unblocked c) := by
  unfold gelqf_blocked
  cases gelqf_loop cfg m n shiftA lda bc fuel 0 with
  | none => simp
  | some r => obtain ⟨its, j⟩ := r; simp

/-! ### Claims on the driver of GELQF -/

/-- C1: for `m, n, batch_count ≥ 1`, `rocsolver_gelqf_template` takes the unblocked path
(one GELQ2 call on the whole `m × n` matrix at offset `shiftA` with pivot offset `0`, no
LARFT/LARFB call, the status of that call returned) if and only if
`min(m, n) ≤ GExQF_GExQ2_SWITCHSIZE`; otherwise it runs the blocked variant, whose loop
condition holds at `j = 0`, so that every result starts with the loop body at `j = 0`, and
which returns when the block size is positive and the fuel is `dim - SWITCHSIZE`. -/
theorem gelqf_unblocked_iff_small (cfg : IdealSizes)
    (gelq2_status : Gelq2Call → rocblas_status) (fuel : Nat)
    (m n shiftA lda batch_count : Int)
    (hm : 1 ≤ m) (hn : 1 ≤ n) (hb : 1 ≤ batch_count) :
    ((∃ st c, rocsolver_gelqf_template cfg gelq2_status fuel m n shiftA lda batch_count
          = some (st, GelqfRun.unblocked c))
        ↔ min m n ≤ cfg.GExQF_GExQ2_SWITCHSIZE)
    ∧ (min m n ≤ cfg.GExQF_GExQ2_SWITCHSIZE →
        ∃ run, rocsolver_gelqf_template cfg gelq2_status fuel m n shiftA lda batch_count
            = some (gelq2_status ⟨m, n, shiftA, lda, 0, batch_count⟩, run)
          ∧ run = GelqfRun.unblocked ⟨m, n, shiftA, lda, 0, batch_count⟩
          ∧ run.gelq2Calls = [⟨m, n, shiftA, lda, 0, batch_count⟩]
          ∧ run.applyCalls = [])
    ∧ (¬ min m n ≤ cfg.GExQF_GExQ2_SWITCHSIZE →
        rocsolver_gelqf_template cfg gelq2_status fuel m n shiftA lda batch_count
            = gelqf_blocked cfg fuel m n shiftA lda batch_count
          ∧ (0 : Int) < min m n - cfg.GExQF_GExQ2_SWITCHSIZE
          ∧ (∀ st run,
              rocsolver_gelqf_template cfg gelq2_status fuel m n shiftA lda batch_count
                = some (st, run) →
              ∃ rest jExit last, st = rocblas_status_success
                ∧ run = GelqfRun.blocked
                    (gelqf_iter cfg m n shiftA lda batch_count 0 :: rest) jExit last)
          ∧ (1 ≤ cfg.GExQF_GExQ2_BLOCKSIZE →
              (min m n - cfg.GExQF_GExQ2_SWITCHSIZE).toNat ≤ fuel →
              (rocsolver_gelqf_template cfg gelq2_status fuel m n shiftA lda
                batch_count).isSome = true)) := by
  have hm0 : m ≠ 0 := by omega
  have hn0 : n ≠ 0 := by omega
  have hb0 : batch_count ≠ 0 := by omega
  refine ⟨⟨?_, ?_⟩, ?_, ?_⟩
  · rintro ⟨st, c, h⟩
    by_contra hbig
    rw [gelqf_template_blocked cfg gelq2_status fuel m n shiftA lda batch_count hm0 hn0 hb0
      (by omega)] at h
    exact gelqf_blocked_ne_unblocked cfg fuel m n shiftA lda batch_count st c h
  · intro hsmall
    exact ⟨_, _, gelqf_template_unblocked cfg gelq2_status fuel m n shiftA lda batch_count
      hm0 hn0 hb0 hsmall⟩
  · intro hsmall
    exact ⟨_, gelqf_template_unblocked cfg gelq2_status fuel m n shiftA lda batch_count
      hm0 hn0 hb0 hsmall, rfl, rfl, rfl⟩
  · intro hbig
    have hT := gelqf_template_blocked cfg gelq2_status fuel m n shiftA lda batch_count
      hm0 hn0 hb0 (by omega)
    refine ⟨hT, by omega, ?_, ?_⟩
    · intro st run h
      rw [hT] at h
      unfold gelqf_blocked at h
      cases hl : gelqf_loop cfg m n shiftA lda batch_count fuel 0 with
      | none => simp [hl] at h
      | some r =>
        obtain ⟨its, jE⟩ := r
        simp only [hl, Option.some.injEq, Prod.mk.injEq] at h
        obtain ⟨rest, hrest⟩ := gelqf_loop_enters cfg m n shiftA lda batch_count fuel 0
          (by omega) its jE hl
        exact ⟨rest, jE, _, h.1.symm, by rw [← h.2, hrest]⟩
    · intro hB hfuel
      obtain ⟨its, jExit, _, h⟩ :=
        gelqf_blocked_returns cfg m n shiftA lda batch_count fuel hB hfuel
      rw [hT, h]
      rfl

/-- Witness for `gelqf_unblocked_iff_small`: a `3 × 5` problem with switch size `4`. -/
theorem gelqf_unblocked_iff_small_witness :
    (1 : Int) ≤ 3 ∧ (1 : Int) ≤ 5 ∧ (1 : Int) ≤ 1
    ∧ rocsolver_gelqf_template ⟨4, 2⟩ (fun _ => rocblas_status_success) 0 3 5 0 3 1
        = some (rocblas_status_success, GelqfRun.unblocked ⟨3, 5, 0, 3, 0, 1⟩) := by
  refine ⟨by decide, by decide, by decide, ?_⟩
  obtain ⟨run, h1, h2, _⟩ :=
    (gelqf_unblocked_iff_small ⟨4, 2⟩ (fun _ => rocblas_status_success) 0 3 5 0 3 1
      (by decide) (by decide) (by decide)).2.1 (by decide)
  rw [h1, h2]

/-- Unfolding of `pivotCover` on a non-empty list of calls. -/
theorem pivotCover_cons (c : Gelq2Call) (cs : List Gelq2Call) (p : Int) :
    pivotCover (c :: cs) p
      = (if c.pivotLo ≤ p ∧ p < c.pivotHi then 1 else 0) + pivotCover cs p := by
  unfold pivotCover
  by_cases h : c.pivotLo ≤ p ∧ p < c.pivotHi
  · simp [List.filter_cons, h, Nat.add_comm]
  · simp [List.filter_cons, h]

/-- The pivot ranges of the panels of the loop started at `j`, followed by the last block,
cover every index of `[j, dim)` once and no other index. -/
theorem gelqf_loop_pivotCover (cfg : IdealSizes) (m n shiftA lda bc : Int)
    (hB : 1 ≤ cfg.GExQF_GExQ2_BLOCKSIZE) :
    ∀ (fuel : Nat) (j : Int) (its : List GelqfIter) (jExit : Int),
      gelqf_loop cfg m n shiftA lda bc fuel j = some (its, jExit) →
      ∀ p : Int,
        pivotCover (its.map GelqfIter.panel ++ (gelqf_last m n shiftA lda bc jExit).toList) p
          = if j ≤ p ∧ p < min m n then 1 else 0 := by
  have base : ∀ (j p : Int),
      pivotCover (([] : List GelqfIter).map GelqfIter.panel
          ++ (gelqf_last m n shiftA lda bc j).toList) p
        = if j ≤ p ∧ p < min m n then 1 else 0 := by
    intro j p
    unfold gelqf_last
    by_cases hj : j < min m n
    · simp only [hj, if_true, List.map_nil, List.nil_append, Option.toList, pivotCover_cons,
        Gelq2Call.pivotLo, Gelq2Call.pivotHi]
      have h0 : pivotCover [] p = 0 := rfl
      rw [h0]
      by_cases h1 : j ≤ p ∧ p < j + min (m - j) (n - j)
      · have h2 : j ≤ p ∧ p < min m n := by omega
        rw [if_pos h1, if_pos h2]
      · have h2 : ¬ (j ≤ p ∧ p < min m n) := by omega
        rw [if_neg h1, if_neg h2]
    · have h2 : ¬ (j ≤ p ∧ p < min m n) := by omega
      rw [if_neg hj, if_neg h2]
      rfl
  intro fuel
  induction fuel with
  | zero =>
    intro j its jExit h p
    by_cases hj : j < min m n - cfg.GExQF_GExQ2_SWITCHSIZE
    · simp [gelqf_loop, hj] at h
    · simp [gelqf_loop, hj] at h
      obtain ⟨rfl, rfl⟩ := h
      exact base _ p
  | succ fuel ih =>
    intro j its jExit h p
    by_cases hj : j < min m n - cfg.GExQF_GExQ2_SWITCHSIZE
    · have hnext : (gelqf_iter cfg m n shiftA lda bc j).jNext
          = j + cfg.GExQF_GExQ2_BLOCKSIZE := rfl
      simp only [gelqf_loop, hj, if_true, hnext] at h
      cases hrec : gelqf_loop cfg m n shiftA lda bc fuel (j + cfg.GExQF_GExQ2_BLOCKSIZE) with
      | none => simp [hrec] at h
      | some r =>
        obtain ⟨its', jE⟩ := r
        simp only [hrec, Option.some.injEq, Prod.mk.injEq] at h
        obtain ⟨rfl, rfl⟩ := h
        have hrest := ih _ _ _ hrec p
        rw [List.map_cons, List.cons_append, pivotCover_cons, hrest]
        have hlo : (gelqf_iter cfg m n shiftA lda bc j).panel.pivotLo = j := rfl
        have hhi : (gelqf_iter cfg m n shiftA lda bc j).panel.pivotHi
            = j + min (min (min m n - j) cfg.GExQF_GExQ2_BLOCKSIZE) (n - j) := rfl
        rw [hlo, hhi]
        by_cases h1 : j ≤ p ∧ p < j + min (min (min m n - j) cfg.GExQF_GExQ2_BLOCKSIZE) (n - j)
        · have h2 : ¬ (j + cfg.GExQF_GExQ2_BLOCKSIZE ≤ p ∧ p < min m n) := by omega
          have h3 : j ≤ p ∧ p < min m n := by omega
          rw [if_pos h1, if_neg h2, if_pos h3]
        · by_cases h2 : j + cfg.GExQF_GExQ2_BLOCKSIZE ≤ p ∧ p < min m n
          · have h3 : j ≤ p ∧ p < min m n := by omega
            rw [if_neg h1, if_pos h2, if_pos h3]
          · have h3 : ¬ (j ≤ p ∧ p < min m n) := by omega
            rw [if_neg h1, if_neg h2, if_neg h3]
    · simp [gelqf_loop, hj] at h
      obtain ⟨rfl, rfl⟩ := h
      exact base _ p

/-- C2: for `m, n ≥ 1` with `min(m, n) > SWITCHSIZE`, `BLOCKSIZE ≥ 1` and `SWITCHSIZE ≥ 0`,
the blocked path of `rocsolver_gelqf_template` returns, and the pivot ranges
`[j, j + min(rows, cols))` of its GELQ2 calls (loop panels and last block), written at
`ipiv + j`, are pairwise disjoint with union `[0, min(m, n))`: every pivot index below
`min(m, n)` lies in the range of exactly one call and every other index in none. -/
theorem gelqf_blocked_pivots_exactly_once (cfg : IdealSizes)
    (gelq2_status : Gelq2Call → rocblas_status) (fuel : Nat)
    (m n shiftA lda batch_count : Int)
    (hm : 1 ≤ m) (hn : 1 ≤ n) (hb : batch_count ≠ 0)
    (hS : 0 ≤ cfg.GExQF_GExQ2_SWITCHSIZE) (hB : 1 ≤ cfg.GExQF_GExQ2_BLOCKSIZE)
    (hbig : cfg.GExQF_GExQ2_SWITCHSIZE < min m n)
    (hfuel : (min m n - cfg.GExQF_GExQ2_SWITCHSIZE).toNat ≤ fuel) :
    ∃ iters jExit last,
      rocsolver_gelqf_template cfg gelq2_status fuel m n shiftA lda batch_count
        = some (rocblas_status_success, GelqfRun.blocked iters jExit last)
      ∧ (∀ c ∈ (GelqfRun.blocked iters jExit last).gelq2Calls,
          0 ≤ c.pivotLo ∧ c.pivotLo < c.pivotHi ∧ c.pivotHi ≤ min m n)
      ∧ ∀ p : Int,
          pivotCover (GelqfRun.blocked iters jExit last).gelq2Calls p
            = if 0 ≤ p ∧ p < min m n then 1 else 0 := by
  obtain ⟨its, jExit, hl, hblk⟩ :=
    gelqf_blocked_returns cfg m n shiftA lda batch_count fuel hB hfuel
  have hcover := gelqf_loop_pivotCover cfg m n shiftA lda batch_count hB fuel 0 its jExit hl
  refine ⟨its, jExit, gelqf_last m n shiftA lda batch_count jExit, ?_, ?_, hcover⟩
  · rw [gelqf_template_blocked cfg gelq2_status fuel m n shiftA lda batch_count
      (by omega) (by omega) hb hbig, hblk]
  · obtain ⟨hshape, hexit, hcond, _⟩ :=
      gelqf_loop_shape cfg m n shiftA lda batch_count fuel 0 its jExit hl
    intro c hc
    simp only [GelqfRun.gelq2Calls, List.mem_append, List.mem_map] at hc
    rcases hc with ⟨it, hit, rfl⟩ | hc
    · rw [hshape] at hit
      simp only [List.mem_map, List.mem_range] at hit
      obtain ⟨i, hi, rfl⟩ := hit
      have hc := hcond i hi
      have hi0 : (0 : Int) ≤ (i : Int) * cfg.GExQF_GExQ2_BLOCKSIZE :=
        mul_nonneg (Int.ofNat_nonneg i) (by omega)
      simp only [gelqf_iter, Gelq2Call.pivotLo, Gelq2Call.pivotHi]
      generalize (i : Int) * cfg.GExQF_GExQ2_BLOCKSIZE = x at hc hi0 ⊢
      omega
    · have hj0 : (0 : Int) ≤ jExit := by
        rw [hexit]
        have : (0 : Int) ≤ (its.length : Int) * cfg.GExQF_GExQ2_BLOCKSIZE :=
          mul_nonneg (Int.ofNat_nonneg _) (by omega)
        omega
      unfold gelqf_last at hc
      by_cases hj : jExit < min m n
      · simp only [hj, if_true, Option.toList, List.mem_singleton] at hc
        subst hc
        simp only [Gelq2Call.pivotLo, Gelq2Call.pivotHi]
        omega
      · simp [hj] at hc

/-- Witness for `gelqf_blocked_pivots_exactly_once`: a `6 × 4` problem with switch size `2`
and block size `2`. -/
theorem gelqf_blocked_pivots_exactly_once_witness :
    ∃ iters jExit last,
      rocsolver_gelqf_template ⟨2, 2⟩ (fun _ => rocblas_status_success) 2 6 4 0 6 1
        = some (rocblas_status_success, GelqfRun.blocked iters jExit last)
      ∧ (∀ c ∈ (GelqfRun.blocked iters jExit last).gelq2Calls,
          0 ≤ c.pivotLo ∧ c.pivotLo < c.pivotHi ∧ c.pivotHi ≤ min (6 : Int) 4)
      ∧ ∀ p : Int,
          pivotCover (GelqfRun.blocked iters jExit last).gelq2Calls p
            = if 0 ≤ p ∧ p < min (6 : Int) 4 then 1 else 0 :=
  gelqf_blocked_pivots_exactly_once ⟨2, 2⟩ (fun _ => rocblas_status_success) 2 6 4 0 6 1
    (by decide) (by decide) (by decide) (by decide) (by decide) (by decide) (by decide)

/-- The sizing function of GELQF on non-empty input with a dimension at most the switch
size: the sizes of a single GELQ2 call on `(m, n)`. -/
theorem gelqf_getMemorySize_unblocked (cfg : IdealSizes) (o : GelqfOracles) (BATCHED : Bool)
    (m n bc : Int) (hm : m ≠ 0) (hn : n ≠ 0) (hb : bc ≠ 0)
    (hsmall : min m n ≤ cfg.GExQF_GExQ2_SWITCHSIZE) :
    rocsolver_gelqf_getMemorySize cfg o BATCHED m n bc
      = (⟨(o.rocsolver_gelq2_getMemorySize m n bc).size_scalars,
          (o.rocsolver_gelq2_getMemorySize m n bc).size_work_workArr,
          (o.rocsolver_gelq2_getMemorySize m n bc).size_Abyx_norms,
          (o.rocsolver_gelq2_getMemorySize m n bc).size_diag, 0⟩,
         [MemQuery.gelq2 m n bc]) := by
  have h1 : ¬ (m = 0 ∨ n = 0 ∨ bc = 0) := by tauto
  have h2 : m ≤ cfg.GExQF_GExQ2_SWITCHSIZE ∨ n ≤ cfg.GExQF_GExQ2_SWITCHSIZE := by omega
  simp [rocsolver_gelqf_getMemorySize, h1, h2]

/-- The sizing function of GELQF on non-empty input with both dimensions above the switch
size: it queries GELQ2 for a panel, LARFT and LARFB. -/
theorem gelqf_getMemorySize_blocked (cfg : IdealSizes) (o : GelqfOracles) (BATCHED : Bool)
    (m n bc : Int) (hm : m ≠ 0) (hn : n ≠ 0) (hb : bc ≠ 0)
    (hbig : cfg.GExQF_GExQ2_SWITCHSIZE < min m n) :
    (rocsolver_gelqf_getMemorySize cfg o BATCHED m n bc).2
      = [MemQuery.gelq2 cfg.GExQF_GExQ2_BLOCKSIZE n bc,
         MemQuery.larft n cfg.GExQF_GExQ2_BLOCKSIZE bc,
         MemQuery.larfb rocblas_side.rocblas_side_right (m - cfg.GExQF_GExQ2_BLOCKSIZE) n
           cfg.GExQF_GExQ2_BLOCKSIZE bc] := by
  have h1 : ¬ (m = 0 ∨ n = 0 ∨ bc = 0) := by tauto
  have h2 : ¬ (m ≤ cfg.GExQF_GExQ2_SWITCHSIZE ∨ n ≤ cfg.GExQF_GExQ2_SWITCHSIZE) := by omega
  simp [rocsolver_gelqf_getMemorySize, h1, h2]

/-- C3: for non-zero `m`, `n`, `batch_count`, `rocsolver_gelqf_getMemorySize` sizes for a
single GELQ2 call on `(m, n)` exactly when `rocsolver_gelqf_template` executes the unblocked
path, and sizes for the blocked path (GELQ2 on a panel, LARFT, LARFB, the triangular factor)
exactly when the template executes the blocked variant: the two branch decisions agree on
every input. -/
theorem gelqf_getMemorySize_branch_agrees (cfg : IdealSizes) (o : GelqfOracles)
    (BATCHED : Bool) (gelq2_status : Gelq2Call → rocblas_status) (fuel : Nat)
    (m n shiftA lda batch_count : Int)
    (hm : m ≠ 0) (hn : n ≠ 0) (hb : batch_count ≠ 0) :
    ((rocsolver_gelqf_getMemorySize cfg o BATCHED m n batch_count).2
          = [MemQuery.gelq2 m n batch_count]
        ↔ rocsolver_gelqf_template cfg gelq2_status fuel m n shiftA lda batch_count
          = some (gelq2_status ⟨m, n, shiftA, lda, 0, batch_count⟩,
              GelqfRun.unblocked ⟨m, n, shiftA, lda, 0, batch_count⟩))
    ∧ ((rocsolver_gelqf_getMemorySize cfg o BATCHED m n batch_count).2
          = [MemQuery.gelq2 cfg.GExQF_GExQ2_BLOCKSIZE n batch_count,
             MemQuery.larft n cfg.GExQF_GExQ2_BLOCKSIZE batch_count,
             MemQuery.larfb rocblas_side.rocblas_side_right
               (m - cfg.GExQF_GExQ2_BLOCKSIZE) n cfg.GExQF_GExQ2_BLOCKSIZE batch_count]
        ↔ rocsolver_gelqf_template cfg gelq2_status fuel m n shiftA lda batch_count
          = gelqf_blocked cfg fuel m n shiftA lda batch_count)
    ∧ ((rocsolver_gelqf_getMemorySize cfg o BATCHED m n batch_count).2
          = [MemQuery.gelq2 m n batch_count]
        ∨ (rocsolver_gelqf_getMemorySize cfg o BATCHED m n batch_count).2
          = [MemQuery.gelq2 cfg.GExQF_GExQ2_BLOCKSIZE n batch_count,
             MemQuery.larft n cfg.GExQF_GExQ2_BLOCKSIZE batch_count,
             MemQuery.larfb rocblas_side.rocblas_side_right
               (m - cfg.GExQF_GExQ2_BLOCKSIZE) n cfg.GExQF_GExQ2_BLOCKSIZE batch_count])
    ∧ ((rocsolver_gelqf_getMemorySize cfg o BATCHED m n batch_count).2
          = [MemQuery.gelq2 m n batch_count] →
        (rocsolver_gelqf_getMemorySize cfg o BATCHED m n batch_count).1
          = ⟨(o.rocsolver_gelq2_getMemorySize m n batch_count).size_scalars,
             (o.rocsolver_gelq2_getMemorySize m n batch_count).size_work_workArr,
             (o.rocsolver_gelq2_getMemorySize m n batch_count).size_Abyx_norms,
             (o.rocsolver_gelq2_getMemorySize m n batch_count).size_diag, 0⟩) := by
  by_cases hsmall : min m n ≤ cfg.GExQF_GExQ2_SWITCHSIZE
  · have hq := gelqf_getMemorySize_unblocked cfg o BATCHED m n batch_count hm hn hb hsmall
    have hr := gelqf_template_unblocked cfg gelq2_status fuel m n shiftA lda batch_count
      hm hn hb hsmall
    refine ⟨?_, ?_, ?_, ?_⟩
    · rw [hq, hr]
      simp
    · rw [hq, hr]
      constructor
      · intro h
        simp at h
      · intro h
        exact absurd h.symm (gelqf_blocked_ne_unblocked cfg fuel m n shiftA lda batch_count _ _)
    · left
      rw [hq]
    · intro _
      rw [hq]
  · have hbig : cfg.GExQF_GExQ2_SWITCHSIZE < min m n := by omega
    have hq := gelqf_getMemorySize_blocked cfg o BATCHED m n batch_count hm hn hb hbig
    have hr := gelqf_template_blocked cfg gelq2_status fuel m n shiftA lda batch_count
      hm hn hb hbig
    refine ⟨?_, ?_, ?_, ?_⟩
    · rw [hq, hr]
      constructor
      · intro h
        simp at h
      · intro h
        exact absurd h (gelqf_blocked_ne_unblocked cfg fuel m n shiftA lda batch_count _ _)
    · rw [hq, hr]
      simp
    · right
      rw [hq]
    · intro h
      rw [hq] at h
      simp at h

/-- Witness for `gelqf_getMemorySize_branch_agrees`: a `6 × 4` problem with switch size `2`
and block size `2`, where both the sizing function and the driver take the blocked branch. -/
theorem gelqf_getMemorySize_branch_agrees_witness :
    (rocsolver_gelqf_getMemorySize ⟨2, 2⟩
        ⟨8, fun _ _ _ => ⟨0, 0, 0, 0⟩, fun _ _ _ => ⟨0, 0, 0⟩, fun _ _ _ _ _ => ⟨0, 0, 0⟩⟩
        false 6 4 1).2
      = [MemQuery.gelq2 2 4 1, MemQuery.larft 4 2 1,
         MemQuery.larfb rocblas_side.rocblas_side_right (6 - 2) 4 2 1]
    ∧ rocsolver_gelqf_template ⟨2, 2⟩ (fun _ => rocblas_status_success) 2 6 4 0 6 1
      = gelqf_blocked ⟨2, 2⟩ 2 6 4 0 6 1 := by
  have h := (gelqf_getMemorySize_branch_agrees ⟨2, 2⟩
    ⟨8, fun _ _ _ => ⟨0, 0, 0, 0⟩, fun _ _ _ => ⟨0, 0, 0⟩, fun _ _ _ _ _ => ⟨0, 0, 0⟩⟩
    false (fun _ => rocblas_status_success) 2 6 4 0 6 1
    (by decide) (by decide) (by decide)).2.1
  have hq : (rocsolver_gelqf_getMemorySize ⟨2, 2⟩
        ⟨8, fun _ _ _ => ⟨0, 0, 0, 0⟩, fun _ _ _ => ⟨0, 0, 0⟩, fun _ _ _ _ _ => ⟨0, 0, 0⟩⟩
        false 6 4 1).2
      = [MemQuery.gelq2 2 4 1, MemQuery.larft 4 2 1,
         MemQuery.larfb rocblas_side.rocblas_side_right (6 - 2) 4 2 1] := by decide
  exact ⟨hq, h.1 hq⟩

/-- Iterations of the loop started at `j = 0`: each one is the loop body at a multiple
`i * BLOCKSIZE` of the block size at which the loop condition holds, and the loop is left
at `j = (number of iterations) * BLOCKSIZE`, where the loop condition fails. -/
theorem gelqf_loop_mem (cfg : IdealSizes) (m n shiftA lda bc : Int) (fuel : Nat)
    (its : List GelqfIter) (jExit : Int)
    (h : gelqf_loop cfg m n shiftA lda bc fuel 0 = some (its, jExit)) :
    (∀ it ∈ its, ∃ i : Nat, i < its.length
        ∧ it = gelqf_iter cfg m n shiftA lda bc ((i : Int) * cfg.GExQF_GExQ2_BLOCKSIZE)
        ∧ (i : Int) * cfg.GExQF_GExQ2_BLOCKSIZE < min m n - cfg.GExQF_GExQ2_SWITCHSIZE)
    ∧ jExit = (its.length : Int) * cfg.GExQF_GExQ2_BLOCKSIZE
    ∧ ¬ jExit < min m n - cfg.GExQF_GExQ2_SWITCHSIZE := by
  obtain ⟨hshape, hexit, hcond, hstop⟩ := gelqf_loop_shape cfg m n shiftA lda bc fuel 0 its jExit h
  refine ⟨?_, by simpa using hexit, hstop⟩
  intro it hit
  rw [hshape] at hit
  simp only [List.mem_map, List.mem_range] at hit
  obtain ⟨i, hi, rfl⟩ := hit
  refine ⟨i, hi, by simp, ?_⟩
  simpa using hcond i hi

/-- C4 (as stated, refuted): with switch size `2` and block size `2`, the blocked path on a
`6 × 4` matrix factors its last block by a GELQ2 call with `4` rows, more than the block
size, so not every GELQ2 call of the blocked path has at most `BLOCKSIZE` rows. -/
theorem gelqf_last_block_rows_exceed_blocksize :
    ¬ (∀ st run,
        rocsolver_gelqf_template ⟨2, 2⟩ (fun _ => rocblas_status_success) 2 6 4 0 6 1
          = some (st, run) →
        ∀ c ∈ run.gelq2Calls, c.m ≤ 2 ∧ c.n ≤ 4) := by
  intro h
  have hrun : rocsolver_gelqf_template ⟨2, 2⟩ (fun _ => rocblas_status_success) 2 6 4 0 6 1
      = some (rocblas_status_success,
          GelqfRun.blocked [gelqf_iter ⟨2, 2⟩ 6 4 0 6 1 0] 2 (some ⟨4, 2, 14, 6, 2, 1⟩)) := by
    decide
  have hc := h _ _ hrun ⟨4, 2, 14, 6, 2, 1⟩ (by decide)
  exact absurd hc.1 (by decide)

/-- C4 (amended): for `min(m, n) > SWITCHSIZE ≥ 0` and `BLOCKSIZE ≥ 1` the blocked path of
`rocsolver_gelqf_template` returns; every loop panel is factored by a GELQ2 call with
`jb ≤ BLOCKSIZE` rows and `n - j ≤ n` columns, which fits the shape `(BLOCKSIZE, n)` that
`rocsolver_gelqf_getMemorySize` passes to the sizing function of GELQ2; the call for the
last block has `m - j ≤ m` rows and `n - j ≤ n` columns, where `j` is the exit value of the
loop. -/
theorem gelqf_blocked_gelq2_shapes (cfg : IdealSizes) (o : GelqfOracles) (BATCHED : Bool)
    (gelq2_status : Gelq2Call → rocblas_status) (fuel : Nat)
    (m n shiftA lda batch_count : Int) (hb : batch_count ≠ 0)
    (hS : 0 ≤ cfg.GExQF_GExQ2_SWITCHSIZE) (hB : 1 ≤ cfg.GExQF_GExQ2_BLOCKSIZE)
    (hbig : cfg.GExQF_GExQ2_SWITCHSIZE < min m n)
    (hfuel : (min m n - cfg.GExQF_GExQ2_SWITCHSIZE).toNat ≤ fuel) :
    ∃ iters jExit last,
      rocsolver_gelqf_template cfg gelq2_status fuel m n shiftA lda batch_count
        = some (rocblas_status_success, GelqfRun.blocked iters jExit last)
      ∧ MemQuery.gelq2 cfg.GExQF_GExQ2_BLOCKSIZE n batch_count
          ∈ (rocsolver_gelqf_getMemorySize cfg o BATCHED m n batch_count).2
      ∧ (∀ it ∈ iters, it.panel.m = it.jb ∧ it.panel.n = n - it.j
          ∧ it.panel.m ≤ cfg.GExQF_GExQ2_BLOCKSIZE ∧ it.panel.n ≤ n)
      ∧ (∀ c, last = some c →
          c.m = m - jExit ∧ c.n = n - jExit ∧ c.m ≤ m ∧ c.n ≤ n) := by
  obtain ⟨its, jExit, hl, hblk⟩ :=
    gelqf_blocked_returns cfg m n shiftA lda batch_count fuel hB hfuel
  obtain ⟨hmem, hexit, _⟩ := gelqf_loop_mem cfg m n shiftA lda batch_count fuel its jExit hl
  refine ⟨its, jExit, gelqf_last m n shiftA lda batch_count jExit, ?_, ?_, ?_, ?_⟩
  · rw [gelqf_template_blocked cfg gelq2_status fuel m n shiftA lda batch_count
      (by omega) (by omega) hb hbig, hblk]
  · rw [gelqf_getMemorySize_blocked cfg o BATCHED m n batch_count (by omega) (by omega) hb hbig]
    simp
  · intro it hit
    obtain ⟨i, _, rfl, _⟩ := hmem it hit
    have hi0 : (0 : Int) ≤ (i : Int) * cfg.GExQF_GExQ2_BLOCKSIZE :=
      mul_nonneg (Int.ofNat_nonneg i) (by omega)
    refine ⟨rfl, rfl, ?_, ?_⟩
    all_goals
      simp only [gelqf_iter]
      generalize (i : Int) * cfg.GExQF_GExQ2_BLOCKSIZE = x at hi0 ⊢
      omega
  · intro c hc
    have hj0 : (0 : Int) ≤ jExit := by
      rw [hexit]
      exact mul_nonneg (Int.ofNat_nonneg _) (by omega)
    unfold gelqf_last at hc
    by_cases hj : jExit < min m n
    · simp only [hj, if_true, Option.some.injEq] at hc
      subst hc
      refine ⟨rfl, rfl, ?_, ?_⟩ <;> simp only <;> omega
    · simp [hj] at hc

/-- Witness for `gelqf_blocked_gelq2_shapes`: a `6 × 4` problem with switch size `2` and
block size `2`. -/
theorem gelqf_blocked_gelq2_shapes_witness :
    ∃ iters jExit last,
      rocsolver_gelqf_template ⟨2, 2⟩ (fun _ => rocblas_status_success) 2 6 4 0 6 1
        = some (rocblas_status_success, GelqfRun.blocked iters jExit last)
      ∧ MemQuery.gelq2 2 4 1
          ∈ (rocsolver_gelqf_getMemorySize ⟨2, 2⟩
              ⟨8, fun _ _ _ => ⟨0, 0, 0, 0⟩, fun _ _ _ => ⟨0, 0, 0⟩,
                fun _ _ _ _ _ => ⟨0, 0, 0⟩⟩ false 6 4 1).2
      ∧ (∀ it ∈ iters, it.panel.m = it.jb ∧ it.panel.n = 4 - it.j
          ∧ it.panel.m ≤ 2 ∧ it.panel.n ≤ 4)
      ∧ (∀ c, last = some c →
          c.m = 6 - jExit ∧ c.n = 4 - jExit ∧ c.m ≤ 6 ∧ c.n ≤ 4) :=
  gelqf_blocked_gelq2_shapes ⟨2, 2⟩
    ⟨8, fun _ _ _ => ⟨0, 0, 0, 0⟩, fun _ _ _ => ⟨0, 0, 0⟩, fun _ _ _ _ _ => ⟨0, 0, 0⟩⟩ false
    (fun _ => rocblas_status_success) 2 6 4 0 6 1
    (by decide) (by decide) (by decide) (by decide) (by decide)

/-- C7 (as stated, refuted): with switch size `2` and block size `2`, the blocked path on a
`4 × 4` matrix leaves its loop at `j = 2` with a last block to factor (`j < min(m, n)`), and
the number `min(m, n) - j = 2` of remaining pivots is not strictly less than the switch
size. -/
theorem gelqf_last_block_not_below_switchsize :
    ¬ (∀ st iters jExit c,
        rocsolver_gelqf_template ⟨2, 2⟩ (fun _ => rocblas_status_success) 2 4 4 0 4 1
          = some (st, GelqfRun.blocked iters jExit (some c)) →
        min (4 : Int) 4 - jExit < 2) := by
  intro h
  have hrun : rocsolver_gelqf_template ⟨2, 2⟩ (fun _ => rocblas_status_success) 2 4 4 0 4 1
      = some (rocblas_status_success,
          GelqfRun.blocked [gelqf_iter ⟨2, 2⟩ 4 4 0 4 1 0] 2 (some ⟨2, 2, 10, 4, 2, 1⟩)) := by
    decide
  exact absurd (h _ _ _ _ hrun) (by decide)

/-- C7 (amended): for `min(m, n) > SWITCHSIZE` and `BLOCKSIZE ≥ 1` the blocked path of
`rocsolver_gelqf_template` returns, and whenever its loop is left with a last block to
factor, the GELQ2 call for it is handed `min(m, n) - j` pivots, a number that is at least
`1` and at most `SWITCHSIZE` (it can be equal to `SWITCHSIZE`). -/
theorem gelqf_last_block_at_most_switchsize (cfg : IdealSizes)
    (gelq2_status : Gelq2Call → rocblas_status) (fuel : Nat)
    (m n shiftA lda batch_count : Int) (hm : m ≠ 0) (hn : n ≠ 0) (hb : batch_count ≠ 0)
    (hB : 1 ≤ cfg.GExQF_GExQ2_BLOCKSIZE)
    (hbig : cfg.GExQF_GExQ2_SWITCHSIZE < min m n)
    (hfuel : (min m n - cfg.GExQF_GExQ2_SWITCHSIZE).toNat ≤ fuel) :
    ∃ iters jExit last,
      rocsolver_gelqf_template cfg gelq2_status fuel m n shiftA lda batch_count
        = some (rocblas_status_success, GelqfRun.blocked iters jExit last)
      ∧ (last.isSome = true ↔ jExit < min m n)
      ∧ (∀ c, last = some c →
          c.ipivOff = jExit ∧ min c.m c.n = min m n - jExit
          ∧ 1 ≤ min m n - jExit ∧ min m n - jExit ≤ cfg.GExQF_GExQ2_SWITCHSIZE) := by
  obtain ⟨its, jExit, hl, hblk⟩ :=
    gelqf_blocked_returns cfg m n shiftA lda batch_count fuel hB hfuel
  obtain ⟨_, _, hstop⟩ := gelqf_loop_mem cfg m n shiftA lda batch_count fuel its jExit hl
  refine ⟨its, jExit, gelqf_last m n shiftA lda batch_count jExit, ?_, ?_, ?_⟩
  · rw [gelqf_template_blocked cfg gelq2_status fuel m n shiftA lda batch_count
      hm hn hb hbig, hblk]
  · unfold gelqf_last
    by_cases hj : jExit < min m n <;> simp [hj]
  · intro c hc
    unfold gelqf_last at hc
    by_cases hj : jExit < min m n
    · simp only [hj, if_true, Option.some.injEq] at hc
      subst hc
      refine ⟨rfl, ?_, ?_, ?_⟩
      · show min (m - jExit) (n - jExit) = min m n - jExit
        omega
      · omega
      · omega
    · simp [hj] at hc

/-- Witness for `gelqf_last_block_at_most_switchsize`: a `4 × 4` problem with switch size
`2` and block size `2`. -/
theorem gelqf_last_block_at_most_switchsize_witness :
    ∃ iters jExit last,
      rocsolver_gelqf_template ⟨2, 2⟩ (fun _ => rocblas_status_success) 2 4 4 0 4 1
        = some (rocblas_status_success, GelqfRun.blocked iters jExit last)
      ∧ (last.isSome = true ↔ jExit < min (4 : Int) 4)
      ∧ (∀ c, last = some c →
          c.ipivOff = jExit ∧ min c.m c.n = min (4 : Int) 4 - jExit
          ∧ 1 ≤ min (4 : Int) 4 - jExit ∧ min (4 : Int) 4 - jExit ≤ 2) :=
  gelqf_last_block_at_most_switchsize ⟨2, 2⟩ (fun _ => rocblas_status_success) 2 4 4 0 4 1
    (by decide) (by decide) (by decide) (by decide) (by decide) (by decide)

/-- C8 (as stated, refuted): with switch size `0` and block size `4`, the second iteration
of the blocked loop on a `5 × 5` matrix starts at `j = 4` with panel width `jb = 1`, and
leaves `j = 8`, not `j + jb = 5`. -/
theorem gelqf_step_not_clamped_width :
    ¬ (∀ st iters jExit last,
        rocsolver_gelqf_template ⟨0, 4⟩ (fun _ => rocblas_status_success) 5 5 5 0 5 1
          = some (st, GelqfRun.blocked iters jExit last) →
        ∀ it ∈ iters, it.jb = min (min (5 : Int) 5 - it.j) 4 ∧ it.jNext = it.j + it.jb) := by
  intro h
  have hrun : rocsolver_gelqf_template ⟨0, 4⟩ (fun _ => rocblas_status_success) 5 5 5 0 5 1
      = some (rocblas_status_success,
          GelqfRun.blocked [gelqf_iter ⟨0, 4⟩ 5 5 0 5 1 0, gelqf_iter ⟨0, 4⟩ 5 5 0 5 1 4] 8
            none) := by
    decide
  have hit := h _ _ _ _ hrun (gelqf_iter ⟨0, 4⟩ 5 5 0 5 1 4) (by simp)
  exact absurd hit.2 (by decide)

/-- C8 (amended): for `min(m, n) > SWITCHSIZE ≥ 0` and `BLOCKSIZE ≥ 1` the blocked path of
`rocsolver_gelqf_template` returns; iteration `i` of its loop starts at `j = i * BLOCKSIZE`,
factors a panel of width `jb = min(min(m, n) - j, BLOCKSIZE) ≥ 1` and advances `j` by
exactly `BLOCKSIZE`.  The step equals the panel width `jb` whenever
`BLOCKSIZE ≤ min(m, n) - j`; when the width is clamped (`min(m, n) - j < BLOCKSIZE`) the
panel ends at `min(m, n)`, the iteration is the last one, and no last block is factored. -/
theorem gelqf_step_is_blocksize (cfg : IdealSizes)
    (gelq2_status : Gelq2Call → rocblas_status) (fuel : Nat)
    (m n shiftA lda batch_count : Int) (hb : batch_count ≠ 0)
    (hS : 0 ≤ cfg.GExQF_GExQ2_SWITCHSIZE) (hB : 1 ≤ cfg.GExQF_GExQ2_BLOCKSIZE)
    (hbig : cfg.GExQF_GExQ2_SWITCHSIZE < min m n)
    (hfuel : (min m n - cfg.GExQF_GExQ2_SWITCHSIZE).toNat ≤ fuel) :
    ∃ iters jExit last,
      rocsolver_gelqf_template cfg gelq2_status fuel m n shiftA lda batch_count
        = some (rocblas_status_success, GelqfRun.blocked iters jExit last)
      ∧ iters = (List.range iters.length).map
          (fun (i : Nat) => gelqf_iter cfg m n shiftA lda batch_count
            ((i : Int) * cfg.GExQF_GExQ2_BLOCKSIZE))
      ∧ jExit = (iters.length : Int) * cfg.GExQF_GExQ2_BLOCKSIZE
      ∧ (∀ it ∈ iters,
          it.jb = min (min m n - it.j) cfg.GExQF_GExQ2_BLOCKSIZE
          ∧ 1 ≤ it.jb
          ∧ it.jNext = it.j + cfg.GExQF_GExQ2_BLOCKSIZE
          ∧ (cfg.GExQF_GExQ2_BLOCKSIZE ≤ min m n - it.j → it.jNext = it.j + it.jb)
          ∧ (min m n - it.j < cfg.GExQF_GExQ2_BLOCKSIZE →
              it.j + it.jb = min m n ∧ jExit = it.jNext ∧ last = none)) := by
  obtain ⟨its, jExit, hl, hblk⟩ :=
    gelqf_blocked_returns cfg m n shiftA lda batch_count fuel hB hfuel
  obtain ⟨hshape, _, hcond, _⟩ :=
    gelqf_loop_shape cfg m n shiftA lda batch_count fuel 0 its jExit hl
  obtain ⟨hmem, hexit, _⟩ := gelqf_loop_mem cfg m n shiftA lda batch_count fuel its jExit hl
  refine ⟨its, jExit, gelqf_last m n shiftA lda batch_count jExit, ?_, ?_, hexit, ?_⟩
  · rw [gelqf_template_blocked cfg gelq2_status fuel m n shiftA lda batch_count
      (by omega) (by omega) hb hbig, hblk]
  · simpa using hshape
  · intro it hit
    obtain ⟨i, hi, rfl, hc⟩ := hmem it hit
    have hj : (gelqf_iter cfg m n shiftA lda batch_count
        ((i : Int) * cfg.GExQF_GExQ2_BLOCKSIZE)).j = (i : Int) * cfg.GExQF_GExQ2_BLOCKSIZE := rfl
    have hjb : (gelqf_iter cfg m n shiftA lda batch_count
        ((i : Int) * cfg.GExQF_GExQ2_BLOCKSIZE)).jb
        = min (min m n - (i : Int) * cfg.GExQF_GExQ2_BLOCKSIZE) cfg.GExQF_GExQ2_BLOCKSIZE := rfl
    have hjn : (gelqf_iter cfg m n shiftA lda batch_count
        ((i : Int) * cfg.GExQF_GExQ2_BLOCKSIZE)).jNext
        = (i : Int) * cfg.GExQF_GExQ2_BLOCKSIZE + cfg.GExQF_GExQ2_BLOCKSIZE := rfl
    rw [hj, hjb, hjn]
    refine ⟨rfl, by omega, rfl, by intro h; omega, ?_⟩
    intro hclamp
    -- a clamped panel is the last iteration
    have hlast : i + 1 = its.length := by
      by_contra hne
      have hnext := hcond (i + 1) (by omega)
      push_cast at hnext
      have hexp : ((i : Int) + 1) * cfg.GExQF_GExQ2_BLOCKSIZE
          = (i : Int) * cfg.GExQF_GExQ2_BLOCKSIZE + cfg.GExQF_GExQ2_BLOCKSIZE := by ring
      rw [zero_add, hexp] at hnext
      omega
    have hjE : jExit = (i : Int) * cfg.GExQF_GExQ2_BLOCKSIZE + cfg.GExQF_GExQ2_BLOCKSIZE := by
      rw [hexit, ← hlast]
      push_cast
      ring
    refine ⟨by omega, hjE, ?_⟩
    unfold gelqf_last
    have : ¬ jExit < min m n := by omega
    simp [this]

/-- Witness for `gelqf_step_is_blocksize`: a `5 × 5` problem with switch size `0` and block
size `4`. -/
theorem gelqf_step_is_blocksize_witness :
    ∃ iters jExit last,
      rocsolver_gelqf_template ⟨0, 4⟩ (fun _ => rocblas_status_success) 5 5 5 0 5 1
        = some (rocblas_status_success, GelqfRun.blocked iters jExit last)
      ∧ iters = (List.range iters.length).map
          (fun (i : Nat) => gelqf_iter ⟨0, 4⟩ 5 5 0 5 1 ((i : Int) * 4))
      ∧ jExit = (iters.length : Int) * 4
      ∧ (∀ it ∈ iters,
          it.jb = min (min (5 : Int) 5 - it.j) 4
          ∧ 1 ≤ it.jb
          ∧ it.jNext = it.j + 4
          ∧ (4 ≤ min (5 : Int) 5 - it.j → it.jNext = it.j + it.jb)
          ∧ (min (5 : Int) 5 - it.j < 4 →
              it.j + it.jb = min (5 : Int) 5 ∧ jExit = it.jNext ∧ last = none)) :=
  gelqf_step_is_blocksize ⟨0, 4⟩ (fun _ => rocblas_status_success) 5 5 5 0 5 1
    (by decide) (by decide) (by decide) (by decide) (by decide)

/-! ### Quick return -/

/-- C5: quick-return law.  Whenever `m == 0` or `n == 0` or `batch_count == 0`,
`rocsolver_gelqf_template`, `rocsolver_org2l_ung2l_template` and
`rocsolver_ormbr_unmbr_template` (the overload with `A` and `C` of the same type) return
`rocblas_status_success` and issue nothing: no kernel launch, no sub-routine call, no change
of the handle; `rocsolver_ormbr_unmbr_template` does so as well whenever `k == 0`. -/
theorem templates_quick_return (cfg : IdealSizes) (gelq2_status : Gelq2Call → rocblas_status)
    (fuel : Nat) (handle : rocblas_handle) (COMPLEX : Bool) (storev : rocblas_storev)
    (side : rocblas_side) (trans : rocblas_operation)
    (m n k shiftA lda shiftC ldc batch_count : Int)
    (h : m = 0 ∨ n = 0 ∨ batch_count = 0) :
    rocsolver_gelqf_template cfg gelq2_status fuel m n shiftA lda batch_count
        = some (rocblas_status_success, GelqfRun.quick_return)
    ∧ GelqfRun.quick_return.gelq2Calls = []
    ∧ GelqfRun.quick_return.applyCalls = []
    ∧ rocsolver_org2l_ung2l_template handle m n k shiftA lda batch_count
        = (rocblas_status_success, [])
    ∧ rocsolver_ormbr_unmbr_template COMPLEX storev side trans m n k shiftA lda shiftC ldc
        batch_count = (rocblas_status_success, [])
    ∧ ∀ m' n' bc' : Int,
        rocsolver_ormbr_unmbr_template COMPLEX storev side trans m' n' 0 shiftA lda shiftC ldc
          bc' = (rocblas_status_success, []) := by
  have h1 : n = 0 ∨ m = 0 ∨ batch_count = 0 := by tauto
  have h2 : n = 0 ∨ m = 0 ∨ k = 0 ∨ batch_count = 0 := by tauto
  refine ⟨?_, rfl, rfl, ?_, ?_, ?_⟩
  · simp [rocsolver_gelqf_template, h]
  · simp [rocsolver_org2l_ung2l_template, h1]
  · simp [rocsolver_ormbr_unmbr_template, h2]
  · intro m' n' bc'
    simp [rocsolver_ormbr_unmbr_template]

/-- Witness for `templates_quick_return`: a problem with `n = 0`. -/
theorem templates_quick_return_witness :
    rocsolver_gelqf_template ⟨2, 2⟩ (fun _ => rocblas_status_invalid_size) 0 5 0 0 5 3
        = some (rocblas_status_success, GelqfRun.quick_return)
    ∧ rocsolver_org2l_ung2l_template ⟨false, rocblas_pointer_mode.rocblas_pointer_mode_host⟩
        5 0 0 0 5 3 = (rocblas_status_success, [])
    ∧ rocsolver_ormbr_unmbr_template false rocblas_storev.rocblas_row_wise
        rocblas_side.rocblas_side_left rocblas_operation.rocblas_operation_none
        5 0 0 0 5 0 5 3 = (rocblas_status_success, []) := by
  have h := templates_quick_return ⟨2, 2⟩ (fun _ => rocblas_status_invalid_size) 0
    ⟨false, rocblas_pointer_mode.rocblas_pointer_mode_host⟩ false
    rocblas_storev.rocblas_row_wise rocblas_side.rocblas_side_left
    rocblas_operation.rocblas_operation_none 5 0 0 0 5 0 5 3 (by decide)
  exact ⟨h.1, h.2.2.2.1, h.2.2.2.2.1⟩

/-- C6: zero-size detection.  Whenever `m`, `n` or `batch_count` is `0`,
`rocsolver_gelqf_getMemorySize`, `rocsolver_org2l_ung2l_getMemorySize` and
`rocsolver_ormbr_unmbr_getMemorySize` store `0` in every one of their sizes and query no
sizing function of a sub-routine, whatever those functions are; the last one does so as
well whenever `k` is `0`. -/
theorem getMemorySize_zero_size (cfg : IdealSizes) (o : GelqfOracles) (BATCHED : Bool)
    (larf_getMemorySize : rocblas_side → Int → Int → Int → LarfSizes)
    (ormqr_getMemorySize ormlq_getMemorySize :
      rocblas_side → Int → Int → Int → Int → OrmSizes)
    (storev : rocblas_storev) (side : rocblas_side)
    (m n k batch_count : Int)
    (h : m = 0 ∨ n = 0 ∨ batch_count = 0) :
    rocsolver_gelqf_getMemorySize cfg o BATCHED m n batch_count = (⟨0, 0, 0, 0, 0⟩, [])
    ∧ rocsolver_org2l_ung2l_getMemorySize larf_getMemorySize m n batch_count
        = (⟨0, 0, 0⟩, [])
    ∧ rocsolver_ormbr_unmbr_getMemorySize ormqr_getMemorySize ormlq_getMemorySize storev side
        m n k batch_count = (⟨0, 0, 0, 0, 0⟩, [])
    ∧ ∀ m' n' bc' : Int,
        rocsolver_ormbr_unmbr_getMemorySize ormqr_getMemorySize ormlq_getMemorySize storev
          side m' n' 0 bc' = (⟨0, 0, 0, 0, 0⟩, []) := by
  have h2 : m = 0 ∨ n = 0 ∨ k = 0 ∨ batch_count = 0 := by tauto
  refine ⟨?_, ?_, ?_, ?_⟩
  · simp [rocsolver_gelqf_getMemorySize, h]
  · simp [rocsolver_org2l_ung2l_getMemorySize, h]
  · simp [rocsolver_ormbr_unmbr_getMemorySize, h2]
  · intro m' n' bc'
    simp [rocsolver_ormbr_unmbr_getMemorySize]

/-- Witness for `getMemorySize_zero_size`: a problem with `batch_count = 0` and sizing
functions of the sub-routines that never return `0`. -/
theorem getMemorySize_zero_size_witness :
    rocsolver_gelqf_getMemorySize ⟨2, 2⟩
        ⟨8, fun _ _ _ => ⟨1, 1, 1, 1⟩, fun _ _ _ => ⟨1, 1, 1⟩, fun _ _ _ _ _ => ⟨1, 1, 1⟩⟩
        true 7 5 0 = (⟨0, 0, 0, 0, 0⟩, [])
    ∧ rocsolver_org2l_ung2l_getMemorySize (fun _ _ _ _ => ⟨1, 1, 1⟩) 7 5 0 = (⟨0, 0, 0⟩, [])
    ∧ rocsolver_ormbr_unmbr_getMemorySize (fun _ _ _ _ _ => ⟨1, 1, 1, 1, 1⟩)
        (fun _ _ _ _ _ => ⟨1, 1, 1, 1, 1⟩) rocblas_storev.rocblas_column_wise
        rocblas_side.rocblas_side_right 7 5 3 0 = (⟨0, 0, 0, 0, 0⟩, []) := by
  have h := getMemorySize_zero_size ⟨2, 2⟩
    ⟨8, fun _ _ _ => ⟨1, 1, 1, 1⟩, fun _ _ _ => ⟨1, 1, 1⟩, fun _ _ _ _ _ => ⟨1, 1, 1⟩⟩ true
    (fun _ _ _ _ => ⟨1, 1, 1⟩) (fun _ _ _ _ _ => ⟨1, 1, 1, 1, 1⟩)
    (fun _ _ _ _ _ => ⟨1, 1, 1, 1, 1⟩) rocblas_storev.rocblas_column_wise
    rocblas_side.rocblas_side_right 7 5 3 0 (by decide)
  exact ⟨h.1, h.2.1, h.2.2.1⟩

/-! ### Argument checks -/

/-- C9: `rocsolver_org2l_orgql_argCheck` returns `rocblas_status_invalid_size` if and only
if `m < 0` or `n < 0` or `m < n` or `k < 0` or `k > n` or `lda < m`, whatever the query mode
of the handle and whether or not `A` or `ipiv` is null; in particular every `k > min(m, n)`
and every negative dimension is rejected with `rocblas_status_invalid_size`. -/
theorem org2l_argCheck_invalid_size_iff (handle : rocblas_handle) (m n k lda : Int)
    (A ipiv : DevPtr) :
    (rocsolver_org2l_orgql_argCheck handle m n k lda A ipiv = rocblas_status_invalid_size
        ↔ (m < 0 ∨ n < 0 ∨ m < n ∨ k < 0 ∨ k > n ∨ lda < m))
    ∧ (∀ (handle' : rocblas_handle) (A' ipiv' : DevPtr),
        rocsolver_org2l_orgql_argCheck handle' m n k lda A' ipiv'
            = rocblas_status_invalid_size
          ↔ rocsolver_org2l_orgql_argCheck handle m n k lda A ipiv
            = rocblas_status_invalid_size)
    ∧ (k > min m n →
        rocsolver_org2l_orgql_argCheck handle m n k lda A ipiv = rocblas_status_invalid_size)
    ∧ (m < 0 ∨ n < 0 ∨ k < 0 ∨ lda < 0 →
        rocsolver_org2l_orgql_argCheck handle m n k lda A ipiv
          = rocblas_status_invalid_size) := by
  have key : ∀ (hd : rocblas_handle) (P Q : DevPtr),
      rocsolver_org2l_orgql_argCheck hd m n k lda P Q = rocblas_status_invalid_size
        ↔ (m < 0 ∨ n < 0 ∨ m < n ∨ k < 0 ∨ k > n ∨ lda < m) := by
    intro hd P Q
    unfold rocsolver_org2l_orgql_argCheck
    by_cases hsz : m < 0 ∨ n < 0 ∨ m < n ∨ k < 0 ∨ k > n ∨ lda < m
    · simp only [hsz, if_true]
    · simp only [hsz, if_false, iff_false]
      split_ifs <;> simp
  refine ⟨key handle A ipiv, ?_, ?_, ?_⟩
  · intro handle' A' ipiv'
    rw [key handle' A' ipiv', key handle A ipiv]
  · intro hk
    exact (key handle A ipiv).2 (by omega)
  · intro hneg
    exact (key handle A ipiv).2 (by omega)

/-- Witness for `org2l_argCheck_invalid_size_iff`: `k = 3 > min(4, 2)` is rejected even in
query mode and with null pointers. -/
theorem org2l_argCheck_invalid_size_iff_witness :
    rocsolver_org2l_orgql_argCheck ⟨true, rocblas_pointer_mode.rocblas_pointer_mode_host⟩
      4 2 3 4 none none = rocblas_status_invalid_size :=
  (org2l_argCheck_invalid_size_iff ⟨true, rocblas_pointer_mode.rocblas_pointer_mode_host⟩
    4 2 3 4 none none).2.2.1 (by decide)

/-- The last stage of an argument check reports an invalid pointer exactly when its test
for a null required pointer holds. -/
theorem pointer_stage_iff (c : Prop) [Decidable c] :
    (if c then rocblas_status_invalid_pointer else rocblas_status_continue)
        = rocblas_status_invalid_pointer ↔ c := by
  by_cases h : c <;> simp [h]

/-- C10: for inputs with valid enum values and valid sizes,
`rocsolver_org2l_orgql_argCheck` and `rocsolver_ormbr_argCheck` return
`rocblas_status_continue` whenever the handle is in device-memory-size-query mode, whatever
pointers are null; when it is not, they return `rocblas_status_invalid_pointer` if and only
if a required pointer is null (ORG2L: `k != 0` and `ipiv` null, or `m != 0`, `n != 0` and
`A` null; ORMBR: `min(nq, k) > 0` and `A` or `ipiv` null, or `m != 0`, `n != 0` and `C`
null, with `nq = m` for the left side and `nq = n` otherwise), and
`rocblas_status_continue` otherwise. -/
theorem argCheck_pointer_stage (COMPLEX : Bool) (handle : rocblas_handle)
    (storev : rocblas_storev) (side : rocblas_side) (trans : rocblas_operation)
    (m n k lda : Int) (A ipiv : DevPtr)
    (m' n' k' lda' ldc' : Int) (A' C' ipiv' : DevPtr)
    (hsize : ¬ (m < 0 ∨ n < 0 ∨ m < n ∨ k < 0 ∨ k > n ∨ lda < m))
    (hside : side = rocblas_side_left ∨ side = rocblas_side_right)
    (htrans : trans = rocblas_operation_none
      ∨ (COMPLEX = false ∧ trans = rocblas_operation_transpose)
      ∨ (COMPLEX = true ∧ trans = rocblas_operation_conjugate_transpose))
    (hstorev : storev = rocblas_column_wise ∨ storev = rocblas_row_wise)
    (hsize' : ¬ (m' < 0 ∨ n' < 0 ∨ k' < 0 ∨ ldc' < m'
      ∨ (storev = rocblas_column_wise ∧ lda' < (if side = rocblas_side_left then m' else n'))
      ∨ (storev = rocblas_row_wise
          ∧ lda' < min (if side = rocblas_side_left then m' else n') k'))) :
    (rocblas_is_device_memory_size_query handle = true →
        rocsolver_org2l_orgql_argCheck handle m n k lda A ipiv = rocblas_status_continue
        ∧ rocsolver_ormbr_argCheck COMPLEX handle storev side trans m' n' k' lda' ldc'
            A' C' ipiv' = rocblas_status_continue)
    ∧ (rocblas_is_device_memory_size_query handle = false →
        (rocsolver_org2l_orgql_argCheck handle m n k lda A ipiv
            = rocblas_status_invalid_pointer
          ↔ ((k ≠ 0 ∧ ipiv = none) ∨ (m ≠ 0 ∧ n ≠ 0 ∧ A = none)))
        ∧ (¬ ((k ≠ 0 ∧ ipiv = none) ∨ (m ≠ 0 ∧ n ≠ 0 ∧ A = none)) →
            rocsolver_org2l_orgql_argCheck handle m n k lda A ipiv = rocblas_status_continue)
        ∧ (rocsolver_ormbr_argCheck COMPLEX handle storev side trans m' n' k' lda' ldc'
              A' C' ipiv' = rocblas_status_invalid_pointer
          ↔ ((min (if side = rocblas_side_left then m' else n') k' > 0
                ∧ (A' = none ∨ ipiv' = none))
              ∨ (m' ≠ 0 ∧ n' ≠ 0 ∧ C' = none)))
        ∧ (¬ ((min (if side = rocblas_side_left then m' else n') k' > 0
                ∧ (A' = none ∨ ipiv' = none))
              ∨ (m' ≠ 0 ∧ n' ≠ 0 ∧ C' = none)) →
            rocsolver_ormbr_argCheck COMPLEX handle storev side trans m' n' k' lda' ldc'
              A' C' ipiv' = rocblas_status_continue)) := by
  -- the first two stages of the ORMBR check pass
  have hv1 : ¬ (side ≠ rocblas_side_left ∧ side ≠ rocblas_side_right) := by tauto
  have hv2 : ¬ (trans ≠ rocblas_operation_none ∧ trans ≠ rocblas_operation_transpose
      ∧ trans ≠ rocblas_operation_conjugate_transpose) := by
    rcases htrans with h | ⟨_, h⟩ | ⟨_, h⟩ <;> simp [h]
  have hv3 : ¬ ((COMPLEX = true ∧ trans = rocblas_operation_transpose)
      ∨ (COMPLEX = false ∧ trans = rocblas_operation_conjugate_transpose)) := by
    rcases htrans with h | ⟨hc, h⟩ | ⟨hc, h⟩
    · simp [h]
    · simp [h, hc]
    · simp [h, hc]
  have hv4 : ¬ (storev ≠ rocblas_column_wise ∧ storev ≠ rocblas_row_wise) := by tauto
  have hs1 : ¬ (m' < 0 ∨ n' < 0 ∨ k' < 0 ∨ ldc' < m') := by
    intro h
    apply hsize'
    rcases h with h | h | h | h
    · exact Or.inl h
    · exact Or.inr (Or.inl h)
    · exact Or.inr (Or.inr (Or.inl h))
    · exact Or.inr (Or.inr (Or.inr (Or.inl h)))
  have hs2 : ¬ (decide (storev = rocblas_row_wise) = false
      ∧ lda' < (if decide (side = rocblas_side_left) = true then m' else n')) := by
    rintro ⟨hr, hl⟩
    have hcol : storev = rocblas_column_wise := by
      rcases hstorev with h | h
      · exact h
      · simp [h] at hr
    apply hsize'
    right; right; right; right; left
    refine ⟨hcol, ?_⟩
    simpa using hl
  have hs3 : ¬ (decide (storev = rocblas_row_wise) = true
      ∧ lda' < min (if decide (side = rocblas_side_left) = true then m' else n') k') := by
    rintro ⟨hr, hl⟩
    apply hsize'
    right; right; right; right; right
    refine ⟨by simpa using hr, ?_⟩
    simpa using hl
  have hormbr : rocsolver_ormbr_argCheck COMPLEX handle storev side trans m' n' k' lda' ldc'
      A' C' ipiv'
      = if rocblas_is_device_memory_size_query handle = true then rocblas_status_continue
        else if ((decide (min (if decide (side = rocblas_side_left) = true then m' else n') k'
                > 0) && isNull A')
            || (decide (min (if decide (side = rocblas_side_left) = true then m' else n') k'
                > 0) && isNull ipiv')
            || (truthy m' && truthy n' && isNull C')) = true
          then rocblas_status_invalid_pointer else rocblas_status_continue := by
    unfold rocsolver_ormbr_argCheck
    rw [if_neg hv1, if_neg hv2, if_neg hv3, if_neg hv4]
    simp only []
    rw [if_neg hs1, if_neg hs2, if_neg hs3]
  have horg : rocsolver_org2l_orgql_argCheck handle m n k lda A ipiv
      = if rocblas_is_device_memory_size_query handle = true then rocblas_status_continue
        else if ((truthy k && isNull ipiv) || (truthy m && truthy n && isNull A)) = true
          then rocblas_status_invalid_pointer else rocblas_status_continue := by
    unfold rocsolver_org2l_orgql_argCheck
    rw [if_neg hsize]
  have hptr1 : ((truthy k && isNull ipiv) || (truthy m && truthy n && isNull A)) = true
      ↔ ((k ≠ 0 ∧ ipiv = none) ∨ (m ≠ 0 ∧ n ≠ 0 ∧ A = none)) := by
    simp [truthy, isNull, Option.isNone_iff_eq_none, and_assoc]
  have hptr2 : ((decide (min (if decide (side = rocblas_side_left) = true then m' else n') k'
                > 0) && isNull A')
            || (decide (min (if decide (side = rocblas_side_left) = true then m' else n') k'
                > 0) && isNull ipiv')
            || (truthy m' && truthy n' && isNull C')) = true
      ↔ ((min (if side = rocblas_side_left then m' else n') k' > 0
            ∧ (A' = none ∨ ipiv' = none))
          ∨ (m' ≠ 0 ∧ n' ≠ 0 ∧ C' = none)) := by
    simp only [truthy, isNull, Option.isNone_iff_eq_none, Bool.or_eq_true, Bool.and_eq_true,
      decide_eq_true_eq]
    rw [← and_or_left, and_assoc]
  refine ⟨?_, ?_⟩
  · intro hq
    rw [horg, hormbr, if_pos hq, if_pos hq]
    exact ⟨rfl, rfl⟩
  · intro hq
    have hq' : ¬ rocblas_is_device_memory_size_query handle = true := by simp [hq]
    rw [horg, hormbr, if_neg hq', if_neg hq']
    refine ⟨?_, ?_, ?_, ?_⟩
    · rw [pointer_stage_iff, hptr1]
    · intro hno
      rw [← hptr1] at hno
      rw [if_neg hno]
    · rw [pointer_stage_iff, hptr2]
    · intro hno
      rw [← hptr2] at hno
      rw [if_neg hno]

/-- Witness for `argCheck_pointer_stage`: valid sizes and values, a handle that is not in
query mode, and a null `ipiv` in both calls. -/
theorem argCheck_pointer_stage_witness :
    rocsolver_org2l_orgql_argCheck ⟨false, rocblas_pointer_mode.rocblas_pointer_mode_host⟩
        4 3 2 4 (some 16) none = rocblas_status_invalid_pointer
    ∧ rocsolver_ormbr_argCheck false ⟨false, rocblas_pointer_mode.rocblas_pointer_mode_host⟩
        rocblas_column_wise rocblas_side_left rocblas_operation_transpose 4 3 2 4 4
        (some 16) (some 32) none = rocblas_status_invalid_pointer := by
  have h := (argCheck_pointer_stage false
    ⟨false, rocblas_pointer_mode.rocblas_pointer_mode_host⟩
    rocblas_column_wise rocblas_side_left rocblas_operation_transpose
    4 3 2 4 (some 16) none 4 3 2 4 4 (some 16) (some 32) none
    (by decide) (by decide) (by decide) (by decide) (by decide)).2 rfl
  exact ⟨h.1.2 (by decide), h.2.2.1.2 (by decide)⟩

/-- An unsupported value of `side`, `trans` or `storev` makes `rocsolver_ormbr_argCheck`
return `rocblas_status_invalid_value`. -/
theorem ormbr_argCheck_unsupported (COMPLEX : Bool) (handle : rocblas_handle)
    (storev : rocblas_storev) (side : rocblas_side) (trans : rocblas_operation)
    (m n k lda ldc : Int) (A C ipiv : DevPtr)
    (h : ¬ (side = rocblas_side_left ∨ side = rocblas_side_right)
      ∨ ¬ (trans = rocblas_operation_none
          ∨ (COMPLEX = false ∧ trans = rocblas_operation_transpose)
          ∨ (COMPLEX = true ∧ trans = rocblas_operation_conjugate_transpose))
      ∨ ¬ (storev = rocblas_column_wise ∨ storev = rocblas_row_wise)) :
    rocsolver_ormbr_argCheck COMPLEX handle storev side trans m n k lda ldc A C ipiv
      = rocblas_status_invalid_value := by
  unfold rocsolver_ormbr_argCheck
  by_cases h1 : side ≠ rocblas_side_left ∧ side ≠ rocblas_side_right
  · rw [if_pos h1]
  rw [if_neg h1]
  by_cases h2 : trans ≠ rocblas_operation_none ∧ trans ≠ rocblas_operation_transpose
      ∧ trans ≠ rocblas_operation_conjugate_transpose
  · rw [if_pos h2]
  rw [if_neg h2]
  by_cases h3 : (COMPLEX = true ∧ trans = rocblas_operation_transpose)
      ∨ (COMPLEX = false ∧ trans = rocblas_operation_conjugate_transpose)
  · rw [if_pos h3]
  rw [if_neg h3]
  by_cases h4 : storev ≠ rocblas_column_wise ∧ storev ≠ rocblas_row_wise
  · rw [if_pos h4]
  exfalso
  rcases h with h | h | h
  · exact h1 ⟨fun e => h (Or.inl e), fun e => h (Or.inr e)⟩
  · cases COMPLEX <;> cases trans <;> simp at h h2 h3
  · exact h4 ⟨fun e => h (Or.inl e), fun e => h (Or.inr e)⟩

/-- With supported values of `side`, `trans` and `storev`, `rocsolver_ormbr_argCheck` is its
size stage followed by its pointer stage. -/
theorem ormbr_argCheck_supported (COMPLEX : Bool) (handle : rocblas_handle)
    (storev : rocblas_storev) (side : rocblas_side) (trans : rocblas_operation)
    (m n k lda ldc : Int) (A C ipiv : DevPtr)
    (hside : side = rocblas_side_left ∨ side = rocblas_side_right)
    (htrans : trans = rocblas_operation_none
      ∨ (COMPLEX = false ∧ trans = rocblas_operation_transpose)
      ∨ (COMPLEX = true ∧ trans = rocblas_operation_conjugate_transpose))
    (hstorev : storev = rocblas_column_wise ∨ storev = rocblas_row_wise) :
    rocsolver_ormbr_argCheck COMPLEX handle storev side trans m n k lda ldc A C ipiv
      = if m < 0 ∨ n < 0 ∨ k < 0 ∨ ldc < m
            ∨ (storev = rocblas_column_wise
                ∧ lda < (if side = rocblas_side_left then m else n))
            ∨ (storev = rocblas_row_wise
                ∧ lda < min (if side = rocblas_side_left then m else n) k)
          then rocblas_status_invalid_size
        else if rocblas_is_device_memory_size_query handle = true
          then rocblas_status_continue
        else if (min (if side = rocblas_side_left then m else n) k > 0
              ∧ (A = none ∨ ipiv = none))
            ∨ (m ≠ 0 ∧ n ≠ 0 ∧ C = none)
          then rocblas_status_invalid_pointer
        else rocblas_status_continue := by
  have hv1 : ¬ (side ≠ rocblas_side_left ∧ side ≠ rocblas_side_right) := by
    rcases hside with h | h <;> simp [h]
  have hv2 : ¬ (trans ≠ rocblas_operation_none ∧ trans ≠ rocblas_operation_transpose
      ∧ trans ≠ rocblas_operation_conjugate_transpose) := by
    rcases htrans with h | ⟨_, h⟩ | ⟨_, h⟩ <;> simp [h]
  have hv3 : ¬ ((COMPLEX = true ∧ trans = rocblas_operation_transpose)
      ∨ (COMPLEX = false ∧ trans = rocblas_operation_conjugate_transpose)) := by
    rcases htrans with h | ⟨hc, h⟩ | ⟨hc, h⟩
    · simp [h]
    · simp [h, hc]
    · simp [h, hc]
  have hv4 : ¬ (storev ≠ rocblas_column_wise ∧ storev ≠ rocblas_row_wise) := by
    rcases hstorev with h | h <;> simp [h]
  unfold rocsolver_ormbr_argCheck
  rw [if_neg hv1, if_neg hv2, if_neg hv3, if_neg hv4]
  simp only []
  generalize hnq : (if side = rocblas_side_left then m else n) = nq
  have hnq' : (if decide (side = rocblas_side_left) = true then m else n) = nq := by
    rw [← hnq]
    by_cases hs : side = rocblas_side_left <;> simp [hs]
  rw [hnq']
  have hptr : ((decide (min nq k > 0) && isNull A) || (decide (min nq k > 0) && isNull ipiv)
        || (truthy m && truthy n && isNull C)) = true
      ↔ ((min nq k > 0 ∧ (A = none ∨ ipiv = none)) ∨ (m ≠ 0 ∧ n ≠ 0 ∧ C = none)) := by
    simp only [truthy, isNull, Option.isNone_iff_eq_none, Bool.or_eq_true, Bool.and_eq_true,
      decide_eq_true_eq]
    rw [← and_or_left, and_assoc]
  by_cases hs1 : m < 0 ∨ n < 0 ∨ k < 0 ∨ ldc < m
  · rw [if_pos hs1, if_pos]
    rcases hs1 with h | h | h | h
    · exact Or.inl h
    · exact Or.inr (Or.inl h)
    · exact Or.inr (Or.inr (Or.inl h))
    · exact Or.inr (Or.inr (Or.inr (Or.inl h)))
  rw [if_neg hs1]
  rcases hstorev with hst | hst
  · -- column-wise
    have hrow : decide (storev = rocblas_row_wise) = false := by simp [hst]
    rw [hrow]
    by_cases hl : lda < nq
    · rw [if_pos ⟨rfl, hl⟩, if_pos]
      exact Or.inr (Or.inr (Or.inr (Or.inr (Or.inl ⟨hst, hl⟩))))
    · have hn2 : ¬ (false = false ∧ lda < nq) := fun h => hl h.2
      have hn3 : ¬ (false = true ∧ lda < min nq k) := fun h => Bool.noConfusion h.1
      rw [if_neg hn2, if_neg hn3]
      have hno : ¬ (m < 0 ∨ n < 0 ∨ k < 0 ∨ ldc < m ∨ (storev = rocblas_column_wise ∧ lda < nq)
          ∨ (storev = rocblas_row_wise ∧ lda < min nq k)) := by
        rintro (h | h | h | h | h | h)
        · exact hs1 (Or.inl h)
        · exact hs1 (Or.inr (Or.inl h))
        · exact hs1 (Or.inr (Or.inr (Or.inl h)))
        · exact hs1 (Or.inr (Or.inr (Or.inr h)))
        · exact hl h.2
        · rw [hst] at h
          exact absurd h.1 (by decide)
      rw [if_neg hno]
      by_cases hq : rocblas_is_device_memory_size_query handle = true
      · rw [if_pos hq, if_pos hq]
      · rw [if_neg hq, if_neg hq]
        by_cases hp : ((min nq k > 0 ∧ (A = none ∨ ipiv = none)) ∨ (m ≠ 0 ∧ n ≠ 0 ∧ C = none))
        · rw [if_pos (hptr.2 hp), if_pos hp]
        · rw [if_neg (fun h => hp (hptr.1 h)), if_neg hp]
  · -- row-wise
    have hrow : decide (storev = rocblas_row_wise) = true := by simp [hst]
    rw [hrow]
    have hn2 : ¬ (true = false ∧ lda < nq) := fun h => Bool.noConfusion h.1
    rw [if_neg hn2]
    by_cases hl : lda < min nq k
    · rw [if_pos ⟨rfl, hl⟩, if_pos]
      exact Or.inr (Or.inr (Or.inr (Or.inr (Or.inr ⟨hst, hl⟩))))
    · have hn3 : ¬ (true = true ∧ lda < min nq k) := fun h => hl h.2
      rw [if_neg hn3]
      have hno : ¬ (m < 0 ∨ n < 0 ∨ k < 0 ∨ ldc < m ∨ (storev = rocblas_column_wise ∧ lda < nq)
          ∨ (storev = rocblas_row_wise ∧ lda < min nq k)) := by
        rintro (h | h | h | h | h | h)
        · exact hs1 (Or.inl h)
        · exact hs1 (Or.inr (Or.inl h))
        · exact hs1 (Or.inr (Or.inr (Or.inl h)))
        · exact hs1 (Or.inr (Or.inr (Or.inr h)))
        · rw [hst] at h
          exact absurd h.1 (by decide)
        · exact hl h.2
      rw [if_neg hno]
      by_cases hq : rocblas_is_device_memory_size_query handle = true
      · rw [if_pos hq, if_pos hq]
      · rw [if_neg hq, if_neg hq]
        by_cases hp : ((min nq k > 0 ∧ (A = none ∨ ipiv = none)) ∨ (m ≠ 0 ∧ n ≠ 0 ∧ C = none))
        · rw [if_pos (hptr.2 hp), if_pos hp]
        · rw [if_neg (fun h => hp (hptr.1 h)), if_neg hp]

/-- C11: validation order.  In `rocsolver_ormbr_argCheck`, an unsupported value of `side`,
`trans` or `storev` gives `rocblas_status_invalid_value` whatever the sizes and pointers
are; with supported values, a violated size constraint gives `rocblas_status_invalid_size`
whatever the pointers and the query mode of the handle are; and
`rocblas_status_invalid_pointer` is returned only when values and sizes are all valid (and
the handle is not in query mode).  The last two stages of `rocsolver_org2l_orgql_argCheck`
are ordered the same way. -/
theorem argCheck_validation_order (COMPLEX : Bool) (handle : rocblas_handle)
    (storev : rocblas_storev) (side : rocblas_side) (trans : rocblas_operation)
    (m n k lda ldc : Int) (A C ipiv : DevPtr) :
    ((¬ (side = rocblas_side_left ∨ side = rocblas_side_right)
        ∨ ¬ (trans = rocblas_operation_none
            ∨ (COMPLEX = false ∧ trans = rocblas_operation_transpose)
            ∨ (COMPLEX = true ∧ trans = rocblas_operation_conjugate_transpose))
        ∨ ¬ (storev = rocblas_column_wise ∨ storev = rocblas_row_wise)) →
      rocsolver_ormbr_argCheck COMPLEX handle storev side trans m n k lda ldc A C ipiv
        = rocblas_status_invalid_value)
    ∧ ((side = rocblas_side_left ∨ side = rocblas_side_right) →
       (trans = rocblas_operation_none
          ∨ (COMPLEX = false ∧ trans = rocblas_operation_transpose)
          ∨ (COMPLEX = true ∧ trans = rocblas_operation_conjugate_transpose)) →
       (storev = rocblas_column_wise ∨ storev = rocblas_row_wise) →
       (m < 0 ∨ n < 0 ∨ k < 0 ∨ ldc < m
          ∨ (storev = rocblas_column_wise
              ∧ lda < (if side = rocblas_side_left then m else n))
          ∨ (storev = rocblas_row_wise
              ∧ lda < min (if side = rocblas_side_left then m else n) k)) →
       rocsolver_ormbr_argCheck COMPLEX handle storev side trans m n k lda ldc A C ipiv
         = rocblas_status_invalid_size)
    ∧ (rocsolver_ormbr_argCheck COMPLEX handle storev side trans m n k lda ldc A C ipiv
          = rocblas_status_invalid_pointer →
        (side = rocblas_side_left ∨ side = rocblas_side_right)
        ∧ (trans = rocblas_operation_none
            ∨ (COMPLEX = false ∧ trans = rocblas_operation_transpose)
            ∨ (COMPLEX = true ∧ trans = rocblas_operation_conjugate_transpose))
        ∧ (storev = rocblas_column_wise ∨ storev = rocblas_row_wise)
        ∧ ¬ (m < 0 ∨ n < 0 ∨ k < 0 ∨ ldc < m
            ∨ (storev = rocblas_column_wise
                ∧ lda < (if side = rocblas_side_left then m else n))
            ∨ (storev = rocblas_row_wise
                ∧ lda < min (if side = rocblas_side_left then m else n) k))
        ∧ rocblas_is_device_memory_size_query handle = false)
    ∧ ((m < 0 ∨ n < 0 ∨ m < n ∨ k < 0 ∨ k > n ∨ lda < m) →
        rocsolver_org2l_orgql_argCheck handle m n k lda A ipiv = rocblas_status_invalid_size)
    ∧ (rocsolver_org2l_orgql_argCheck handle m n k lda A ipiv
          = rocblas_status_invalid_pointer →
        ¬ (m < 0 ∨ n < 0 ∨ m < n ∨ k < 0 ∨ k > n ∨ lda < m)
        ∧ rocblas_is_device_memory_size_query handle = false) := by
  refine ⟨ormbr_argCheck_unsupported COMPLEX handle storev side trans m n k lda ldc A C ipiv,
    ?_, ?_, ?_, ?_⟩
  · intro hside htrans hstorev hsz
    rw [ormbr_argCheck_supported COMPLEX handle storev side trans m n k lda ldc A C ipiv
      hside htrans hstorev, if_pos hsz]
  · intro hres
    by_cases hside : side = rocblas_side_left ∨ side = rocblas_side_right
    swap
    · rw [ormbr_argCheck_unsupported COMPLEX handle storev side trans m n k lda ldc A C ipiv
        (Or.inl hside)] at hres
      exact absurd hres (by decide)
    by_cases htrans : trans = rocblas_operation_none
        ∨ (COMPLEX = false ∧ trans = rocblas_operation_transpose)
        ∨ (COMPLEX = true ∧ trans = rocblas_operation_conjugate_transpose)
    swap
    · rw [ormbr_argCheck_unsupported COMPLEX handle storev side trans m n k lda ldc A C ipiv
        (Or.inr (Or.inl htrans))] at hres
      exact absurd hres (by decide)
    by_cases hstorev : storev = rocblas_column_wise ∨ storev = rocblas_row_wise
    swap
    · rw [ormbr_argCheck_unsupported COMPLEX handle storev side trans m n k lda ldc A C ipiv
        (Or.inr (Or.inr hstorev))] at hres
      exact absurd hres (by decide)
    rw [ormbr_argCheck_supported COMPLEX handle storev side trans m n k lda ldc A C ipiv
      hside htrans hstorev] at hres
    refine ⟨hside, htrans, hstorev, ?_, ?_⟩
    · intro hsz
      rw [if_pos hsz] at hres
      exact absurd hres (by decide)
    · by_contra hq
      have hq' : rocblas_is_device_memory_size_query handle = true := by
        cases hh : rocblas_is_device_memory_size_query handle
        · exact absurd hh hq
        · rfl
      split_ifs at hres
  · intro hsz
    unfold rocsolver_org2l_orgql_argCheck
    rw [if_pos hsz]
  · intro hres
    unfold rocsolver_org2l_orgql_argCheck at hres
    refine ⟨?_, ?_⟩
    · intro hsz
      rw [if_pos hsz] at hres
      exact absurd hres (by decide)
    · by_contra hq
      have hq' : rocblas_is_device_memory_size_query handle = true := by
        cases hh : rocblas_is_device_memory_size_query handle
        · exact absurd hh hq
        · rfl
      split_ifs at hres

/-- Witness for `argCheck_validation_order`: `side = rocblas_side_both` is rejected as an
invalid value although a size is negative and every pointer is null; with a supported side
the negative size is reported, although every pointer is null. -/
theorem argCheck_validation_order_witness :
    rocsolver_ormbr_argCheck false ⟨false, rocblas_pointer_mode.rocblas_pointer_mode_host⟩
        rocblas_column_wise rocblas_side_both rocblas_operation_none (-1) 3 2 4 4
        none none none = rocblas_status_invalid_value
    ∧ rocsolver_ormbr_argCheck false ⟨false, rocblas_pointer_mode.rocblas_pointer_mode_host⟩
        rocblas_column_wise rocblas_side_left rocblas_operation_none (-1) 3 2 4 4
        none none none = rocblas_status_invalid_size :=
  ⟨(argCheck_validation_order false ⟨false, rocblas_pointer_mode.rocblas_pointer_mode_host⟩
      rocblas_column_wise rocblas_side_both rocblas_operation_none (-1) 3 2 4 4
      none none none).1 (by decide),
   (argCheck_validation_order false ⟨false, rocblas_pointer_mode.rocblas_pointer_mode_host⟩
      rocblas_column_wise rocblas_side_left rocblas_operation_none (-1) 3 2 4 4
      none none none).2.1 (by decide) (by decide) (by decide) (by decide)⟩

/-- C12: `rocsolver_ormbr_argCheck` returns `rocblas_status_invalid_value` for
`trans = conjugate_transpose` in a real instantiation (`COMPLEX = false`) and for
`trans = transpose` in a complex instantiation (`COMPLEX = true`), for every choice of the
remaining arguments; with supported `side` and `storev`, the values of `trans` that are not
rejected as invalid values are exactly `none` and `transpose` for real, and `none` and
`conjugate_transpose` for complex. -/
theorem ormbr_argCheck_trans_accepted (COMPLEX : Bool) (handle : rocblas_handle)
    (storev : rocblas_storev) (side : rocblas_side) (trans : rocblas_operation)
    (m n k lda ldc : Int) (A C ipiv : DevPtr) :
    rocsolver_ormbr_argCheck false handle storev side rocblas_operation_conjugate_transpose
        m n k lda ldc A C ipiv = rocblas_status_invalid_value
    ∧ rocsolver_ormbr_argCheck true handle storev side rocblas_operation_transpose
        m n k lda ldc A C ipiv = rocblas_status_invalid_value
    ∧ ((side = rocblas_side_left ∨ side = rocblas_side_right) →
       (storev = rocblas_column_wise ∨ storev = rocblas_row_wise) →
       (rocsolver_ormbr_argCheck COMPLEX handle storev side trans m n k lda ldc A C ipiv
            ≠ rocblas_status_invalid_value
          ↔ (trans = rocblas_operation_none
              ∨ (COMPLEX = false ∧ trans = rocblas_operation_transpose)
              ∨ (COMPLEX = true ∧ trans = rocblas_operation_conjugate_transpose)))) := by
  refine ⟨?_, ?_, ?_⟩
  · exact ormbr_argCheck_unsupported false handle storev side _ m n k lda ldc A C ipiv
      (Or.inr (Or.inl (by decide)))
  · exact ormbr_argCheck_unsupported true handle storev side _ m n k lda ldc A C ipiv
      (Or.inr (Or.inl (by decide)))
  · intro hside hstorev
    constructor
    · intro hne
      by_contra htrans
      exact hne (ormbr_argCheck_unsupported COMPLEX handle storev side trans m n k lda ldc
        A C ipiv (Or.inr (Or.inl htrans)))
    · intro htrans
      rw [ormbr_argCheck_supported COMPLEX handle storev side trans m n k lda ldc A C ipiv
        hside htrans hstorev]
      split_ifs <;> decide

/-- Witness for `ormbr_argCheck_trans_accepted`: `transpose` is accepted in a real
instantiation with valid sizes and non-null pointers. -/
theorem ormbr_argCheck_trans_accepted_witness :
    rocsolver_ormbr_argCheck false ⟨false, rocblas_pointer_mode.rocblas_pointer_mode_host⟩
        rocblas_row_wise rocblas_side_right rocblas_operation_transpose 4 3 2 4 4
        (some 16) (some 32) (some 48) ≠ rocblas_status_invalid_value :=
  ((ormbr_argCheck_trans_accepted false
      ⟨false, rocblas_pointer_mode.rocblas_pointer_mode_host⟩
      rocblas_row_wise rocblas_side_right rocblas_operation_transpose 4 3 2 4 4
      (some 16) (some 32) (some 48)).2.2 (by decide) (by decide)).2 (by decide)

/-- C13: for supported values of `side`, `trans` and `storev`, `rocsolver_ormbr_argCheck`
returns `rocblas_status_invalid_size` if and only if `m < 0` or `n < 0` or `k < 0` or
`ldc < m` or (`storev` is column-wise and `lda < nq`) or (`storev` is row-wise and
`lda < min(nq, k)`), where `nq = m` for the left side and `nq = n` for the right side; no
upper bound on `k` is enforced: with `m, n ≥ 0`, `ldc ≥ m` and `lda ≥ nq`, no `k ≥ 0` is
rejected as an invalid size. -/
theorem ormbr_argCheck_invalid_size_iff (COMPLEX : Bool) (handle : rocblas_handle)
    (storev : rocblas_storev) (side : rocblas_side) (trans : rocblas_operation)
    (m n k lda ldc : Int) (A C ipiv : DevPtr)
    (hside : side = rocblas_side_left ∨ side = rocblas_side_right)
    (htrans : trans = rocblas_operation_none
      ∨ (COMPLEX = false ∧ trans = rocblas_operation_transpose)
      ∨ (COMPLEX = true ∧ trans = rocblas_operation_conjugate_transpose))
    (hstorev : storev = rocblas_column_wise ∨ storev = rocblas_row_wise) :
    (rocsolver_ormbr_argCheck COMPLEX handle storev side trans m n k lda ldc A C ipiv
          = rocblas_status_invalid_size
        ↔ (m < 0 ∨ n < 0 ∨ k < 0 ∨ ldc < m
            ∨ (storev = rocblas_column_wise
                ∧ lda < (if side = rocblas_side_left then m else n))
            ∨ (storev = rocblas_row_wise
                ∧ lda < min (if side = rocblas_side_left then m else n) k)))
    ∧ (0 ≤ m → 0 ≤ n → m ≤ ldc → (if side = rocblas_side_left then m else n) ≤ lda →
        ∀ k' : Int, 0 ≤ k' →
          rocsolver_ormbr_argCheck COMPLEX handle storev side trans m n k' lda ldc A C ipiv
            ≠ rocblas_status_invalid_size) := by
  have key : ∀ kk : Int,
      rocsolver_ormbr_argCheck COMPLEX handle storev side trans m n kk lda ldc A C ipiv
          = rocblas_status_invalid_size
        ↔ (m < 0 ∨ n < 0 ∨ kk < 0 ∨ ldc < m
            ∨ (storev = rocblas_column_wise
                ∧ lda < (if side = rocblas_side_left then m else n))
            ∨ (storev = rocblas_row_wise
                ∧ lda < min (if side = rocblas_side_left then m else n) kk)) := by
    intro kk
    rw [ormbr_argCheck_supported COMPLEX handle storev side trans m n kk lda ldc A C ipiv
      hside htrans hstorev]
    constructor
    · intro h
      by_contra hsz
      rw [if_neg hsz] at h
      split_ifs at h
    · intro hsz
      rw [if_pos hsz]
  refine ⟨key k, ?_⟩
  intro hm hn hldc hlda k' hk' hres
  have h := (key k').1 hres
  generalize (if side = rocblas_side_left then m else n) = nq at h hlda
  omega

/-- Witness for `ormbr_argCheck_invalid_size_iff`: `k = 1000` with `m = 4`, `n = 3` is not
rejected as an invalid size. -/
theorem ormbr_argCheck_invalid_size_iff_witness :
    rocsolver_ormbr_argCheck false ⟨false, rocblas_pointer_mode.rocblas_pointer_mode_host⟩
        rocblas_row_wise rocblas_side_left rocblas_operation_none 4 3 1000 4 4
        (some 16) (some 32) (some 48) ≠ rocblas_status_invalid_size :=
  (ormbr_argCheck_invalid_size_iff false
      ⟨false, rocblas_pointer_mode.rocblas_pointer_mode_host⟩
      rocblas_row_wise rocblas_side_left rocblas_operation_none 4 3 2 4 4
      (some 16) (some 32) (some 48) (by decide) (by decide) (by decide)).2
    (by decide) (by decide) (by decide) (by decide) 1000 (by decide)

/-! ### Top-level drivers -/

/-- C14: with a null handle, `rocsolver_getf2_strided_batched_impl` and
`rocsolver_geblttrf_npvt_interleaved_batched_impl` return `rocblas_status_invalid_handle`
for every value of the other arguments, and do nothing else: no argument check, no sizing,
no allocation, no execution. -/
theorem impl_null_handle (dm : DeviceMemory) (r : Getf2Routines) (r' : GeblttrfRoutines)
    (m n : Int) (A : DevPtr) (lda strideA : Int) (ipiv : DevPtr) (strideP : Int)
    (info : DevPtr) (pivot : Bool) (batch_count : Int)
    (nb nblocks : Int) (A' : DevPtr) (inca lda' strideA' : Int) (B' : DevPtr)
    (incb ldb strideB : Int) (C' : DevPtr) (incc ldc strideC : Int) (info' : DevPtr)
    (batch_count' : Int) :
    rocsolver_getf2_strided_batched_impl dm r none m n A lda strideA ipiv strideP info pivot
        batch_count = (rocblas_status_invalid_handle, [])
    ∧ rocsolver_geblttrf_npvt_interleaved_batched_impl dm r' none nb nblocks A' inca lda'
        strideA' B' incb ldb strideB C' incc ldc strideC info' batch_count'
        = (rocblas_status_invalid_handle, []) :=
  ⟨rfl, rfl⟩

/-- C15: in `rocsolver_getf2_strided_batched_impl` and
`rocsolver_geblttrf_npvt_interleaved_batched_impl`, a status other than
`rocblas_status_continue` coming from the argument check is returned as it is, with no
sizing, allocation or execution; and provided
`rocblas_set_optimal_device_memory_size` and the execution template never return
`rocblas_status_continue`, neither driver ever returns it. -/
theorem impl_continue_not_returned (dm : DeviceMemory) (r : Getf2Routines)
    (r' : GeblttrfRoutines) (handle : Option rocblas_handle)
    (m n : Int) (A : DevPtr) (lda strideA : Int) (ipiv : DevPtr) (strideP : Int)
    (info : DevPtr) (pivot : Bool) (batch_count : Int)
    (nb nblocks : Int) (A' : DevPtr) (inca lda' strideA' : Int) (B' : DevPtr)
    (incb ldb strideB : Int) (C' : DevPtr) (incc ldc strideC : Int) (info' : DevPtr)
    (batch_count' : Int) :
    (∀ h, handle = some h →
        r.rocsolver_getf2_getrf_argCheck h m n lda A ipiv info pivot batch_count
          ≠ rocblas_status_continue →
        rocsolver_getf2_strided_batched_impl dm r handle m n A lda strideA ipiv strideP info
            pivot batch_count
          = (r.rocsolver_getf2_getrf_argCheck h m n lda A ipiv info pivot batch_count,
             [ImplEvent.argCheck]))
    ∧ (∀ h, handle = some h →
        r'.rocsolver_geblttrf_npvt_argCheck h nb nblocks lda' ldb ldc A' B' C' info'
            batch_count' inca incb incc ≠ rocblas_status_continue →
        rocsolver_geblttrf_npvt_interleaved_batched_impl dm r' handle nb nblocks A' inca lda'
            strideA' B' incb ldb strideB C' incc ldc strideC info' batch_count'
          = (r'.rocsolver_geblttrf_npvt_argCheck h nb nblocks lda' ldb ldc A' B' C' info'
               batch_count' inca incb incc,
             [ImplEvent.argCheck]))
    ∧ ((∀ h sizes, dm.rocblas_set_optimal_device_memory_size h sizes
          ≠ rocblas_status_continue) →
       (∀ h args, r.rocsolver_getf2_template h args ≠ rocblas_status_continue) →
        (rocsolver_getf2_strided_batched_impl dm r handle m n A lda strideA ipiv strideP info
            pivot batch_count).1 ≠ rocblas_status_continue)
    ∧ ((∀ h sizes, dm.rocblas_set_optimal_device_memory_size h sizes
          ≠ rocblas_status_continue) →
       (∀ h args, r'.rocsolver_geblttrf_npvt_template h args ≠ rocblas_status_continue) →
        (rocsolver_geblttrf_npvt_interleaved_batched_impl dm r' handle nb nblocks A' inca lda'
            strideA' B' incb ldb strideB C' incc ldc strideC info' batch_count').1
          ≠ rocblas_status_continue) := by
  refine ⟨?_, ?_, ?_, ?_⟩
  · rintro h rfl hst
    simp only [rocsolver_getf2_strided_batched_impl]
    rw [if_pos hst]
  · rintro h rfl hst
    simp only [rocsolver_geblttrf_npvt_interleaved_batched_impl]
    rw [if_pos hst]
  · intro hset htemp
    cases handle with
    | none => simp [rocsolver_getf2_strided_batched_impl]
    | some h =>
      simp only [rocsolver_getf2_strided_batched_impl]
      by_cases hst : r.rocsolver_getf2_getrf_argCheck h m n lda A ipiv info pivot batch_count
          ≠ rocblas_status_continue
      · rw [if_pos hst]
        exact hst
      · rw [if_neg hst]
        by_cases hq : rocblas_is_device_memory_size_query h = true
        · rw [if_pos hq]
          exact hset _ _
        · rw [if_neg hq]
          generalize dm.rocblas_device_malloc h _ = res
          cases res with
          | none => simp
          | some mem => exact htemp _ _
  · intro hset htemp
    cases handle with
    | none => simp [rocsolver_geblttrf_npvt_interleaved_batched_impl]
    | some h =>
      simp only [rocsolver_geblttrf_npvt_interleaved_batched_impl]
      by_cases hst : r'.rocsolver_geblttrf_npvt_argCheck h nb nblocks lda' ldb ldc A' B' C'
          info' batch_count' inca incb incc ≠ rocblas_status_continue
      · rw [if_pos hst]
        exact hst
      · rw [if_neg hst]
        by_cases hq : rocblas_is_device_memory_size_query h = true
        · rw [if_pos hq]
          exact hset _ _
        · rw [if_neg hq]
          generalize dm.rocblas_device_malloc h _ = res
          cases res with
          | none => simp
          | some mem => exact htemp _ _

/-- Witness for `impl_continue_not_returned`: an argument check that reports an invalid
size is passed on by the GETF2 driver. -/
theorem impl_continue_not_returned_witness :
    rocsolver_getf2_strided_batched_impl
        ⟨fun _ _ => rocblas_status_success, fun _ _ => none⟩
        ⟨fun _ _ _ _ _ _ _ _ _ => rocblas_status_invalid_size, fun _ _ _ _ => ⟨8, 8, 8⟩,
          fun _ _ => rocblas_status_success⟩
        (some ⟨false, rocblas_pointer_mode.rocblas_pointer_mode_host⟩)
        (-1) 3 (some 16) 4 12 (some 32) 3 (some 48) true 2
      = (rocblas_status_invalid_size, [ImplEvent.argCheck]) :=
  (impl_continue_not_returned
      ⟨fun _ _ => rocblas_status_success, fun _ _ => none⟩
      ⟨fun _ _ _ _ _ _ _ _ _ => rocblas_status_invalid_size, fun _ _ _ _ => ⟨8, 8, 8⟩,
        fun _ _ => rocblas_status_success⟩
      ⟨fun _ _ _ _ _ _ _ _ _ _ _ _ _ _ => rocblas_status_invalid_size,
        fun _ _ _ _ _ _ _ => ⟨8, 8, 8, 8, 8, 8, 8, 8, 8, 8, false⟩,
        fun _ _ => rocblas_status_success⟩
      (some ⟨false, rocblas_pointer_mode.rocblas_pointer_mode_host⟩)
      (-1) 3 (some 16) 4 12 (some 32) 3 (some 48) true 2
      2 3 (some 16) 1 2 4 (some 32) 1 2 4 (some 48) 1 2 4 (some 64) 2).1
    ⟨false, rocblas_pointer_mode.rocblas_pointer_mode_host⟩ rfl (by decide)

/-- C16: memory-size query protocol.  With a non-null handle in device-memory-size-query
mode and an argument check that yields `rocblas_status_continue`,
`rocsolver_getf2_strided_batched_impl` and
`rocsolver_geblttrf_npvt_interleaved_batched_impl` return the status of
`rocblas_set_optimal_device_memory_size` applied to exactly the sizes computed by their
sizing function, and neither allocate nor call the execution template; with a handle that
is not in query mode (and the argument check yielding `rocblas_status_continue`) the same
sizes, in the same order, are passed to the allocator. -/
theorem impl_memory_size_query (dm : DeviceMemory) (r : Getf2Routines)
    (r' : GeblttrfRoutines) (h : rocblas_handle)
    (m n : Int) (A : DevPtr) (lda strideA : Int) (ipiv : DevPtr) (strideP : Int)
    (info : DevPtr) (pivot : Bool) (batch_count : Int)
    (nb nblocks : Int) (A' : DevPtr) (inca lda' strideA' : Int) (B' : DevPtr)
    (incb ldb strideB : Int) (C' : DevPtr) (incc ldc strideC : Int) (info' : DevPtr)
    (batch_count' : Int)
    (hq : rocblas_is_device_memory_size_query h = true)
    (hst : r.rocsolver_getf2_getrf_argCheck h m n lda A ipiv info pivot batch_count
      = rocblas_status_continue)
    (hst' : r'.rocsolver_geblttrf_npvt_argCheck h nb nblocks lda' ldb ldc A' B' C' info'
      batch_count' inca incb incc = rocblas_status_continue) :
    rocsolver_getf2_strided_batched_impl dm r (some h) m n A lda strideA ipiv strideP info
        pivot batch_count
      = (dm.rocblas_set_optimal_device_memory_size h
            [(r.rocsolver_getf2_getMemorySize m n pivot batch_count).size_scalars,
             (r.rocsolver_getf2_getMemorySize m n pivot batch_count).size_pivotval,
             (r.rocsolver_getf2_getMemorySize m n pivot batch_count).size_pivotidx],
          [ImplEvent.argCheck, ImplEvent.getMemorySize,
           ImplEvent.set_optimal_device_memory_size
            [(r.rocsolver_getf2_getMemorySize m n pivot batch_count).size_scalars,
             (r.rocsolver_getf2_getMemorySize m n pivot batch_count).size_pivotval,
             (r.rocsolver_getf2_getMemorySize m n pivot batch_count).size_pivotidx]])
    ∧ rocsolver_geblttrf_npvt_interleaved_batched_impl dm r' (some h) nb nblocks A' inca lda'
        strideA' B' incb ldb strideB C' incc ldc strideC info' batch_count'
      = (dm.rocblas_set_optimal_device_memory_size h
            [(r'.rocsolver_geblttrf_npvt_getMemorySize nb nblocks batch_count' ldb ldc incb
                incc).size_scalars,
             (r'.rocsolver_geblttrf_npvt_getMemorySize nb nblocks batch_count' ldb ldc incb
                incc).size_work1,
             (r'.rocsolver_geblttrf_npvt_getMemorySize nb nblocks batch_count' ldb ldc incb
                incc).size_work2,
             (r'.rocsolver_geblttrf_npvt_getMemorySize nb nblocks batch_count' ldb ldc incb
                incc).size_work3,
             (r'.rocsolver_geblttrf_npvt_getMemorySize nb nblocks batch_count' ldb ldc incb
                incc).size_work4,
             (r'.rocsolver_geblttrf_npvt_getMemorySize nb nblocks batch_count' ldb ldc incb
                incc).size_pivotval,
             (r'.rocsolver_geblttrf_npvt_getMemorySize nb nblocks batch_count' ldb ldc incb
                incc).size_pivotidx,
             (r'.rocsolver_geblttrf_npvt_getMemorySize nb nblocks batch_count' ldb ldc incb
                incc).size_iipiv,
             (r'.rocsolver_geblttrf_npvt_getMemorySize nb nblocks batch_count' ldb ldc incb
                incc).size_iinfo1,
             (r'.rocsolver_geblttrf_npvt_getMemorySize nb nblocks batch_count' ldb ldc incb
                incc).size_iinfo2],
          [ImplEvent.argCheck, ImplEvent.getMemorySize,
           ImplEvent.set_optimal_device_memory_size
            [(r'.rocsolver_geblttrf_npvt_getMemorySize nb nblocks batch_count' ldb ldc incb
                incc).size_scalars,
             (r'.rocsolver_geblttrf_npvt_getMemorySize nb nblocks batch_count' ldb ldc incb
                incc).size_work1,
             (r'.rocsolver_geblttrf_npvt_getMemorySize nb nblocks batch_count' ldb ldc incb
                incc).size_work2,
             (r'.rocsolver_geblttrf_npvt_getMemorySize nb nblocks batch_count' ldb ldc incb
                incc).size_work3,
             (r'.rocsolver_geblttrf_npvt_getMemorySize nb nblocks batch_count' ldb ldc incb
                incc).size_work4,
             (r'.rocsolver_geblttrf_npvt_getMemorySize nb nblocks batch_count' ldb ldc incb
                incc).size_pivotval,
             (r'.rocsolver_geblttrf_npvt_getMemorySize nb nblocks batch_count' ldb ldc incb
                incc).size_pivotidx,
             (r'.rocsolver_geblttrf_npvt_getMemorySize nb nblocks batch_count' ldb ldc incb
                incc).size_iipiv,
             (r'.rocsolver_geblttrf_npvt_getMemorySize nb nblocks batch_count' ldb ldc incb
                incc).size_iinfo1,
             (r'.rocsolver_geblttrf_npvt_getMemorySize nb nblocks batch_count' ldb ldc incb
                incc).size_iinfo2]])
    ∧ (∀ h2 : rocblas_handle, rocblas_is_device_memory_size_query h2 = false →
        r.rocsolver_getf2_getrf_argCheck h2 m n lda A ipiv info pivot batch_count
          = rocblas_status_continue →
        ∃ st rest,
          rocsolver_getf2_strided_batched_impl dm r (some h2) m n A lda strideA ipiv strideP
              info pivot batch_count
            = (st, [ImplEvent.argCheck, ImplEvent.getMemorySize,
                ImplEvent.device_malloc
                  [(r.rocsolver_getf2_getMemorySize m n pivot batch_count).size_scalars,
                   (r.rocsolver_getf2_getMemorySize m n pivot batch_count).size_pivotval,
                   (r.rocsolver_getf2_getMemorySize m n pivot batch_count).size_pivotidx]]
                ++ rest))
    ∧ (∀ h2 : rocblas_handle, rocblas_is_device_memory_size_query h2 = false →
        r'.rocsolver_geblttrf_npvt_argCheck h2 nb nblocks lda' ldb ldc A' B' C' info'
          batch_count' inca incb incc = rocblas_status_continue →
        ∃ st rest,
          rocsolver_geblttrf_npvt_interleaved_batched_impl dm r' (some h2) nb nblocks A' inca
              lda' strideA' B' incb ldb strideB C' incc ldc strideC info' batch_count'
            = (st, [ImplEvent.argCheck, ImplEvent.getMemorySize,
                ImplEvent.device_malloc
                  [(r'.rocsolver_geblttrf_npvt_getMemorySize nb nblocks batch_count' ldb ldc
                      incb incc).size_scalars,
                   (r'.rocsolver_geblttrf_npvt_getMemorySize nb nblocks batch_count' ldb ldc
                      incb incc).size_work1,
                   (r'.rocsolver_geblttrf_npvt_getMemorySize nb nblocks batch_count' ldb ldc
                      incb incc).size_work2,
                   (r'.rocsolver_geblttrf_npvt_getMemorySize nb nblocks batch_count' ldb ldc
                      incb incc).size_work3,
                   (r'.rocsolver_geblttrf_npvt_getMemorySize nb nblocks batch_count' ldb ldc
                      incb incc).size_work4,
                   (r'.rocsolver_geblttrf_npvt_getMemorySize nb nblocks batch_count' ldb ldc
                      incb incc).size_pivotval,
                   (r'.rocsolver_geblttrf_npvt_getMemorySize nb nblocks batch_count' ldb ldc
                      incb incc).size_pivotidx,
                   (r'.rocsolver_geblttrf_npvt_getMemorySize nb nblocks batch_count' ldb ldc
                      incb incc).size_iipiv,
                   (r'.rocsolver_geblttrf_npvt_getMemorySize nb nblocks batch_count' ldb ldc
                      incb incc).size_iinfo1,
                   (r'.rocsolver_geblttrf_npvt_getMemorySize nb nblocks batch_count' ldb ldc
                      incb incc).size_iinfo2]]
                ++ rest)) := by
  have hc : ¬ (rocblas_status_continue ≠ rocblas_status_continue) := fun h => h rfl
  refine ⟨?_, ?_, ?_, ?_⟩
  · simp only [rocsolver_getf2_strided_batched_impl]
    rw [hst, if_neg hc, if_pos hq]
  · simp only [rocsolver_geblttrf_npvt_interleaved_batched_impl]
    rw [hst', if_neg hc, if_pos hq]
  · intro h2 hq2 hst2
    have hq2' : ¬ rocblas_is_device_memory_size_query h2 = true := by simp [hq2]
    simp only [rocsolver_getf2_strided_batched_impl]
    rw [hst2, if_neg hc, if_neg hq2']
    generalize dm.rocblas_device_malloc h2 _ = res
    cases res with
    | none => exact ⟨_, [], rfl⟩
    | some mem =>
      dsimp only
      simp only [List.append_assoc]
      exact ⟨_, _, rfl⟩
  · intro h2 hq2 hst2
    have hq2' : ¬ rocblas_is_device_memory_size_query h2 = true := by simp [hq2]
    simp only [rocsolver_geblttrf_npvt_interleaved_batched_impl]
    rw [hst2, if_neg hc, if_neg hq2']
    generalize dm.rocblas_device_malloc h2 _ = res
    cases res with
    | none => exact ⟨_, [], rfl⟩
    | some mem =>
      dsimp only
      simp only [List.append_assoc]
      exact ⟨_, _, rfl⟩

/-- Witness for `impl_memory_size_query`: a handle in query mode and argument checks that
yield `rocblas_status_continue`. -/
theorem impl_memory_size_query_witness :
    rocsolver_getf2_strided_batched_impl
        ⟨fun _ _ => rocblas_status_size_increased, fun _ _ => none⟩
        ⟨fun _ _ _ _ _ _ _ _ _ => rocblas_status_continue, fun _ _ _ _ => ⟨8, 16, 24⟩,
          fun _ _ => rocblas_status_success⟩
        (some ⟨true, rocblas_pointer_mode.rocblas_pointer_mode_host⟩)
        4 3 none 4 12 none 3 none true 2
      = (rocblas_status_size_increased,
          [ImplEvent.argCheck, ImplEvent.getMemorySize,
           ImplEvent.set_optimal_device_memory_size [8, 16, 24]]) :=
  (impl_memory_size_query
      ⟨fun _ _ => rocblas_status_size_increased, fun _ _ => none⟩
      ⟨fun _ _ _ _ _ _ _ _ _ => rocblas_status_continue, fun _ _ _ _ => ⟨8, 16, 24⟩,
        fun _ _ => rocblas_status_success⟩
      ⟨fun _ _ _ _ _ _ _ _ _ _ _ _ _ _ => rocblas_status_continue,
        fun _ _ _ _ _ _ _ => ⟨8, 8, 8, 8, 8, 8, 8, 8, 8, 8, false⟩,
        fun _ _ => rocblas_status_success⟩
      ⟨true, rocblas_pointer_mode.rocblas_pointer_mode_host⟩
      4 3 none 4 12 none 3 none true 2
      2 3 none 1 2 4 none 1 2 4 none 1 2 4 none 2 rfl rfl rfl).1

/-! ### Dispatch of ORMBR / UNMBR -/

/-- C17: dispatch of `rocsolver_ormbr_unmbr_template` for `m, n, k, batch_count ≥ 1`, with
`nq = m` for the left side and `nq = n` otherwise.  Column-wise storage calls ORMQR on the
unshifted problem `(m, n, k)` when `nq ≥ k` and on the shifted problem otherwise; row-wise
storage calls ORMLQ (with the operation `transP`) on the unshifted problem when `nq > k` and
on the shifted problem otherwise.  The shifted problem uses `nq - 1` reflectors, dimensions
`(m - 1, n)` for the left side and `(m, n - 1)` otherwise, `C` offset by one row (left) or
one column (otherwise), and `A` offset by one row (column-wise) or one column (row-wise).
Exactly one sub-routine call is made. -/
theorem ormbr_template_dispatch (COMPLEX : Bool) (storev : rocblas_storev)
    (side : rocblas_side) (trans : rocblas_operation)
    (m n k shiftA lda shiftC ldc batch_count : Int)
    (hm : 1 ≤ m) (hn : 1 ≤ n) (hk : 1 ≤ k) (hb : 1 ≤ batch_count) :
    (storev = rocblas_column_wise → (if side = rocblas_side_left then m else n) ≥ k →
      rocsolver_ormbr_unmbr_template COMPLEX storev side trans m n k shiftA lda shiftC ldc
          batch_count
        = (rocblas_status_success,
            [OrmbrCall.ormqr ⟨side, trans, m, n, k, shiftA, lda, shiftC, ldc, batch_count⟩]))
    ∧ (storev = rocblas_column_wise → (if side = rocblas_side_left then m else n) < k →
      rocsolver_ormbr_unmbr_template COMPLEX storev side trans m n k shiftA lda shiftC ldc
          batch_count
        = (rocblas_status_success,
            [OrmbrCall.ormqr ⟨side, trans,
              (if side = rocblas_side_left then m - 1 else m),
              (if side = rocblas_side_left then n else n - 1),
              (if side = rocblas_side_left then m else n) - 1,
              shiftA + 1, lda,
              shiftC + (if side = rocblas_side_left then 1 else ldc), ldc, batch_count⟩]))
    ∧ (storev = rocblas_row_wise → (if side = rocblas_side_left then m else n) > k →
      rocsolver_ormbr_unmbr_template COMPLEX storev side trans m n k shiftA lda shiftC ldc
          batch_count
        = (rocblas_status_success,
            [OrmbrCall.ormlq ⟨side,
              (if trans = rocblas_operation_none then
                (if COMPLEX then rocblas_operation_conjugate_transpose
                 else rocblas_operation_transpose)
               else rocblas_operation_none),
              m, n, k, shiftA, lda, shiftC, ldc, batch_count⟩]))
    ∧ (storev = rocblas_row_wise → (if side = rocblas_side_left then m else n) ≤ k →
      rocsolver_ormbr_unmbr_template COMPLEX storev side trans m n k shiftA lda shiftC ldc
          batch_count
        = (rocblas_status_success,
            [OrmbrCall.ormlq ⟨side,
              (if trans = rocblas_operation_none then
                (if COMPLEX then rocblas_operation_conjugate_transpose
                 else rocblas_operation_transpose)
               else rocblas_operation_none),
              (if side = rocblas_side_left then m - 1 else m),
              (if side = rocblas_side_left then n else n - 1),
              (if side = rocblas_side_left then m else n) - 1,
              shiftA + lda, lda,
              shiftC + (if side = rocblas_side_left then 1 else ldc), ldc, batch_count⟩]))
    ∧ (rocsolver_ormbr_unmbr_template COMPLEX storev side trans m n k shiftA lda shiftC ldc
          batch_count).2.length = 1
    ∧ idx2D 1 0 lda = 1 ∧ idx2D 0 1 lda = lda ∧ idx2D 1 0 ldc = 1 ∧ idx2D 0 1 ldc = ldc := by
  have h0 : ¬ (n = 0 ∨ m = 0 ∨ k = 0 ∨ batch_count = 0) := by omega
  have hA1 : idx2D 1 0 lda = 1 := by simp [idx2D]
  have hA2 : idx2D 0 1 lda = lda := by simp [idx2D]
  have hC1 : idx2D 1 0 ldc = 1 := by simp [idx2D]
  have hC2 : idx2D 0 1 ldc = ldc := by simp [idx2D]
  have hC : idx2D (if side = rocblas_side_left then 1 else 0)
      (if side = rocblas_side_left then 0 else 1) ldc
      = if side = rocblas_side_left then 1 else ldc := by
    by_cases hs : side = rocblas_side_left
    · simp [hs, idx2D]
    · simp [hs, idx2D]
  refine ⟨?_, ?_, ?_, ?_, ?_, hA1, hA2, hC1, hC2⟩
  · intro hst hge
    unfold rocsolver_ormbr_unmbr_template
    rw [if_neg h0]
    simp only []
    rw [if_pos hst, if_pos hge]
  · intro hst hlt
    unfold rocsolver_ormbr_unmbr_template
    rw [if_neg h0]
    simp only []
    rw [if_pos hst, if_neg (by omega), hA1, hC]
  · intro hst hgt
    have hst' : ¬ storev = rocblas_column_wise := by rw [hst]; decide
    unfold rocsolver_ormbr_unmbr_template
    rw [if_neg h0]
    simp only []
    rw [if_neg hst', if_pos hgt]
  · intro hst hle
    have hst' : ¬ storev = rocblas_column_wise := by rw [hst]; decide
    unfold rocsolver_ormbr_unmbr_template
    rw [if_neg h0]
    simp only []
    rw [if_neg hst', if_neg (by omega), hA2, hC]
  · unfold rocsolver_ormbr_unmbr_template
    rw [if_neg h0]
    simp only []
    split_ifs <;> rfl

/-- Witness for `ormbr_template_dispatch`: column-wise storage, left side, `m = 2 < k = 3`,
so that the shifted problem is passed to ORMQR. -/
theorem ormbr_template_dispatch_witness :
    rocsolver_ormbr_unmbr_template false rocblas_column_wise rocblas_side_left
        rocblas_operation_none 2 5 3 0 2 0 2 1
      = (rocblas_status_success,
          [OrmbrCall.ormqr ⟨rocblas_side_left, rocblas_operation_none, 2 - 1, 5, 2 - 1,
            0 + 1, 2, 0 + 1, 2, 1⟩]) :=
  (ormbr_template_dispatch false rocblas_column_wise rocblas_side_left
      rocblas_operation_none 2 5 3 0 2 0 2 1
      (by decide) (by decide) (by decide) (by decide)).2.1 rfl (by decide)

/-! ### Block reflectors in the driver of GELQF -/

/-- C19: in every iteration of the blocked loop of `rocsolver_gelqf_template`, at index `j`
with panel width `jb`, LARFT and LARFB are called if and only if `j + jb < m`.  When called,
LARFT builds the triangular factor from the `jb` row-wise reflectors of length `n - j`
stored at `(j, j)`, and LARFB applies it from the right to the `(m - j - jb) × (n - j)`
sub-matrix whose top-left corner is `(j + jb, j)`.  The GELQ2 call for the last block is the
last call of the run: no LARFT/LARFB call follows it. -/
theorem gelqf_block_reflector_calls (cfg : IdealSizes)
    (gelq2_status : Gelq2Call → rocblas_status) (fuel : Nat)
    (m n shiftA lda batch_count : Int) (hm : m ≠ 0) (hn : n ≠ 0) (hb : batch_count ≠ 0)
    (hB : 1 ≤ cfg.GExQF_GExQ2_BLOCKSIZE)
    (hbig : cfg.GExQF_GExQ2_SWITCHSIZE < min m n)
    (hfuel : (min m n - cfg.GExQF_GExQ2_SWITCHSIZE).toNat ≤ fuel) :
    ∃ iters jExit last,
      rocsolver_gelqf_template cfg gelq2_status fuel m n shiftA lda batch_count
        = some (rocblas_status_success, GelqfRun.blocked iters jExit last)
      ∧ (∀ it ∈ iters,
          (it.apply.isSome = true ↔ it.j + it.jb < m)
          ∧ (it.j + it.jb < m →
              it.apply = some
                (⟨rocblas_forward_direction, rocblas_row_wise, n - it.j, it.jb,
                    shiftA + idx2D it.j it.j lda, lda, it.j,
                    cfg.GExQF_GExQ2_BLOCKSIZE,
                    cfg.GExQF_GExQ2_BLOCKSIZE * cfg.GExQF_GExQ2_BLOCKSIZE, batch_count⟩,
                 ⟨rocblas_side_right, rocblas_operation_none, rocblas_forward_direction,
                    rocblas_row_wise, m - it.j - it.jb, n - it.j, it.jb,
                    shiftA + idx2D it.j it.j lda, lda, 0,
                    cfg.GExQF_GExQ2_BLOCKSIZE,
                    cfg.GExQF_GExQ2_BLOCKSIZE * cfg.GExQF_GExQ2_BLOCKSIZE,
                    shiftA + idx2D (it.j + it.jb) it.j lda, lda, batch_count⟩))
          ∧ it.panel = ⟨it.jb, n - it.j, shiftA + idx2D it.j it.j lda, lda, it.j,
              batch_count⟩)
      ∧ (∀ c, last = some c →
          (GelqfRun.blocked iters jExit last).calls
            = (iters.map GelqfIter.calls).flatten ++ [GelqfCall.gelq2 c])
      ∧ (last = none →
          (GelqfRun.blocked iters jExit last).calls = (iters.map GelqfIter.calls).flatten) := by
  obtain ⟨its, jExit, hl, hblk⟩ :=
    gelqf_blocked_returns cfg m n shiftA lda batch_count fuel hB hfuel
  obtain ⟨hmem, _, _⟩ := gelqf_loop_mem cfg m n shiftA lda batch_count fuel its jExit hl
  refine ⟨its, jExit, gelqf_last m n shiftA lda batch_count jExit, ?_, ?_, ?_, ?_⟩
  · rw [gelqf_template_blocked cfg gelq2_status fuel m n shiftA lda batch_count
      hm hn hb hbig, hblk]
  · intro it hit
    obtain ⟨i, _, rfl, _⟩ := hmem it hit
    generalize (i : Int) * cfg.GExQF_GExQ2_BLOCKSIZE = x
    refine ⟨?_, ?_, rfl⟩
    · simp only [gelqf_iter]
      by_cases hx : x + min (min m n - x) cfg.GExQF_GExQ2_BLOCKSIZE < m
      · simp [hx]
      · simp [hx]
    · intro hx
      simp only [gelqf_iter] at hx ⊢
      rw [if_pos hx]
  · intro c hc
    simp [GelqfRun.calls, hc]
  · intro hc
    simp [GelqfRun.calls, hc]

/-- Witness for `gelqf_block_reflector_calls`: a `6 × 4` problem with switch size `2` and
block size `2`. -/
theorem gelqf_block_reflector_calls_witness :
    ∃ iters jExit last,
      rocsolver_gelqf_template ⟨2, 2⟩ (fun _ => rocblas_status_success) 2 6 4 0 6 1
        = some (rocblas_status_success, GelqfRun.blocked iters jExit last)
      ∧ (∀ it ∈ iters,
          (it.apply.isSome = true ↔ it.j + it.jb < 6)
          ∧ (it.j + it.jb < 6 →
              it.apply = some
                (⟨rocblas_forward_direction, rocblas_row_wise, 4 - it.j, it.jb,
                    0 + idx2D it.j it.j 6, 6, it.j, 2, 2 * 2, 1⟩,
                 ⟨rocblas_side_right, rocblas_operation_none, rocblas_forward_direction,
                    rocblas_row_wise, 6 - it.j - it.jb, 4 - it.j, it.jb,
                    0 + idx2D it.j it.j 6, 6, 0, 2, 2 * 2,
                    0 + idx2D (it.j + it.jb) it.j 6, 6, 1⟩))
          ∧ it.panel = ⟨it.jb, 4 - it.j, 0 + idx2D it.j it.j 6, 6, it.j, 1⟩)
      ∧ (∀ c, last = some c →
          (GelqfRun.blocked iters jExit last).calls
            = (iters.map GelqfIter.calls).flatten ++ [GelqfCall.gelq2 c])
      ∧ (last = none →
          (GelqfRun.blocked iters jExit last).calls = (iters.map GelqfIter.calls).flatten) :=
  gelqf_block_reflector_calls ⟨2, 2⟩ (fun _ => rocblas_status_success) 2 6 4 0 6 1
    (by decide) (by decide) (by decide) (by decide) (by decide) (by decide)

/-- C20: assuming `1 ≤ BLOCKSIZE ≤ SWITCHSIZE + 1`, for every `m`, `n` with
`min(m, n) > SWITCHSIZE` the blocked path of `rocsolver_gelqf_template` returns, and each
LARFT call `(n - j, jb)` and each LARFB call `(m - j - jb, n - j, jb)` it issues is bounded
componentwise by the shapes `(n, BLOCKSIZE)` and `(m - BLOCKSIZE, n, BLOCKSIZE)`, on the
right side, that `rocsolver_gelqf_getMemorySize` passes to the sizing functions of LARFT
and LARFB. -/
theorem gelqf_block_reflector_shapes (cfg : IdealSizes) (o : GelqfOracles) (BATCHED : Bool)
    (gelq2_status : Gelq2Call → rocblas_status) (fuel : Nat)
    (m n shiftA lda batch_count : Int) (hb : batch_count ≠ 0)
    (hB : 1 ≤ cfg.GExQF_GExQ2_BLOCKSIZE)
    (hBS : cfg.GExQF_GExQ2_BLOCKSIZE ≤ cfg.GExQF_GExQ2_SWITCHSIZE + 1)
    (hbig : cfg.GExQF_GExQ2_SWITCHSIZE < min m n)
    (hfuel : (min m n - cfg.GExQF_GExQ2_SWITCHSIZE).toNat ≤ fuel) :
    ∃ iters jExit last,
      rocsolver_gelqf_template cfg gelq2_status fuel m n shiftA lda batch_count
        = some (rocblas_status_success, GelqfRun.blocked iters jExit last)
      ∧ MemQuery.larft n cfg.GExQF_GExQ2_BLOCKSIZE batch_count
          ∈ (rocsolver_gelqf_getMemorySize cfg o BATCHED m n batch_count).2
      ∧ MemQuery.larfb rocblas_side_right (m - cfg.GExQF_GExQ2_BLOCKSIZE) n
            cfg.GExQF_GExQ2_BLOCKSIZE batch_count
          ∈ (rocsolver_gelqf_getMemorySize cfg o BATCHED m n batch_count).2
      ∧ (∀ it ∈ iters, ∀ t b, it.apply = some (t, b) →
          t.n = n - it.j ∧ t.k = it.jb
          ∧ t.n ≤ n ∧ t.k ≤ cfg.GExQF_GExQ2_BLOCKSIZE
          ∧ b.m = m - it.j - it.jb ∧ b.n = n - it.j ∧ b.k = it.jb
          ∧ b.side = rocblas_side_right
          ∧ b.m ≤ m - cfg.GExQF_GExQ2_BLOCKSIZE ∧ b.n ≤ n
          ∧ b.k ≤ cfg.GExQF_GExQ2_BLOCKSIZE) := by
  obtain ⟨its, jExit, hl, hblk⟩ :=
    gelqf_blocked_returns cfg m n shiftA lda batch_count fuel hB hfuel
  obtain ⟨hmem, _, _⟩ := gelqf_loop_mem cfg m n shiftA lda batch_count fuel its jExit hl
  have hq := gelqf_getMemorySize_blocked cfg o BATCHED m n batch_count (by omega) (by omega)
    hb hbig
  refine ⟨its, jExit, gelqf_last m n shiftA lda batch_count jExit, ?_, ?_, ?_, ?_⟩
  · rw [gelqf_template_blocked cfg gelq2_status fuel m n shiftA lda batch_count
      (by omega) (by omega) hb hbig, hblk]
  · rw [hq]
    simp
  · rw [hq]
    simp
  · intro it hit t b hap
    obtain ⟨i, _, rfl, hc⟩ := hmem it hit
    have hi0 : (0 : Int) ≤ (i : Int) * cfg.GExQF_GExQ2_BLOCKSIZE :=
      mul_nonneg (Int.ofNat_nonneg i) (by omega)
    generalize (i : Int) * cfg.GExQF_GExQ2_BLOCKSIZE = x at hc hi0 hap
    simp only [gelqf_iter] at hap ⊢
    by_cases hx : x + min (min m n - x) cfg.GExQF_GExQ2_BLOCKSIZE < m
    · rw [if_pos hx] at hap
      simp only [Option.some.injEq, Prod.mk.injEq] at hap
      obtain ⟨rfl, rfl⟩ := hap
      refine ⟨rfl, rfl, ?_, ?_, rfl, rfl, rfl, rfl, ?_, ?_, ?_⟩ <;> simp only <;> omega
    · rw [if_neg hx] at hap
      exact absurd hap (by simp)

/-- Witness for `gelqf_block_reflector_shapes`: a `6 × 4` problem with switch size `2` and
block size `2`. -/
theorem gelqf_block_reflector_shapes_witness :
    ∃ iters jExit last,
      rocsolver_gelqf_template ⟨2, 2⟩ (fun _ => rocblas_status_success) 2 6 4 0 6 1
        = some (rocblas_status_success, GelqfRun.blocked iters jExit last)
      ∧ MemQuery.larft 4 2 1
          ∈ (rocsolver_gelqf_getMemorySize ⟨2, 2⟩
              ⟨8, fun _ _ _ => ⟨0, 0, 0, 0⟩, fun _ _ _ => ⟨0, 0, 0⟩,
                fun _ _ _ _ _ => ⟨0, 0, 0⟩⟩ false 6 4 1).2
      ∧ MemQuery.larfb rocblas_side_right (6 - 2) 4 2 1
          ∈ (rocsolver_gelqf_getMemorySize ⟨2, 2⟩
              ⟨8, fun _ _ _ => ⟨0, 0, 0, 0⟩, fun _ _ _ => ⟨0, 0, 0⟩,
                fun _ _ _ _ _ => ⟨0, 0, 0⟩⟩ false 6 4 1).2
      ∧ (∀ it ∈ iters, ∀ t b, it.apply = some (t, b) →
          t.n = 4 - it.j ∧ t.k = it.jb
          ∧ t.n ≤ 4 ∧ t.k ≤ 2
          ∧ b.m = 6 - it.j - it.jb ∧ b.n = 4 - it.j ∧ b.k = it.jb
          ∧ b.side = rocblas_side_right
          ∧ b.m ≤ 6 - 2 ∧ b.n ≤ 4
          ∧ b.k ≤ 2) :=
  gelqf_block_reflector_shapes ⟨2, 2⟩
    ⟨8, fun _ _ _ => ⟨0, 0, 0, 0⟩, fun _ _ _ => ⟨0, 0, 0⟩, fun _ _ _ _ _ => ⟨0, 0, 0⟩⟩ false
    (fun _ => rocblas_status_success) 2 6 4 0 6 1
    (by decide) (by decide) (by decide) (by decide) (by decide)

/-! ### Blocked and unblocked factorization -/

/-- On non-empty input `rocsolver_ormbr_unmbr_template` issues one call: ORMQR for
column-wise storage, on the unshifted problem iff `nq ≥ k`, and ORMLQ otherwise, with the
operation `transP`, on the unshifted problem iff `nq > k`. -/
theorem ormbr_template_cases (COMPLEX : Bool) (storev : rocblas_storev)
    (side : rocblas_side) (trans : rocblas_operation)
    (m n k shiftA lda shiftC ldc bc : Int)
    (hm : m ≠ 0) (hn : n ≠ 0) (hk : k ≠ 0) (hb : bc ≠ 0) :
    rocsolver_ormbr_unmbr_template COMPLEX storev side trans m n k shiftA lda shiftC ldc bc
      = (rocblas_status_success,
          [if storev = rocblas_column_wise then
            OrmbrCall.ormqr
              (if (if side = rocblas_side_left then m else n) ≥ k then
                ⟨side, trans, m, n, k, shiftA, lda, shiftC, ldc, bc⟩
               else
                ⟨side, trans, (if side = rocblas_side_left then m - 1 else m),
                  (if side = rocblas_side_left then n else n - 1),
                  (if side = rocblas_side_left then m else n) - 1,
                  shiftA + idx2D 1 0 lda, lda,
                  shiftC + idx2D (if side = rocblas_side_left then 1 else 0)
                    (if side = rocblas_side_left then 0 else 1) ldc, ldc, bc⟩)
           else
            OrmbrCall.ormlq
              (if (if side = rocblas_side_left then m else n) > k then
                ⟨side, ormbr_transP COMPLEX trans, m, n, k, shiftA, lda, shiftC, ldc, bc⟩
               else
                ⟨side, ormbr_transP COMPLEX trans,
                  (if side = rocblas_side_left then m - 1 else m),
                  (if side = rocblas_side_left then n else n - 1),
                  (if side = rocblas_side_left then m else n) - 1,
                  shiftA + idx2D 0 1 lda, lda,
                  shiftC + idx2D (if side = rocblas_side_left then 1 else 0)
                    (if side = rocblas_side_left then 0 else 1) ldc, ldc, bc⟩)]) := by
  have h0 : ¬ (n = 0 ∨ m = 0 ∨ k = 0 ∨ bc = 0) := by
    rintro (h | h | h | h)
    · exact hn h
    · exact hm h
    · exact hk h
    · exact hb h
  unfold rocsolver_ormbr_unmbr_template ormbr_transP
  rw [if_neg h0]
  simp only []
  by_cases hst : storev = rocblas_column_wise
  · rw [if_pos hst, if_pos hst]
    by_cases hq : (if side = rocblas_side_left then m else n) ≥ k
    · rw [if_pos hq, if_pos hq]
    · rw [if_neg hq, if_neg hq]
  · rw [if_neg hst, if_neg hst]
    by_cases hq : (if side = rocblas_side_left then m else n) > k
    · rw [if_pos hq, if_pos hq]
    · rw [if_neg hq, if_neg hq]

/-- C21: for `m, n, k, batch_count ≥ 1`, the problem shape `(m', n', k')` that
`rocsolver_ormbr_unmbr_template` passes to ORMQR/ORMLQ is componentwise at most the shape
`(m, n, min(nq, k))` that `rocsolver_ormbr_unmbr_getMemorySize` passes to the sizing
function, with the same side and batch count; and the sizing function queried (that of
ORMQR for column-wise storage, that of ORMLQ otherwise) is the one of the routine
executed. -/
theorem ormbr_call_within_sized_shape (COMPLEX : Bool)
    (ormqr_getMemorySize ormlq_getMemorySize :
      rocblas_side → Int → Int → Int → Int → OrmSizes)
    (storev : rocblas_storev) (side : rocblas_side) (trans : rocblas_operation)
    (m n k shiftA lda shiftC ldc batch_count : Int)
    (hm : 1 ≤ m) (hn : 1 ≤ n) (hk : 1 ≤ k) (hb : 1 ≤ batch_count) :
    ∃ c : OrmbrCall,
      rocsolver_ormbr_unmbr_template COMPLEX storev side trans m n k shiftA lda shiftC ldc
          batch_count = (rocblas_status_success, [c])
      ∧ c.args.m ≤ m ∧ c.args.n ≤ n
      ∧ c.args.k ≤ min (if side = rocblas_side_left then m else n) k
      ∧ c.args.side = side ∧ c.args.batch_count = batch_count
      ∧ ((storev = rocblas_column_wise
            ∧ c = OrmbrCall.ormqr c.args
            ∧ (rocsolver_ormbr_unmbr_getMemorySize ormqr_getMemorySize ormlq_getMemorySize
                storev side m n k batch_count).2
              = [MemQuery.ormqr side m n
                  (min (if side = rocblas_side_left then m else n) k) batch_count])
        ∨ (storev ≠ rocblas_column_wise
            ∧ c = OrmbrCall.ormlq c.args
            ∧ (rocsolver_ormbr_unmbr_getMemorySize ormqr_getMemorySize ormlq_getMemorySize
                storev side m n k batch_count).2
              = [MemQuery.ormlq side m n
                  (min (if side = rocblas_side_left then m else n) k) batch_count])) := by
  have h0 : ¬ (m = 0 ∨ n = 0 ∨ k = 0 ∨ batch_count = 0) := by omega
  refine ⟨_, ormbr_template_cases COMPLEX storev side trans m n k shiftA lda shiftC ldc
    batch_count (by omega) (by omega) (by omega) (by omega), ?_⟩
  by_cases hst : storev = rocblas_column_wise
  · rw [if_pos hst]
    by_cases hq : (if side = rocblas_side_left then m else n) ≥ k
    · rw [if_pos hq]
      refine ⟨le_refl _, le_refl _, ?_, rfl, rfl, Or.inl ⟨hst, rfl, ?_⟩⟩
      · simp only [OrmbrCall.args]
        omega
      · simp [rocsolver_ormbr_unmbr_getMemorySize, h0, hst]
    · rw [if_neg hq]
      refine ⟨?_, ?_, ?_, rfl, rfl, Or.inl ⟨hst, rfl, ?_⟩⟩
      · simp only [OrmbrCall.args]
        split_ifs <;> omega
      · simp only [OrmbrCall.args]
        split_ifs <;> omega
      · simp only [OrmbrCall.args]
        omega
      · simp [rocsolver_ormbr_unmbr_getMemorySize, h0, hst]
  · rw [if_neg hst]
    by_cases hq : (if side = rocblas_side_left then m else n) > k
    · rw [if_pos hq]
      refine ⟨le_refl _, le_refl _, ?_, rfl, rfl, Or.inr ⟨hst, rfl, ?_⟩⟩
      · simp only [OrmbrCall.args]
        omega
      · simp [rocsolver_ormbr_unmbr_getMemorySize, h0, hst]
    · rw [if_neg hq]
      refine ⟨?_, ?_, ?_, rfl, rfl, Or.inr ⟨hst, rfl, ?_⟩⟩
      · simp only [OrmbrCall.args]
        split_ifs <;> omega
      · simp only [OrmbrCall.args]
        split_ifs <;> omega
      · simp only [OrmbrCall.args]
        omega
      · simp [rocsolver_ormbr_unmbr_getMemorySize, h0, hst]

/-- Witness for `ormbr_call_within_sized_shape`: row-wise storage, right side, with
`n = 3 ≤ k = 5`. -/
theorem ormbr_call_within_sized_shape_witness :
    ∃ c : OrmbrCall,
      rocsolver_ormbr_unmbr_template false rocblas_row_wise rocblas_side_right
          rocblas_operation_none 4 3 5 0 3 0 4 2 = (rocblas_status_success, [c])
      ∧ c.args.m ≤ 4 ∧ c.args.n ≤ 3
      ∧ c.args.k ≤ min (if rocblas_side_right = rocblas_side_left then (4 : Int) else 3) 5
      ∧ c.args.side = rocblas_side_right ∧ c.args.batch_count = 2
      ∧ ((rocblas_row_wise = rocblas_column_wise
            ∧ c = OrmbrCall.ormqr c.args
            ∧ (rocsolver_ormbr_unmbr_getMemorySize (fun _ _ _ _ _ => ⟨1, 1, 1, 1, 1⟩)
                (fun _ _ _ _ _ => ⟨2, 2, 2, 2, 2⟩) rocblas_row_wise rocblas_side_right
                4 3 5 2).2
              = [MemQuery.ormqr rocblas_side_right 4 3
                  (min (if rocblas_side_right = rocblas_side_left then (4 : Int) else 3) 5)
                  2])
        ∨ (rocblas_row_wise ≠ rocblas_column_wise
            ∧ c = OrmbrCall.ormlq c.args
            ∧ (rocsolver_ormbr_unmbr_getMemorySize (fun _ _ _ _ _ => ⟨1, 1, 1, 1, 1⟩)
                (fun _ _ _ _ _ => ⟨2, 2, 2, 2, 2⟩) rocblas_row_wise rocblas_side_right
                4 3 5 2).2
              = [MemQuery.ormlq rocblas_side_right 4 3
                  (min (if rocblas_side_right = rocblas_side_left then (4 : Int) else 3) 5)
                  2])) :=
  ormbr_call_within_sized_shape false (fun _ _ _ _ _ => ⟨1, 1, 1, 1, 1⟩)
    (fun _ _ _ _ _ => ⟨2, 2, 2, 2, 2⟩) rocblas_row_wise rocblas_side_right
    rocblas_operation_none 4 3 5 0 3 0 4 2 (by decide) (by decide) (by decide) (by decide)

/-- C25: in the row-wise branch of `rocsolver_ormbr_unmbr_template` (non-empty input,
storage other than column-wise) the call issued is ORMLQ with the operation `transP`, the
opposite of `trans`: `transP = none` iff `trans ≠ none`, and for `trans = none` it is
`transpose` in a real instantiation and `conjugate_transpose` in a complex one.  Hence for
every `trans` accepted by `rocsolver_ormbr_argCheck`, `transP` is again accepted for the
same precision, and applying the mapping twice returns the original `trans`. -/
theorem ormbr_transP_opposite (COMPLEX : Bool) (storev : rocblas_storev)
    (side : rocblas_side) (trans : rocblas_operation)
    (m n k shiftA lda shiftC ldc batch_count : Int)
    (hm : m ≠ 0) (hn : n ≠ 0) (hk : k ≠ 0) (hb : batch_count ≠ 0)
    (hst : storev ≠ rocblas_column_wise) :
    (∃ a : OrmArgs,
      rocsolver_ormbr_unmbr_template COMPLEX storev side trans m n k shiftA lda shiftC ldc
          batch_count = (rocblas_status_success, [OrmbrCall.ormlq a])
      ∧ a.trans = ormbr_transP COMPLEX trans)
    ∧ (ormbr_transP COMPLEX trans = rocblas_operation_none ↔ trans ≠ rocblas_operation_none)
    ∧ (trans = rocblas_operation_none →
        ormbr_transP false trans = rocblas_operation_transpose
        ∧ ormbr_transP true trans = rocblas_operation_conjugate_transpose)
    ∧ ((trans = rocblas_operation_none
          ∨ (COMPLEX = false ∧ trans = rocblas_operation_transpose)
          ∨ (COMPLEX = true ∧ trans = rocblas_operation_conjugate_transpose)) →
        (ormbr_transP COMPLEX trans = rocblas_operation_none
          ∨ (COMPLEX = false ∧ ormbr_transP COMPLEX trans = rocblas_operation_transpose)
          ∨ (COMPLEX = true
              ∧ ormbr_transP COMPLEX trans = rocblas_operation_conjugate_transpose))
        ∧ ormbr_transP COMPLEX (ormbr_transP COMPLEX trans) = trans) := by
  refine ⟨?_, ?_, ?_, ?_⟩
  · have h := ormbr_template_cases COMPLEX storev side trans m n k shiftA lda shiftC ldc
      batch_count hm hn hk hb
    rw [if_neg hst] at h
    by_cases hq : (if side = rocblas_side_left then m else n) > k
    · rw [if_pos hq] at h
      exact ⟨_, h, rfl⟩
    · rw [if_neg hq] at h
      exact ⟨_, h, rfl⟩
  · cases COMPLEX <;> cases trans <;> simp [ormbr_transP]
  · rintro rfl
    exact ⟨rfl, rfl⟩
  · intro hacc
    cases COMPLEX <;> cases trans <;> simp [ormbr_transP] at hacc ⊢

/-- Witness for `ormbr_transP_opposite`: row-wise storage in a complex instantiation with
`trans = conjugate_transpose`. -/
theorem ormbr_transP_opposite_witness :
    (∃ a : OrmArgs,
      rocsolver_ormbr_unmbr_template true rocblas_row_wise rocblas_side_left
          rocblas_operation_conjugate_transpose 4 3 2 0 4 0 4 1
        = (rocblas_status_success, [OrmbrCall.ormlq a])
      ∧ a.trans = ormbr_transP true rocblas_operation_conjugate_transpose)
    ∧ ormbr_transP true (ormbr_transP true rocblas_operation_conjugate_transpose)
        = rocblas_operation_conjugate_transpose := by
  have h := ormbr_transP_opposite true rocblas_row_wise rocblas_side_left
    rocblas_operation_conjugate_transpose 4 3 2 0 4 0 4 1
    (by decide) (by decide) (by decide) (by decide) (by decide)
  exact ⟨h.1, (h.2.2.2 (by decide)).2⟩

/-- C26: for `m, n, k, batch_count ≥ 1`, every `side` and every `storev`, the sub-problem
`(m', n', k')` that `rocsolver_ormbr_unmbr_template` hands to ORMQR/ORMLQ has `m' ≥ 0`,
`n' ≥ 0` and `0 ≤ k' ≤ nq'`, where `nq' = m'` for the left side and `nq' = n'` otherwise; in
the shifted branches (`nq < k` for column-wise storage, `nq ≤ k` otherwise)
`k' = nq' = nq - 1`. -/
theorem ormbr_subproblem_valid (COMPLEX : Bool) (storev : rocblas_storev)
    (side : rocblas_side) (trans : rocblas_operation)
    (m n k shiftA lda shiftC ldc batch_count : Int)
    (hm : 1 ≤ m) (hn : 1 ≤ n) (hk : 1 ≤ k) (hb : 1 ≤ batch_count) :
    ∃ c : OrmbrCall,
      rocsolver_ormbr_unmbr_template COMPLEX storev side trans m n k shiftA lda shiftC ldc
          batch_count = (rocblas_status_success, [c])
      ∧ 0 ≤ c.args.m ∧ 0 ≤ c.args.n ∧ 0 ≤ c.args.k
      ∧ c.args.k ≤ (if side = rocblas_side_left then c.args.m else c.args.n)
      ∧ (((storev = rocblas_column_wise ∧ (if side = rocblas_side_left then m else n) < k)
            ∨ (storev ≠ rocblas_column_wise
                ∧ (if side = rocblas_side_left then m else n) ≤ k)) →
          c.args.k = (if side = rocblas_side_left then m else n) - 1
          ∧ (if side = rocblas_side_left then c.args.m else c.args.n)
              = (if side = rocblas_side_left then m else n) - 1) := by
  refine ⟨_, ormbr_template_cases COMPLEX storev side trans m n k shiftA lda shiftC ldc
    batch_count (by omega) (by omega) (by omega) (by omega), ?_⟩
  by_cases hs : side = rocblas_side_left
  · simp only [hs, if_true]
    by_cases hst : storev = rocblas_column_wise
    · rw [if_pos hst]
      by_cases hq : m ≥ k
      · rw [if_pos hq]
        simp only [OrmbrCall.args]
        refine ⟨by omega, by omega, by omega, by omega, ?_⟩
        rintro (⟨_, h⟩ | ⟨h, _⟩)
        · omega
        · exact absurd hst h
      · rw [if_neg hq]
        simp only [OrmbrCall.args]
        refine ⟨by omega, by omega, by omega, by omega, ?_⟩
        intro _
        exact ⟨trivial, trivial⟩
    · rw [if_neg hst]
      by_cases hq : m > k
      · rw [if_pos hq]
        simp only [OrmbrCall.args]
        refine ⟨by omega, by omega, by omega, by omega, ?_⟩
        rintro (⟨h, _⟩ | ⟨_, h⟩)
        · exact absurd h hst
        · omega
      · rw [if_neg hq]
        simp only [OrmbrCall.args]
        refine ⟨by omega, by omega, by omega, by omega, ?_⟩
        intro _
        exact ⟨trivial, trivial⟩
  · simp only [hs, if_false]
    by_cases hst : storev = rocblas_column_wise
    · rw [if_pos hst]
      by_cases hq : n ≥ k
      · rw [if_pos hq]
        simp only [OrmbrCall.args]
        refine ⟨by omega, by omega, by omega, by omega, ?_⟩
        rintro (⟨_, h⟩ | ⟨h, _⟩)
        · omega
        · exact absurd hst h
      · rw [if_neg hq]
        simp only [OrmbrCall.args]
        refine ⟨by omega, by omega, by omega, by omega, ?_⟩
        intro _
        exact ⟨trivial, trivial⟩
    · rw [if_neg hst]
      by_cases hq : n > k
      · rw [if_pos hq]
        simp only [OrmbrCall.args]
        refine ⟨by omega, by omega, by omega, by omega, ?_⟩
        rintro (⟨h, _⟩ | ⟨_, h⟩)
        · exact absurd h hst
        · omega
      · rw [if_neg hq]
        simp only [OrmbrCall.args]
        refine ⟨by omega, by omega, by omega, by omega, ?_⟩
        intro _
        exact ⟨trivial, trivial⟩

/-- Witness for `ormbr_subproblem_valid`: column-wise storage, left side, `m = 2 < k = 3`. -/
theorem ormbr_subproblem_valid_witness :
    ∃ c : OrmbrCall,
      rocsolver_ormbr_unmbr_template false rocblas_column_wise rocblas_side_left
          rocblas_operation_none 2 5 3 0 2 0 2 1 = (rocblas_status_success, [c])
      ∧ 0 ≤ c.args.m ∧ 0 ≤ c.args.n ∧ 0 ≤ c.args.k
      ∧ c.args.k ≤ (if rocblas_side_left = rocblas_side_left then c.args.m else c.args.n)
      ∧ (((rocblas_column_wise = rocblas_column_wise
              ∧ (if rocblas_side_left = rocblas_side_left then (2 : Int) else 5) < 3)
            ∨ (rocblas_column_wise ≠ rocblas_column_wise
                ∧ (if rocblas_side_left = rocblas_side_left then (2 : Int) else 5) ≤ 3)) →
          c.args.k = (if rocblas_side_left = rocblas_side_left then (2 : Int) else 5) - 1
          ∧ (if rocblas_side_left = rocblas_side_left then c.args.m else c.args.n)
              = (if rocblas_side_left = rocblas_side_left then (2 : Int) else 5) - 1) :=
  ormbr_subproblem_valid false rocblas_column_wise rocblas_side_left
    rocblas_operation_none 2 5 3 0 2 0 2 1 (by decide) (by decide) (by decide) (by decide)

/-! ### The driver of ORG2L / UNG2L -/

/-- On non-empty input `rocsolver_org2l_ung2l_template` switches the pointer mode to device,
launches `org2l_init_ident`, runs its loop for `j = 0, ..., k - 1`, launches `restau` and
restores the pointer mode. -/
theorem org2l_template_events (handle : rocblas_handle) (m n k shiftA lda bc : Int)
    (hm : m ≠ 0) (hn : n ≠ 0) (hb : bc ≠ 0) :
    rocsolver_org2l_ung2l_template handle m n k shiftA lda bc
      = (rocblas_status_success,
          [Org2lEvent.set_pointer_mode rocblas_pointer_mode_device,
           Org2lEvent.launch_org2l_init_ident (Int.tdiv (m - 1) 32 + 1)
             (Int.tdiv (n - 1) 32 + 1) bc m n k shiftA lda]
          ++ ((List.range k.toNat).map
                (fun j => org2l_iter m n k shiftA lda bc (j : Int))).flatten
          ++ [Org2lEvent.launch_restau (Int.tdiv (k - 1) 128 + 1) bc k,
              Org2lEvent.set_pointer_mode handle.pointer_mode]) := by
  have h0 : ¬ (n = 0 ∨ m = 0 ∨ bc = 0) := by
    rintro (h | h | h)
    · exact hn h
    · exact hm h
    · exact hb h
  unfold rocsolver_org2l_ung2l_template
  rw [if_neg h0]

/-- C27: for `0 ≤ k ≤ n ≤ m` and `m, n ≥ 1`, iteration `j` (`0 ≤ j < k`) of the loop of
`rocsolver_org2l_ung2l_template` works on column `jj = n - k + j`, which ranges over
`[n - k, n - 1]` in increasing order; it applies LARF with a reflector of length
`m - k + j + 1` in `[1, m]`, stored in column `jj`, to `jj` columns (`jj` in `[0, n - 1]`),
and scales `m - k + j` (in `[0, m - 1]`) elements of column `jj` with the entry
`ipiv + j`; all dimensions passed are non-negative and every addressed row index is below
`m`. -/
theorem org2l_loop_iterations (handle : rocblas_handle) (m n k shiftA lda batch_count : Int)
    (hk0 : 0 ≤ k) (hkn : k ≤ n) (hnm : n ≤ m) (hm : 1 ≤ m) (hn : 1 ≤ n)
    (hb : batch_count ≠ 0) :
    (rocsolver_org2l_ung2l_template handle m n k shiftA lda batch_count).2
        = [Org2lEvent.set_pointer_mode rocblas_pointer_mode_device,
           Org2lEvent.launch_org2l_init_ident (Int.tdiv (m - 1) 32 + 1)
             (Int.tdiv (n - 1) 32 + 1) batch_count m n k shiftA lda]
          ++ ((List.range k.toNat).map
                (fun j => org2l_iter m n k shiftA lda batch_count (j : Int))).flatten
          ++ [Org2lEvent.launch_restau (Int.tdiv (k - 1) 128 + 1) batch_count k,
              Org2lEvent.set_pointer_mode handle.pointer_mode]
    ∧ ((k.toNat : Int) = k)
    ∧ ∀ j : Int, 0 ≤ j → j < k →
        org2l_iter m n k shiftA lda batch_count j
          = [Org2lEvent.larf rocblas_side_left (m - k + j + 1) (n - k + j)
               (shiftA + idx2D 0 (n - k + j) lda) 1 j shiftA lda batch_count,
             Org2lEvent.launch_subtract_tau batch_count (m - k + j) (n - k + j) shiftA lda j,
             Org2lEvent.scal (m - k + j) j (shiftA + idx2D 0 (n - k + j) lda) 1
               batch_count]
        ∧ n - k ≤ n - k + j ∧ n - k + j ≤ n - 1
        ∧ (j + 1 < k → n - k + j < n - k + (j + 1))
        ∧ 1 ≤ m - k + j + 1 ∧ m - k + j + 1 ≤ m
        ∧ 0 ≤ n - k + j
        ∧ 0 ≤ m - k + j ∧ m - k + j ≤ m - 1 := by
  refine ⟨?_, Int.toNat_of_nonneg hk0, ?_⟩
  · rw [org2l_template_events handle m n k shiftA lda batch_count (by omega) (by omega) hb]
  · intro j hj0 hjk
    refine ⟨?_, by omega, by omega, by intro _; omega, by omega, by omega, by omega,
      by omega, by omega⟩
    have h1 : m - n + (n - k + j) + 1 = m - k + j + 1 := by ring
    have h2 : m - n + (n - k + j) = m - k + j := by ring
    simp only [org2l_iter, h1, h2]

/-- Witness for `org2l_loop_iterations`: `m = 5`, `n = 4`, `k = 2`. -/
theorem org2l_loop_iterations_witness :
    org2l_iter 5 4 2 0 5 1 1
      = [Org2lEvent.larf rocblas_side_left (5 - 2 + 1 + 1) (4 - 2 + 1)
           (0 + idx2D 0 (4 - 2 + 1) 5) 1 1 0 5 1,
         Org2lEvent.launch_subtract_tau 1 (5 - 2 + 1) (4 - 2 + 1) 0 5 1,
         Org2lEvent.scal (5 - 2 + 1) 1 (0 + idx2D 0 (4 - 2 + 1) 5) 1 1] :=
  ((org2l_loop_iterations ⟨false, rocblas_pointer_mode_host⟩ 5 4 2 0 5 1
      (by decide) (by decide) (by decide) (by decide) (by decide) (by decide)).2.2
    1 (by decide) (by decide)).1

/-- C30: launch grids of `rocsolver_org2l_ung2l_template` under the truncating integer
division of C++.  For `m, n ≥ 1` the grid of `org2l_init_ident` has
`blocksx = (m - 1) / 32 + 1` by `blocksy = (n - 1) / 32 + 1` blocks of `32 × 32` threads
with `32 * (blocksx - 1) < m ≤ 32 * blocksx` and `32 * (blocksy - 1) < n ≤ 32 * blocksy`,
so that every `(i, j)` with `0 ≤ i < m`, `0 ≤ j < n` is handled by exactly one thread; and
for every `k ≥ 0`, `k = 0` included, the grid size `(k - 1) / 128 + 1` of `restau` is at
least `1` and `128` times it is at least `k`. -/
theorem org2l_launch_grids (handle : rocblas_handle) (m n k shiftA lda batch_count : Int)
    (hm : 1 ≤ m) (hn : 1 ≤ n) (hk : 0 ≤ k) (hb : batch_count ≠ 0) :
    Org2lEvent.launch_org2l_init_ident (Int.tdiv (m - 1) 32 + 1) (Int.tdiv (n - 1) 32 + 1)
        batch_count m n k shiftA lda
      ∈ (rocsolver_org2l_ung2l_template handle m n k shiftA lda batch_count).2
    ∧ Org2lEvent.launch_restau (Int.tdiv (k - 1) 128 + 1) batch_count k
      ∈ (rocsolver_org2l_ung2l_template handle m n k shiftA lda batch_count).2
    ∧ 32 * ((Int.tdiv (m - 1) 32 + 1) - 1) < m ∧ m ≤ 32 * (Int.tdiv (m - 1) 32 + 1)
    ∧ 32 * ((Int.tdiv (n - 1) 32 + 1) - 1) < n ∧ n ≤ 32 * (Int.tdiv (n - 1) 32 + 1)
    ∧ (∀ i j : Int, 0 ≤ i → i < m → 0 ≤ j → j < n →
        ∃! t : (Int × Int) × (Int × Int),
          0 ≤ t.1.1 ∧ t.1.1 < Int.tdiv (m - 1) 32 + 1 ∧ 0 ≤ t.1.2 ∧ t.1.2 < 32
          ∧ 0 ≤ t.2.1 ∧ t.2.1 < Int.tdiv (n - 1) 32 + 1 ∧ 0 ≤ t.2.2 ∧ t.2.2 < 32
          ∧ i = t.1.1 * 32 + t.1.2 ∧ j = t.2.1 * 32 + t.2.2)
    ∧ 1 ≤ Int.tdiv (k - 1) 128 + 1 ∧ k ≤ 128 * (Int.tdiv (k - 1) 128 + 1)
    ∧ Int.tdiv ((0 : Int) - 1) 128 + 1 = 1 := by
  have hbx : Int.tdiv (m - 1) 32 = (m - 1) / 32 := Int.tdiv_eq_ediv (by omega) (by decide)
  have hby : Int.tdiv (n - 1) 32 = (n - 1) / 32 := Int.tdiv_eq_ediv (by omega) (by decide)
  have hr : 1 ≤ Int.tdiv (k - 1) 128 + 1 ∧ k ≤ 128 * (Int.tdiv (k - 1) 128 + 1) := by
    by_cases hk0 : k = 0
    · subst hk0
      decide
    · have h : Int.tdiv (k - 1) 128 = (k - 1) / 128 :=
        Int.tdiv_eq_ediv (by omega) (by decide)
      rw [h]
      omega
  have hev := org2l_template_events handle m n k shiftA lda batch_count (by omega) (by omega)
    hb
  refine ⟨?_, ?_, ?_, ?_, ?_, ?_, ?_, hr.1, hr.2, by decide⟩
  · rw [hev]
    simp
  · rw [hev]
    simp
  · rw [hbx]
    omega
  · rw [hbx]
    omega
  · rw [hby]
    omega
  · rw [hby]
    omega
  · intro i j hi0 him hj0 hjn
    rw [hbx, hby]
    refine ⟨((i / 32, i % 32), (j / 32, j % 32)), ?_, ?_⟩
    · simp only
      refine ⟨by omega, by omega, by omega, by omega, by omega, by omega, by omega, by omega,
        by omega, by omega⟩
    · rintro ⟨⟨bx, tx⟩, ⟨cy, ty⟩⟩ h
      simp only at h
      obtain ⟨h1, h2, h3, h4, h5, h6, h7, h8, h9, h10⟩ := h
      have e1 : bx = i / 32 := by omega
      have e2 : tx = i % 32 := by omega
      have e3 : cy = j / 32 := by omega
      have e4 : ty = j % 32 := by omega
      rw [e1, e2, e3, e4]

/-- Witness for `org2l_launch_grids`: `m = 33`, `n = 32`, `k = 0` give a `2 × 1` grid for
`org2l_init_ident` and one block for `restau`. -/
theorem org2l_launch_grids_witness :
    Org2lEvent.launch_org2l_init_ident (Int.tdiv (33 - 1) 32 + 1) (Int.tdiv (32 - 1) 32 + 1)
        1 33 32 0 0 33
      ∈ (rocsolver_org2l_ung2l_template ⟨false, rocblas_pointer_mode_host⟩ 33 32 0 0 33 1).2
    ∧ Org2lEvent.launch_restau (Int.tdiv (0 - 1) 128 + 1) 1 0
      ∈ (rocsolver_org2l_ung2l_template ⟨false, rocblas_pointer_mode_host⟩ 33 32 0 0 33 1).2 :=
  ⟨(org2l_launch_grids ⟨false, rocblas_pointer_mode_host⟩ 33 32 0 0 33 1
      (by decide) (by decide) (by decide) (by decide)).1,
   (org2l_launch_grids ⟨false, rocblas_pointer_mode_host⟩ 33 32 0 0 33 1
      (by decide) (by decide) (by decide) (by decide)).2.1⟩

/-! ### Dimensions and iteration count of the blocked path of GELQF -/

/-- C28: for `m, n ≥ 1` with `min m n > SWITCHSIZE ≥ 0` and `BLOCKSIZE ≥ 1`, every
sub-routine call of the blocked path of `rocsolver_gelqf_template` receives strictly
positive dimensions and an in-range panel origin: each loop panel starts at
`0 ≤ j < min m n`, has `1 ≤ jb ≤ BLOCKSIZE` rows and `n - j ≥ 1` columns; each LARFT /
LARFB pair (issued iff `j + jb < m`) has `m - j - jb ≥ 1` rows, `n - j ≥ 1` columns and
`jb ≥ 1` reflectors; and the GELQ2 call of the last block (issued iff `j < min m n` on
exit) has `m - j ≥ 1` rows and `n - j ≥ 1` columns. -/
theorem gelqf_blocked_positive_dims (cfg : IdealSizes)
    (gelq2_status : Gelq2Call → rocblas_status) (fuel : Nat)
    (m n shiftA lda batch_count : Int)
    (hm : 1 ≤ m) (hn : 1 ≤ n) (hb : batch_count ≠ 0)
    (hS : 0 ≤ cfg.GExQF_GExQ2_SWITCHSIZE) (hB : 1 ≤ cfg.GExQF_GExQ2_BLOCKSIZE)
    (hbig : cfg.GExQF_GExQ2_SWITCHSIZE < min m n)
    (hfuel : (min m n - cfg.GExQF_GExQ2_SWITCHSIZE).toNat ≤ fuel) :
    ∃ its jExit last,
      rocsolver_gelqf_template cfg gelq2_status fuel m n shiftA lda batch_count
        = some (rocblas_status_success, GelqfRun.blocked its jExit last)
      ∧ (∀ it ∈ its,
          0 ≤ it.j ∧ it.j < min m n
          ∧ 1 ≤ it.jb ∧ it.jb ≤ cfg.GExQF_GExQ2_BLOCKSIZE
          ∧ it.panel.m = it.jb ∧ it.panel.n = n - it.j ∧ 1 ≤ it.panel.n
          ∧ it.panel.ipivOff = it.j
          ∧ (it.apply = none ↔ ¬ it.j + it.jb < m)
          ∧ ∀ t b, it.apply = some (t, b) →
              b.m = m - it.j - it.jb ∧ 1 ≤ b.m
              ∧ b.n = n - it.j ∧ 1 ≤ b.n ∧ b.k = it.jb ∧ 1 ≤ b.k
              ∧ t.n = n - it.j ∧ 1 ≤ t.n ∧ t.k = it.jb ∧ 1 ≤ t.k)
      ∧ (last = none ↔ ¬ jExit < min m n)
      ∧ (∀ c, last = some c →
          0 ≤ jExit ∧ jExit < min m n
          ∧ c.m = m - jExit ∧ 1 ≤ c.m ∧ c.n = n - jExit ∧ 1 ≤ c.n
          ∧ c.ipivOff = jExit) := by
  obtain ⟨its, jExit, hl, hrun⟩ :=
    gelqf_blocked_returns cfg m n shiftA lda batch_count fuel hB hfuel
  obtain ⟨hmem, hexit, -⟩ := gelqf_loop_mem cfg m n shiftA lda batch_count fuel its jExit hl
  have hj0 : 0 ≤ jExit := by
    rw [hexit]
    exact mul_nonneg (Int.ofNat_nonneg _) (by omega)
  refine ⟨its, jExit, gelqf_last m n shiftA lda batch_count jExit, ?_, ?_, ?_, ?_⟩
  · rw [gelqf_template_blocked cfg gelq2_status fuel m n shiftA lda batch_count
      (by omega) (by omega) hb hbig, hrun]
  · intro it hit
    obtain ⟨i, -, rfl, hcond⟩ := hmem it hit
    have hx0 : 0 ≤ (i : Int) * cfg.GExQF_GExQ2_BLOCKSIZE :=
      mul_nonneg (Int.ofNat_nonneg _) (by omega)
    generalize (i : Int) * cfg.GExQF_GExQ2_BLOCKSIZE = x at hcond hx0
    have hjb : (gelqf_iter cfg m n shiftA lda batch_count x).jb
        = min (min m n - x) cfg.GExQF_GExQ2_BLOCKSIZE := rfl
    have hj : (gelqf_iter cfg m n shiftA lda batch_count x).j = x := rfl
    have hpm : (gelqf_iter cfg m n shiftA lda batch_count x).panel.m
        = min (min m n - x) cfg.GExQF_GExQ2_BLOCKSIZE := rfl
    have hpn : (gelqf_iter cfg m n shiftA lda batch_count x).panel.n = n - x := rfl
    have hpp : (gelqf_iter cfg m n shiftA lda batch_count x).panel.ipivOff = x := rfl
    rw [hjb, hj, hpm, hpn, hpp]
    refine ⟨hx0, by omega, by omega, by omega, rfl, rfl, by omega, rfl, ?_, ?_⟩
    · by_cases hc : x + min (min m n - x) cfg.GExQF_GExQ2_BLOCKSIZE < m
      · have ha : ∃ p, (gelqf_iter cfg m n shiftA lda batch_count x).apply = some p := by
          simp only [gelqf_iter, if_pos hc]
          exact ⟨_, rfl⟩
        obtain ⟨p, hp⟩ := ha
        rw [hp]
        exact ⟨fun h => Option.noConfusion h, fun h => absurd hc h⟩
      · have ha : (gelqf_iter cfg m n shiftA lda batch_count x).apply = none := by
          simp only [gelqf_iter, if_neg hc]
        rw [ha]
        exact ⟨fun _ => hc, fun _ => rfl⟩
    · intro t b hap
      by_cases hc : x + min (min m n - x) cfg.GExQF_GExQ2_BLOCKSIZE < m
      · simp only [gelqf_iter, if_pos hc, Option.some.injEq, Prod.mk.injEq] at hap
        obtain ⟨rfl, rfl⟩ := hap
        refine ⟨rfl, ?_, rfl, ?_, rfl, ?_, rfl, ?_, rfl, ?_⟩
        · show 1 ≤ m - x - min (min m n - x) cfg.GExQF_GExQ2_BLOCKSIZE
          omega
        · show 1 ≤ n - x
          omega
        · show 1 ≤ min (min m n - x) cfg.GExQF_GExQ2_BLOCKSIZE
          omega
        · show 1 ≤ n - x
          omega
        · show 1 ≤ min (min m n - x) cfg.GExQF_GExQ2_BLOCKSIZE
          omega
      · simp only [gelqf_iter, if_neg hc] at hap
        exact Option.noConfusion hap
  · by_cases hc : jExit < min m n
    · have ha : ∃ p, gelqf_last m n shiftA lda batch_count jExit = some p := by
        simp only [gelqf_last, if_pos hc]
        exact ⟨_, rfl⟩
      obtain ⟨p, hp⟩ := ha
      rw [hp]
      exact ⟨fun h => Option.noConfusion h, fun h => absurd hc h⟩
    · have ha : gelqf_last m n shiftA lda batch_count jExit = none := by
        simp only [gelqf_last, if_neg hc]
      rw [ha]
      exact ⟨fun _ => hc, fun _ => rfl⟩
  · intro c hc
    by_cases hlt : jExit < min m n
    · simp only [gelqf_last, if_pos hlt, Option.some.injEq] at hc
      subst hc
      refine ⟨hj0, hlt, rfl, ?_, rfl, ?_, rfl⟩
      · show 1 ≤ m - jExit
        omega
      · show 1 ≤ n - jExit
        omega
    · simp only [gelqf_last, if_neg hlt] at hc
      exact Option.noConfusion hc

/-- Witness for `gelqf_blocked_positive_dims`: a `6 × 4` problem with switch size `2` and
block size `2`. -/
theorem gelqf_blocked_positive_dims_witness :
    ∃ its jExit last,
      rocsolver_gelqf_template ⟨2, 2⟩ (fun _ => rocblas_status_success) 2 6 4 0 6 1
        = some (rocblas_status_success, GelqfRun.blocked its jExit last)
      ∧ (∀ it ∈ its, 1 ≤ it.jb ∧ it.jb ≤ 2 ∧ 1 ≤ it.panel.n)
      ∧ (∀ c, last = some c → 1 ≤ c.m ∧ 1 ≤ c.n) := by
  obtain ⟨its, jExit, last, h1, h2, -, h4⟩ :=
    gelqf_blocked_positive_dims ⟨2, 2⟩ (fun _ => rocblas_status_success) 2 6 4 0 6 1
      (by decide) (by decide) (by decide) (by decide) (by decide) (by decide) (by decide)
  exact ⟨its, jExit, last, h1,
    fun it hit => ⟨(h2 it hit).2.2.1, (h2 it hit).2.2.2.1, (h2 it hit).2.2.2.2.2.2.1⟩,
    fun c hc => ⟨(h4 c hc).2.2.2.1, (h4 c hc).2.2.2.2.2.1⟩⟩

/-- C29: for `BLOCKSIZE ≥ 1`, `SWITCHSIZE ≥ 0` and `dim = min m n > SWITCHSIZE`, the blocked
loop of `rocsolver_gelqf_template` terminates after exactly
`⌈(dim - SWITCHSIZE) / BLOCKSIZE⌉` iterations, and `j` equals `BLOCKSIZE` times that count
when the loop is left.  The count is at least one, it is the integer `L` with
`(L - 1) * BLOCKSIZE < dim - SWITCHSIZE ≤ L * BLOCKSIZE`, and iteration `i` runs at
`j = i * BLOCKSIZE`.  The statement needs `dim > SWITCHSIZE` only, not the sign of
`SWITCHSIZE`. -/
theorem gelqf_loop_iteration_count (cfg : IdealSizes)
    (gelq2_status : Gelq2Call → rocblas_status) (fuel : Nat)
    (m n shiftA lda batch_count : Int)
    (hm : m ≠ 0) (hn : n ≠ 0) (hb : batch_count ≠ 0)
    (hB : 1 ≤ cfg.GExQF_GExQ2_BLOCKSIZE)
    (hbig : cfg.GExQF_GExQ2_SWITCHSIZE < min m n)
    (hfuel : (min m n - cfg.GExQF_GExQ2_SWITCHSIZE).toNat ≤ fuel) :
    ∃ its jExit last,
      rocsolver_gelqf_template cfg gelq2_status fuel m n shiftA lda batch_count
        = some (rocblas_status_success, GelqfRun.blocked its jExit last)
      ∧ (its.length : Int)
          = Int.ceil (((min m n - cfg.GExQF_GExQ2_SWITCHSIZE : Int) : ℚ)
              / ((cfg.GExQF_GExQ2_BLOCKSIZE : Int) : ℚ))
      ∧ (its.length : Int)
          = (min m n - cfg.GExQF_GExQ2_SWITCHSIZE + cfg.GExQF_GExQ2_BLOCKSIZE - 1)
              / cfg.GExQF_GExQ2_BLOCKSIZE
      ∧ 1 ≤ its.length
      ∧ ((its.length : Int) - 1) * cfg.GExQF_GExQ2_BLOCKSIZE
          < min m n - cfg.GExQF_GExQ2_SWITCHSIZE
      ∧ min m n - cfg.GExQF_GExQ2_SWITCHSIZE
          ≤ (its.length : Int) * cfg.GExQF_GExQ2_BLOCKSIZE
      ∧ jExit = cfg.GExQF_GExQ2_BLOCKSIZE * (its.length : Int)
      ∧ its.map (fun it => it.j)
          = (List.range its.length).map
              (fun (i : Nat) => (i : Int) * cfg.GExQF_GExQ2_BLOCKSIZE) := by
  obtain ⟨its, jExit, hl, hrun⟩ :=
    gelqf_blocked_returns cfg m n shiftA lda batch_count fuel hB hfuel
  obtain ⟨hshape, hexit, hcond, hstop⟩ :=
    gelqf_loop_shape cfg m n shiftA lda batch_count fuel 0 its jExit hl
  obtain ⟨rest, hrest⟩ :=
    gelqf_loop_enters cfg m n shiftA lda batch_count fuel 0 (by omega) its jExit hl
  have hlen : 1 ≤ its.length := by
    rw [hrest]
    simp
  have hlo : ((its.length : Int) - 1) * cfg.GExQF_GExQ2_BLOCKSIZE
      < min m n - cfg.GExQF_GExQ2_SWITCHSIZE := by
    have h := hcond (its.length - 1) (by omega)
    have hc : ((its.length - 1 : Nat) : Int) = (its.length : Int) - 1 := by omega
    rw [hc] at h
    simpa using h
  have hhi : min m n - cfg.GExQF_GExQ2_SWITCHSIZE
      ≤ (its.length : Int) * cfg.GExQF_GExQ2_BLOCKSIZE := by
    rw [hexit] at hstop
    simpa using hstop
  have hBq : (0 : ℚ) < ((cfg.GExQF_GExQ2_BLOCKSIZE : Int) : ℚ) := by
    have : (0 : Int) < cfg.GExQF_GExQ2_BLOCKSIZE := by omega
    exact_mod_cast this
  refine ⟨its, jExit, gelqf_last m n shiftA lda batch_count jExit, ?_, ?_, ?_, hlen, hlo, hhi,
    ?_, ?_⟩
  · rw [gelqf_template_blocked cfg gelq2_status fuel m n shiftA lda batch_count
      hm hn hb hbig, hrun]
  · symm
    rw [Int.ceil_eq_iff]
    constructor
    · rw [lt_div_iff₀ hBq]
      exact_mod_cast hlo
    · rw [div_le_iff₀ hBq]
      exact_mod_cast hhi
  · symm
    have hBpos : (0 : Int) < cfg.GExQF_GExQ2_BLOCKSIZE := by omega
    apply le_antisymm
    · have h : (min m n - cfg.GExQF_GExQ2_SWITCHSIZE + cfg.GExQF_GExQ2_BLOCKSIZE - 1)
          / cfg.GExQF_GExQ2_BLOCKSIZE < (its.length : Int) + 1 := by
        rw [Int.ediv_lt_iff_lt_mul hBpos]
        linarith
      omega
    · rw [Int.le_ediv_iff_mul_le hBpos]
      linarith
  · rw [hexit]
    ring
  · conv_lhs => rw [hshape]
    rw [List.map_map]
    apply List.map_congr_left
    intro i _
    simp [gelqf_iter]

/-- Witness for `gelqf_loop_iteration_count`: a `6 × 4` problem with switch size `1` and
block size `2` runs `⌈3 / 2⌉ = 2` iterations and leaves the loop at `j = 4`. -/
theorem gelqf_loop_iteration_count_witness :
    ∃ its jExit last,
      rocsolver_gelqf_template ⟨1, 2⟩ (fun _ => rocblas_status_success) 3 6 4 0 6 1
        = some (rocblas_status_success, GelqfRun.blocked its jExit last)
      ∧ (its.length : Int) = 2 ∧ jExit = 4 := by
  obtain ⟨its, jExit, last, h1, -, h3, -, -, -, h7, -⟩ :=
    gelqf_loop_iteration_count ⟨1, 2⟩ (fun _ => rocblas_status_success) 3 6 4 0 6 1
      (by decide) (by decide) (by decide) (by decide) (by decide) (by decide)
  refine ⟨its, jExit, last, h1, ?_, ?_⟩
  · rw [h3]
    decide
  · rw [h7, h3]
    decide

/-! ### The workspace of the triangular factors of GELQF -/

/-- For a non-negative `rocblas_int` the conversion to `size_t` is the residue of its value
modulo `2 ^ 64`. -/
theorem toSizeT_of_nonneg (x : Int) (hx : 0 ≤ x) : toSizeT x = x.toNat % 2 ^ 64 := by
  unfold toSizeT
  omega

/-- The `size_t` product `sizeof(T) * jb * jb * batch_count`, evaluated from left to right,
is the residue modulo `2 ^ 64` of the product of the values. -/
theorem mulSizeT_trfact (s : Nat) (jb bc : Int) (hjb : 0 ≤ jb) (hbc : 0 ≤ bc) :
    mulSizeT (mulSizeT (mulSizeT s (toSizeT jb)) (toSizeT jb)) (toSizeT bc)
      = (s * jb.toNat * jb.toNat * bc.toNat) % 2 ^ 64 := by
  rw [toSizeT_of_nonneg jb hjb, toSizeT_of_nonneg bc hbc]
  unfold mulSizeT
  simp [Nat.mul_mod, Nat.mod_mod]

/-- The sizes stored by `rocsolver_gelqf_getMemorySize` in its last branch. -/
theorem gelqf_getMemorySize_blocked_sizes (cfg : IdealSizes) (o : GelqfOracles)
    (BATCHED : Bool) (m n bc : Int) (hm : m ≠ 0) (hn : n ≠ 0) (hb : bc ≠ 0)
    (hbig : cfg.GExQF_GExQ2_SWITCHSIZE < min m n) :
    (rocsolver_gelqf_getMemorySize cfg o BATCHED m n bc).1.size_Abyx_norms_trfact
        = max (o.rocsolver_gelq2_getMemorySize cfg.GExQF_GExQ2_BLOCKSIZE n bc).size_Abyx_norms
            (mulSizeT (mulSizeT (mulSizeT o.sizeofT (toSizeT cfg.GExQF_GExQ2_BLOCKSIZE))
              (toSizeT cfg.GExQF_GExQ2_BLOCKSIZE)) (toSizeT bc))
    ∧ (rocsolver_gelqf_getMemorySize cfg o BATCHED m n bc).1.size_work_workArr
        = max (o.rocsolver_gelq2_getMemorySize cfg.GExQF_GExQ2_BLOCKSIZE n bc).size_work_workArr
            (max (o.rocsolver_larft_getMemorySize n cfg.GExQF_GExQ2_BLOCKSIZE bc).size_work
              (o.rocsolver_larfb_getMemorySize rocblas_side_right
                (m - cfg.GExQF_GExQ2_BLOCKSIZE) n cfg.GExQF_GExQ2_BLOCKSIZE bc).size_work)
    ∧ (rocsolver_gelqf_getMemorySize cfg o BATCHED m n bc).1.size_diag_tmptr
        = max (o.rocsolver_gelq2_getMemorySize cfg.GExQF_GExQ2_BLOCKSIZE n bc).size_diag
            (o.rocsolver_larfb_getMemorySize rocblas_side_right
              (m - cfg.GExQF_GExQ2_BLOCKSIZE) n cfg.GExQF_GExQ2_BLOCKSIZE bc).size_tmptr := by
  have h1 : ¬ (m = 0 ∨ n = 0 ∨ bc = 0) := by tauto
  have h2 : ¬ (m ≤ cfg.GExQF_GExQ2_SWITCHSIZE ∨ n ≤ cfg.GExQF_GExQ2_SWITCHSIZE) := by omega
  unfold rocsolver_gelqf_getMemorySize
  rw [if_neg h1, if_neg h2]
  exact ⟨rfl, rfl, rfl⟩

/-- C24: in the blocked branch of `rocsolver_gelqf_getMemorySize`, when the product
`sizeof(T) * BLOCKSIZE * BLOCKSIZE * batch_count` fits in `size_t`, the reported
`size_Abyx_norms_trfact` is at least that number of bytes, and this is the extent
`rocsolver_gelqf_template` addresses for the triangular factors: every LARFT / LARFB pair it
issues uses the buffer from offset `0` with leading dimension `ldw = BLOCKSIZE`, stride
`strideW = BLOCKSIZE * BLOCKSIZE`, `batch_count` matrices and a factor of order
`jb ≤ BLOCKSIZE`, so that every element `(r, c)` of the factor of batch instance `p` lies
at an offset in `[0, BLOCKSIZE * BLOCKSIZE * batch_count)` whose bytes are inside the
reported size, and the last element of a factor of order `BLOCKSIZE` in the last batch
instance is the last element of that extent.  Likewise `size_work_workArr` and
`size_diag_tmptr` are at least each of the sub-routine requirements they are the maximum
of. -/
theorem gelqf_trfact_size_covers (cfg : IdealSizes) (o : GelqfOracles) (BATCHED : Bool)
    (gelq2_status : Gelq2Call → rocblas_status) (fuel : Nat)
    (m n shiftA lda batch_count : Int)
    (hm : m ≠ 0) (hn : n ≠ 0) (hbc : 1 ≤ batch_count)
    (hB : 1 ≤ cfg.GExQF_GExQ2_BLOCKSIZE)
    (hbig : cfg.GExQF_GExQ2_SWITCHSIZE < min m n)
    (hfit : o.sizeofT * cfg.GExQF_GExQ2_BLOCKSIZE.toNat * cfg.GExQF_GExQ2_BLOCKSIZE.toNat
              * batch_count.toNat < 2 ^ 64)
    (hfuel : (min m n - cfg.GExQF_GExQ2_SWITCHSIZE).toNat ≤ fuel) :
    ((o.sizeofT : Int) * cfg.GExQF_GExQ2_BLOCKSIZE * cfg.GExQF_GExQ2_BLOCKSIZE * batch_count
        ≤ ((rocsolver_gelqf_getMemorySize cfg o BATCHED m n batch_count).1.size_Abyx_norms_trfact
            : Int))
    ∧ (o.rocsolver_gelq2_getMemorySize cfg.GExQF_GExQ2_BLOCKSIZE n batch_count).size_Abyx_norms
        ≤ (rocsolver_gelqf_getMemorySize cfg o BATCHED m n batch_count).1.size_Abyx_norms_trfact
    ∧ (o.rocsolver_gelq2_getMemorySize cfg.GExQF_GExQ2_BLOCKSIZE n batch_count).size_work_workArr
        ≤ (rocsolver_gelqf_getMemorySize cfg o BATCHED m n batch_count).1.size_work_workArr
    ∧ (o.rocsolver_larft_getMemorySize n cfg.GExQF_GExQ2_BLOCKSIZE batch_count).size_work
        ≤ (rocsolver_gelqf_getMemorySize cfg o BATCHED m n batch_count).1.size_work_workArr
    ∧ (o.rocsolver_larfb_getMemorySize rocblas_side_right (m - cfg.GExQF_GExQ2_BLOCKSIZE) n
          cfg.GExQF_GExQ2_BLOCKSIZE batch_count).size_work
        ≤ (rocsolver_gelqf_getMemorySize cfg o BATCHED m n batch_count).1.size_work_workArr
    ∧ (o.rocsolver_gelq2_getMemorySize cfg.GExQF_GExQ2_BLOCKSIZE n batch_count).size_diag
        ≤ (rocsolver_gelqf_getMemorySize cfg o BATCHED m n batch_count).1.size_diag_tmptr
    ∧ (o.rocsolver_larfb_getMemorySize rocblas_side_right (m - cfg.GExQF_GExQ2_BLOCKSIZE) n
          cfg.GExQF_GExQ2_BLOCKSIZE batch_count).size_tmptr
        ≤ (rocsolver_gelqf_getMemorySize cfg o BATCHED m n batch_count).1.size_diag_tmptr
    ∧ (∃ its jExit last,
        rocsolver_gelqf_template cfg gelq2_status fuel m n shiftA lda batch_count
          = some (rocblas_status_success, GelqfRun.blocked its jExit last)
        ∧ ∀ it ∈ its, ∀ t b, it.apply = some (t, b) →
            t.ldf = cfg.GExQF_GExQ2_BLOCKSIZE
            ∧ t.strideF = cfg.GExQF_GExQ2_BLOCKSIZE * cfg.GExQF_GExQ2_BLOCKSIZE
            ∧ t.batch_count = batch_count
            ∧ t.k ≤ cfg.GExQF_GExQ2_BLOCKSIZE
            ∧ b.shiftF = 0 ∧ b.ldf = t.ldf ∧ b.strideF = t.strideF ∧ b.k = t.k
            ∧ b.batch_count = batch_count
            ∧ ∀ p r c : Int, 0 ≤ p → p < batch_count → 0 ≤ r → r < t.k → 0 ≤ c → c < t.k →
                0 ≤ p * t.strideF + (b.shiftF + idx2D r c t.ldf)
                ∧ p * t.strideF + (b.shiftF + idx2D r c t.ldf)
                    < cfg.GExQF_GExQ2_BLOCKSIZE * cfg.GExQF_GExQ2_BLOCKSIZE * batch_count
                ∧ (o.sizeofT : Int) * (p * t.strideF + (b.shiftF + idx2D r c t.ldf) + 1)
                    ≤ ((rocsolver_gelqf_getMemorySize cfg o BATCHED m n
                          batch_count).1.size_Abyx_norms_trfact : Int))
    ∧ (batch_count - 1) * (cfg.GExQF_GExQ2_BLOCKSIZE * cfg.GExQF_GExQ2_BLOCKSIZE)
          + (0 + idx2D (cfg.GExQF_GExQ2_BLOCKSIZE - 1) (cfg.GExQF_GExQ2_BLOCKSIZE - 1)
                cfg.GExQF_GExQ2_BLOCKSIZE) + 1
        = cfg.GExQF_GExQ2_BLOCKSIZE * cfg.GExQF_GExQ2_BLOCKSIZE * batch_count := by
  have hb : batch_count ≠ 0 := by omega
  obtain ⟨hsA, hsW, hsD⟩ :=
    gelqf_getMemorySize_blocked_sizes cfg o BATCHED m n batch_count hm hn hb hbig
  have hprod : mulSizeT (mulSizeT (mulSizeT o.sizeofT (toSizeT cfg.GExQF_GExQ2_BLOCKSIZE))
        (toSizeT cfg.GExQF_GExQ2_BLOCKSIZE)) (toSizeT batch_count)
      = o.sizeofT * cfg.GExQF_GExQ2_BLOCKSIZE.toNat * cfg.GExQF_GExQ2_BLOCKSIZE.toNat
          * batch_count.toNat := by
    rw [mulSizeT_trfact o.sizeofT _ _ (by omega) (by omega), Nat.mod_eq_of_lt hfit]
  have hBn : (cfg.GExQF_GExQ2_BLOCKSIZE.toNat : Int) = cfg.GExQF_GExQ2_BLOCKSIZE :=
    Int.toNat_of_nonneg (by omega)
  have hbn : (batch_count.toNat : Int) = batch_count := Int.toNat_of_nonneg (by omega)
  have hge : (o.sizeofT : Int) * cfg.GExQF_GExQ2_BLOCKSIZE * cfg.GExQF_GExQ2_BLOCKSIZE
        * batch_count
      ≤ ((rocsolver_gelqf_getMemorySize cfg o BATCHED m n batch_count).1.size_Abyx_norms_trfact
          : Int) := by
    rw [hsA, hprod]
    have h : o.sizeofT * cfg.GExQF_GExQ2_BLOCKSIZE.toNat * cfg.GExQF_GExQ2_BLOCKSIZE.toNat
          * batch_count.toNat
        ≤ max (o.rocsolver_gelq2_getMemorySize cfg.GExQF_GExQ2_BLOCKSIZE n
                batch_count).size_Abyx_norms
            (o.sizeofT * cfg.GExQF_GExQ2_BLOCKSIZE.toNat * cfg.GExQF_GExQ2_BLOCKSIZE.toNat
              * batch_count.toNat) := le_max_right _ _
    have h2 := Int.ofNat_le.mpr h
    push_cast at h2
    rw [hBn, hbn] at h2
    push_cast
    rw [hBn, hbn]
    exact h2
  obtain ⟨its, jExit, hl, hrun⟩ :=
    gelqf_blocked_returns cfg m n shiftA lda batch_count fuel hB hfuel
  obtain ⟨hmem, -, -⟩ := gelqf_loop_mem cfg m n shiftA lda batch_count fuel its jExit hl
  refine ⟨hge, ?_, ?_, ?_, ?_, ?_, ?_, ?_, ?_⟩
  · rw [hsA]
    exact le_max_left _ _
  · rw [hsW]
    exact le_max_left _ _
  · rw [hsW]
    exact le_trans (le_max_left _ _) (le_max_right _ _)
  · rw [hsW]
    exact le_trans (le_max_right _ _) (le_max_right _ _)
  · rw [hsD]
    exact le_max_left _ _
  · rw [hsD]
    exact le_max_right _ _
  · refine ⟨its, jExit, gelqf_last m n shiftA lda batch_count jExit, ?_, ?_⟩
    · rw [gelqf_template_blocked cfg gelq2_status fuel m n shiftA lda batch_count
        hm hn hb hbig, hrun]
    · intro it hit t b hap
      obtain ⟨i, -, rfl, hcond⟩ := hmem it hit
      generalize (i : Int) * cfg.GExQF_GExQ2_BLOCKSIZE = x at hcond hap
      by_cases hc : x + min (min m n - x) cfg.GExQF_GExQ2_BLOCKSIZE < m
      · simp only [gelqf_iter, if_pos hc, Option.some.injEq, Prod.mk.injEq] at hap
        obtain ⟨rfl, rfl⟩ := hap
        have hk2 : min (min m n - x) cfg.GExQF_GExQ2_BLOCKSIZE
            ≤ cfg.GExQF_GExQ2_BLOCKSIZE := by omega
        refine ⟨rfl, rfl, rfl, hk2, rfl, rfl, rfl, rfl, rfl, ?_⟩
        intro p r c hp0 hp1 hr0 hr1 hc0 hc1
        show 0 ≤ p * (cfg.GExQF_GExQ2_BLOCKSIZE * cfg.GExQF_GExQ2_BLOCKSIZE)
              + (0 + idx2D r c cfg.GExQF_GExQ2_BLOCKSIZE)
          ∧ p * (cfg.GExQF_GExQ2_BLOCKSIZE * cfg.GExQF_GExQ2_BLOCKSIZE)
              + (0 + idx2D r c cfg.GExQF_GExQ2_BLOCKSIZE)
            < cfg.GExQF_GExQ2_BLOCKSIZE * cfg.GExQF_GExQ2_BLOCKSIZE * batch_count
          ∧ (o.sizeofT : Int) * (p * (cfg.GExQF_GExQ2_BLOCKSIZE * cfg.GExQF_GExQ2_BLOCKSIZE)
              + (0 + idx2D r c cfg.GExQF_GExQ2_BLOCKSIZE) + 1)
            ≤ ((rocsolver_gelqf_getMemorySize cfg o BATCHED m n
                  batch_count).1.size_Abyx_norms_trfact : Int)
        have hr2 : r < min (min m n - x) cfg.GExQF_GExQ2_BLOCKSIZE := hr1
        have hc2 : c < min (min m n - x) cfg.GExQF_GExQ2_BLOCKSIZE := hc1
        have hrB : r ≤ cfg.GExQF_GExQ2_BLOCKSIZE - 1 := by omega
        have hcB : c ≤ cfg.GExQF_GExQ2_BLOCKSIZE - 1 := by omega
        have hB0 : 0 ≤ cfg.GExQF_GExQ2_BLOCKSIZE := by omega
        have hBB : 0 ≤ cfg.GExQF_GExQ2_BLOCKSIZE * cfg.GExQF_GExQ2_BLOCKSIZE :=
          mul_nonneg hB0 hB0
        have e1 : p * (cfg.GExQF_GExQ2_BLOCKSIZE * cfg.GExQF_GExQ2_BLOCKSIZE)
            ≤ (batch_count - 1) * (cfg.GExQF_GExQ2_BLOCKSIZE * cfg.GExQF_GExQ2_BLOCKSIZE) :=
          mul_le_mul_of_nonneg_right (by omega) hBB
        have e2 : c * cfg.GExQF_GExQ2_BLOCKSIZE
            ≤ (cfg.GExQF_GExQ2_BLOCKSIZE - 1) * cfg.GExQF_GExQ2_BLOCKSIZE :=
          mul_le_mul_of_nonneg_right hcB hB0
        have e3 : 0 ≤ p * (cfg.GExQF_GExQ2_BLOCKSIZE * cfg.GExQF_GExQ2_BLOCKSIZE) :=
          mul_nonneg hp0 hBB
        have e4 : 0 ≤ c * cfg.GExQF_GExQ2_BLOCKSIZE := mul_nonneg hc0 hB0
        have hlt : p * (cfg.GExQF_GExQ2_BLOCKSIZE * cfg.GExQF_GExQ2_BLOCKSIZE)
              + (0 + idx2D r c cfg.GExQF_GExQ2_BLOCKSIZE)
            < cfg.GExQF_GExQ2_BLOCKSIZE * cfg.GExQF_GExQ2_BLOCKSIZE * batch_count := by
          unfold idx2D
          nlinarith
        refine ⟨?_, hlt, ?_⟩
        · unfold idx2D
          linarith
        · have hs0 : (0 : Int) ≤ (o.sizeofT : Int) := Int.ofNat_nonneg _
          have e5 : (o.sizeofT : Int)
                * (p * (cfg.GExQF_GExQ2_BLOCKSIZE * cfg.GExQF_GExQ2_BLOCKSIZE)
                    + (0 + idx2D r c cfg.GExQF_GExQ2_BLOCKSIZE) + 1)
              ≤ (o.sizeofT : Int)
                * (cfg.GExQF_GExQ2_BLOCKSIZE * cfg.GExQF_GExQ2_BLOCKSIZE * batch_count) :=
            mul_le_mul_of_nonneg_left (Int.add_one_le_iff.mpr hlt) hs0
          have e6 : (o.sizeofT : Int)
                * (cfg.GExQF_GExQ2_BLOCKSIZE * cfg.GExQF_GExQ2_BLOCKSIZE * batch_count)
              = (o.sizeofT : Int) * cfg.GExQF_GExQ2_BLOCKSIZE * cfg.GExQF_GExQ2_BLOCKSIZE
                * batch_count := by ring
          linarith
      · simp only [gelqf_iter, if_neg hc] at hap
        exact Option.noConfusion hap
  · unfold idx2D
    ring

/-- Witness for `gelqf_trfact_size_covers`: a `6 × 4` problem with switch size `2`, block
size `2`, `sizeof(T) = 8` and one batch instance reports at least `8 * 2 * 2 * 1` bytes for
the triangular factor. -/
theorem gelqf_trfact_size_covers_witness :
    ((8 : Nat) : Int) * 2 * 2 * 1
      ≤ ((rocsolver_gelqf_getMemorySize ⟨2, 2⟩
            ⟨8, fun _ _ _ => ⟨0, 0, 0, 0⟩, fun _ _ _ => ⟨0, 0, 0⟩, fun _ _ _ _ _ => ⟨0, 0, 0⟩⟩
            false 6 4 1).1.size_Abyx_norms_trfact : Int) :=
  (gelqf_trfact_size_covers ⟨2, 2⟩
    ⟨8, fun _ _ _ => ⟨0, 0, 0, 0⟩, fun _ _ _ => ⟨0, 0, 0⟩, fun _ _ _ _ _ => ⟨0, 0, 0⟩⟩
    false (fun _ => rocblas_status_success) 2 6 4 0 6 1
    (by decide) (by decide) (by decide) (by decide) (by decide) (by decide) (by decide)).1

/-! ### The kernel `org2l_init_ident` -/

end RocSolver
